import Mathlib

/-!
# Geometry shader generator (Source/Core/VideoCommon/GeometryShaderGen.cpp)

A shallow embedding of `GenerateGeometryShader`, `EmitVertex`, `EndPrimitive` and of the two
entry points `GetGeometryShaderUid` and `GenerateGeometryShaderCode`.

The generator is a template over the output object `T`.  Every effect it has on `out` is a call
of `out.Write(fmt, ...)` or a call of one of the two vertex-output-shape helpers
(`GenerateVSOutputMembers`, `AssignVSOutputMembers`), so the embedding first lists those calls
in source order (`Call`) and then runs them against the sink.  The global `g_ActiveConfig` is
passed as an explicit `VideoConfig`, the static array `text` lives in an explicit `Memory`.
-/

namespace GeometryShaderGen

/-! ## Inputs -/

/-- The two instantiations of the template parameter `ApiType` made by the entry points. -/
inductive API_TYPE where
  | API_OPENGL
  | API_D3D11
  deriving DecidableEq, Repr

/-- Modelled from the spec: the primitive kind enumeration is declared in a header that is not
among the sources; the kinds are numbered POINTS, LINES, TRIANGLES by their index. -/
def PRIMITIVE_POINTS : Nat := 0

/-- Modelled from the spec: see `PRIMITIVE_POINTS`. -/
def PRIMITIVE_LINES : Nat := 1

/-- Modelled from the spec: see `PRIMITIVE_POINTS`. -/
def PRIMITIVE_TRIANGLES : Nat := 2

/-- The fields of `g_ActiveConfig.backend_info` read by the generator. -/
structure BackendInfo where
  bSupportsPixelLighting : Bool
  bSupportsGSInstancing : Bool
  bSupportsBindingLayout : Bool
  deriving DecidableEq, Repr

/-- The fields of `g_ActiveConfig` read by the generator. -/
structure VideoConfig where
  bWireFrame : Bool
  iStereoMode : Int
  bEnablePixelLighting : Bool
  backend_info : BackendInfo
  deriving DecidableEq, Repr

/-- The transform state `xfr`.  The generator reads `numTexGen.numTexGens` and
`numChan.numColorChans`; `rest` stands for every other register of the transform unit, which the
generator hands to the vertex-output-shape helpers together with the two it reads. -/
structure XFMemory where
  numTexGens : Nat
  numColorChans : Nat
  rest : List Nat
  deriving DecidableEq, Repr

/-- Modelled from the spec: `geometry_shader_uid_data` is declared in GeometryShaderGen.h, which
is not among the sources.  The Variant Key is a fixed-layout record of the primitive kind, the
wireframe flag, the stereo flag, the texture-coordinate-generator count and the per-pixel
lighting flag, each stored with no data loss. -/
structure geometry_shader_uid_data where
  primitive_type : Nat
  wireframe : Bool
  stereo : Bool
  numTexGens : Nat
  pixel_lighting : Bool
  deriving DecidableEq, Repr

/-! ## Calls issued on the output object -/

/-- One variadic argument of `Write`: a `%s` string, a `%d` value of type `unsigned int` or
`int`, or a `const char*` read past the end of a lookup table. -/
inductive Arg where
  | s (v : String)
  | d (v : Nat)
  | invalid
  deriving DecidableEq, Repr

/-- A call the generator issues on `out`: `out.Write(fmt, args...)`, or one of the two
vertex-output-shape helpers with the arguments the generator passes (`qualifier` is `none`
where the source leaves the default `nullptr`). -/
inductive Call where
  | Write (fmt : String) (args : List Arg)
  | GenerateVSOutputMembers (ApiType : API_TYPE) (enable_pl : Bool) (xfr : XFMemory)
      (qualifier : Option String)
  | AssignVSOutputMembers (ApiType : API_TYPE) (a b : String) (enable_pl : Bool) (xfr : XFMemory)
  deriving DecidableEq, Repr

/-- Modelled from the spec: the vertex-output-shape describer (`GenerateVSOutputMembers` and
`AssignVSOutputMembers`, declared in VertexShaderGen.h, not among the sources).  Each helper
only emits text on the sink; the text is a function of the template backend and of the
arguments the generator passes. -/
structure VSOutputShape where
  GenerateVSOutputMembers : API_TYPE → Bool → XFMemory → Option String → List Char
  AssignVSOutputMembers : API_TYPE → String → String → Bool → XFMemory → List Char

/-- Modelled from the spec: the uniform block holds a per-eye stereo offset vector.  The macro
that names it is defined in a header that is not among the sources; `cstereo` stands for that
name. -/
def I_STEREOPARAMS : String := "cstereo"

/-- Modelled from the spec: the uniform block holds the line/point sizing parameters.  The
macro that names them is defined in a header that is not among the sources; `clinept` stands
for that name. -/
def I_LINEPTPARAMS : String := "clinept"

/-- Modelled from the spec: the uniform block holds a texture-coordinate-offset integer vector.
The macro that names it is defined in a header that is not among the sources; `ctexoffset`
stands for that name. -/
def I_TEXOFFSET : String := "ctexoffset"

/-- The lookup table `primitives_ogl`. -/
def primitives_ogl : List String := ["points", "lines", "triangles"]

/-- The lookup table `primitives_d3d`. -/
def primitives_d3d : List String := ["point", "line", "triangle"]

/-- Reading `table[i]` and passing it to `%s`: in range it is the table entry, out of range the
pointer is indeterminate. -/
def tableArg (table : List String) (i : Nat) : Arg :=
  match table[i]? with
  | some v => Arg.s v
  | none => Arg.invalid

/-! ## Formatting -/

/-- `%d` applied to a 32-bit value: values from 2^31 on print as negative numbers. -/
def fmt_d (v : Nat) : List Char :=
  if v % 2 ^ 32 < 2 ^ 31 then (Nat.repr (v % 2 ^ 32)).data
  else '-' :: (Nat.repr (2 ^ 32 - v % 2 ^ 32)).data

/-- The text `vsprintf` produces for a format and its arguments; only the conversions the
generator uses (`%s`, `%d`) are interpreted. -/
def vsprintf : List Char → List Arg → List Char
  | [], _ => []
  | '%' :: 's' :: fmt, Arg.s v :: args => v.data ++ vsprintf fmt args
  | '%' :: 's' :: fmt, Arg.invalid :: args => vsprintf fmt args
  | '%' :: 'd' :: fmt, Arg.d v :: args => fmt_d v ++ vsprintf fmt args
  | c :: fmt, args => c :: vsprintf fmt args

/-- The text one call puts on a text sink. -/
def Call.text (H : VSOutputShape) : Call → List Char
  | Call.Write fmt args => vsprintf fmt.data args
  | Call.GenerateVSOutputMembers api pl xfr q => H.GenerateVSOutputMembers api pl xfr q
  | Call.AssignVSOutputMembers api a b pl xfr => H.AssignVSOutputMembers api a b pl xfr

/-- The whole text of a sequence of calls. -/
def callsText (H : VSOutputShape) : List Call → List Char
  | [] => []
  | c :: cs => c.text H ++ callsText H cs

/-! ## The helpers `EmitVertex` and `EndPrimitive` (lines 313-344) -/

/-- `EmitVertex<T, ApiType>(out, vertex, first_vertex, enable_pl, xfr)`. -/
def EmitVertex (cfg : VideoConfig) (ApiType : API_TYPE) (vertex : String)
    (first_vertex enable_pl : Bool) (xfr : XFMemory) : List Call :=
  (if cfg.bWireFrame && first_vertex then
    [Call.Write "\tif (i == 0) first = %s;\n" [Arg.s vertex]]
  else []) ++
  (if ApiType = API_TYPE.API_OPENGL then
    [Call.Write "\tgl_Position = %s.pos;\n" [Arg.s vertex],
     Call.AssignVSOutputMembers ApiType "ps" vertex enable_pl xfr]
  else
    [Call.Write "\tps.o = %s;\n" [Arg.s vertex]]) ++
  (if ApiType = API_TYPE.API_OPENGL then
    [Call.Write "\tEmitVertex();\n" []]
  else
    [Call.Write "\toutput.Append(ps);\n" []])

/-- `EndPrimitive<T, ApiType>(out, enable_pl, xfr)`. -/
def EndPrimitive (cfg : VideoConfig) (ApiType : API_TYPE) (enable_pl : Bool)
    (xfr : XFMemory) : List Call :=
  (if cfg.bWireFrame then EmitVertex cfg ApiType "first" false enable_pl xfr else []) ++
  (if ApiType = API_TYPE.API_OPENGL then
    [Call.Write "\tEndPrimitive();\n" []]
  else
    [Call.Write "\toutput.RestartStrip();\n" []])

/-! ## The text part of `GenerateGeometryShader` (lines 75-304), in source order -/

/-- Lines 75-88: the OpenGL layout parameters. -/
def layoutParameters (cfg : VideoConfig) (ApiType : API_TYPE) (primitive_type vertex_out : Nat) :
    List Call :=
  if ApiType = API_TYPE.API_OPENGL then
    if cfg.backend_info.bSupportsGSInstancing then
      [Call.Write "layout(%s, invocations = %d) in;\n"
         [tableArg primitives_ogl primitive_type, Arg.d (if cfg.iStereoMode > 0 then 2 else 1)],
       Call.Write "layout(%s_strip, max_vertices = %d) out;\n"
         [Arg.s (if cfg.bWireFrame then "line" else "triangle"), Arg.d vertex_out]]
    else
      [Call.Write "layout(%s) in;\n" [tableArg primitives_ogl primitive_type],
       Call.Write "layout(%s_strip, max_vertices = %d) out;\n"
         [Arg.s (if cfg.bWireFrame then "line" else "triangle"),
          Arg.d (if cfg.iStereoMode > 0 then vertex_out * 2 % 2 ^ 32 else vertex_out)]]
  else []

/-- Lines 90-105: the uniform block and the struct `VS_OUTPUT`. -/
def uniformsAndStruct (cfg : VideoConfig) (ApiType : API_TYPE) (lightingEnabled : Bool)
    (xfr : XFMemory) : List Call :=
  (if ApiType = API_TYPE.API_OPENGL then
    [Call.Write "layout(std140%s) uniform GSBlock \x7b\n"
       [Arg.s (if cfg.backend_info.bSupportsBindingLayout then ", binding = 3" else "")]]
  else
    [Call.Write "cbuffer GSBlock \x7b\n" []]) ++
  [Call.Write
     ("\tfloat4 " ++ I_STEREOPARAMS ++ ";\n" ++
      "\tfloat4 " ++ I_LINEPTPARAMS ++ ";\n" ++
      "\tint4 " ++ I_TEXOFFSET ++ ";\n" ++
      "\x7d;\n") [],
   Call.Write "struct VS_OUTPUT \x7b\n" [],
   Call.GenerateVSOutputMembers ApiType lightingEnabled xfr none,
   Call.Write "\x7d;\n" []]

/-- Lines 107-148: the vertex streams and the head of `main`. -/
def vertexDataAndMain (cfg : VideoConfig) (ApiType : API_TYPE) (primitive_type vertex_in
    vertex_out : Nat) (lightingEnabled : Bool) (xfr : XFMemory) : List Call :=
  if ApiType = API_TYPE.API_OPENGL then
    (if cfg.backend_info.bSupportsGSInstancing then
      [Call.Write "#define InstanceID gl_InvocationID\n" []]
    else []) ++
    [Call.Write "in VertexData \x7b\n" [],
     Call.GenerateVSOutputMembers ApiType lightingEnabled xfr
       (some (if cfg.backend_info.bSupportsBindingLayout then "centroid" else "centroid in")),
     Call.Write "\x7d vs[%d];\n" [Arg.d vertex_in],
     Call.Write "out VertexData \x7b\n" [],
     Call.GenerateVSOutputMembers ApiType lightingEnabled xfr
       (some (if cfg.backend_info.bSupportsBindingLayout then "centroid" else "centroid out"))] ++
    (if cfg.iStereoMode > 0 then [Call.Write "\tflat int layer;\n" []] else []) ++
    [Call.Write "\x7d ps;\n" [],
     Call.Write "void main()\n\x7b\n" []]
  else
    [Call.Write "struct VertexData \x7b\n" [],
     Call.Write "\tVS_OUTPUT o;\n" []] ++
    (if cfg.iStereoMode > 0 then
      [Call.Write "\tuint layer : SV_RenderTargetArrayIndex;\n" []]
    else []) ++
    [Call.Write "\x7d;\n" []] ++
    (if cfg.backend_info.bSupportsGSInstancing then
      [Call.Write "[maxvertexcount(%d)]\n[instance(%d)]\n"
         [Arg.d vertex_out, Arg.d (if cfg.iStereoMode > 0 then 2 else 1)],
       Call.Write
         "void main(%s VS_OUTPUT o[%d], inout %sStream<VertexData> output, in uint InstanceID : SV_GSInstanceID)\n\x7b\n"
         [tableArg primitives_d3d primitive_type, Arg.d vertex_in,
          Arg.s (if cfg.bWireFrame then "Line" else "Triangle")]]
    else
      [Call.Write "[maxvertexcount(%d)]\n"
         [Arg.d (if cfg.iStereoMode > 0 then vertex_out * 2 % 2 ^ 32 else vertex_out)],
       Call.Write "void main(%s VS_OUTPUT o[%d], inout %sStream<VertexData> output)\n\x7b\n"
         [tableArg primitives_d3d primitive_type, Arg.d vertex_in,
          Arg.s (if cfg.bWireFrame then "Line" else "Triangle")]]) ++
    [Call.Write "\tVertexData ps;\n" []]

/-- Lines 150-197: the setup made once before the per-vertex loop. -/
def primitiveSetup (ApiType : API_TYPE) (primitive_type : Nat) (lightingEnabled : Bool)
    (xfr : XFMemory) : List Call :=
  if primitive_type = PRIMITIVE_LINES then
    (if ApiType = API_TYPE.API_OPENGL then
      [Call.Write "\tVS_OUTPUT start, end;\n" [],
       Call.AssignVSOutputMembers ApiType "start" "vs[0]" lightingEnabled xfr,
       Call.AssignVSOutputMembers ApiType "end" "vs[1]" lightingEnabled xfr]
    else
      [Call.Write "\tVS_OUTPUT start = o[0];\n" [],
       Call.Write "\tVS_OUTPUT end = o[1];\n" []]) ++
    [Call.Write
       ("\tfloat2 offset;\n" ++
        "\tfloat2 to = abs(end.pos.xy / end.pos.w - start.pos.xy / start.pos.w);\n" ++
        "\tif (" ++ I_LINEPTPARAMS ++ ".y * to.y > " ++ I_LINEPTPARAMS ++ ".x * to.x) \x7b\n" ++
        "\t\toffset = float2(" ++ I_LINEPTPARAMS ++ ".z / " ++ I_LINEPTPARAMS ++ ".x, 0);\n" ++
        "\t\x7d else \x7b\n" ++
        "\t\toffset = float2(0, -" ++ I_LINEPTPARAMS ++ ".z / " ++ I_LINEPTPARAMS ++ ".y);\n" ++
        "\t\x7d\n") []]
  else if primitive_type = PRIMITIVE_POINTS then
    (if ApiType = API_TYPE.API_OPENGL then
      [Call.Write "\tVS_OUTPUT center;\n" [],
       Call.AssignVSOutputMembers ApiType "center" "vs[0]" lightingEnabled xfr]
    else
      [Call.Write "\tVS_OUTPUT center = o[0];\n" []]) ++
    [Call.Write
       ("\tfloat2 offset = float2(" ++ I_LINEPTPARAMS ++ ".w / " ++ I_LINEPTPARAMS ++ ".x, -" ++
        I_LINEPTPARAMS ++ ".w / " ++ I_LINEPTPARAMS ++ ".y) * center.pos.w;\n") []]
  else []

/-- Lines 199-207: how the eye index is obtained when stereo is active. -/
def stereoEye (cfg : VideoConfig) : List Call :=
  if cfg.iStereoMode > 0 then
    if cfg.backend_info.bSupportsGSInstancing then
      [Call.Write "\tint eye = InstanceID;\n" []]
    else
      [Call.Write "\tfor (int eye = 0; eye < 2; ++eye) \x7b\n" []]
  else []

/-- Lines 209-212: the holder of the first vertex and the head of the per-vertex loop. -/
def loopHead (cfg : VideoConfig) (vertex_in : Nat) : List Call :=
  (if cfg.bWireFrame then [Call.Write "\tVS_OUTPUT first;\n" []] else []) ++
  [Call.Write "\tfor (int i = 0; i < %d; ++i) \x7b\n" [Arg.d vertex_in]]

/-- Lines 214-239: reading the working vertex `f` and the stereo layer and shift. -/
def workingVertex (cfg : VideoConfig) (ApiType : API_TYPE) (lightingEnabled : Bool)
    (xfr : XFMemory) : List Call :=
  (if ApiType = API_TYPE.API_OPENGL then
    [Call.Write "\tVS_OUTPUT f;\n" [],
     Call.AssignVSOutputMembers ApiType "f" "vs[i]" lightingEnabled xfr]
  else
    [Call.Write "\tVS_OUTPUT f = o[i];\n" []]) ++
  (if cfg.iStereoMode > 0 then
    [Call.Write "\tps.layer = eye;\n" []] ++
    (if ApiType = API_TYPE.API_OPENGL then [Call.Write "\tgl_Layer = eye;\n" []] else []) ++
    [Call.Write
       ("\tf.pos.x += " ++ I_STEREOPARAMS ++ "[eye] * (f.pos.w - " ++ I_STEREOPARAMS ++
        "[2]);\n") []]
  else [])

/-- Lines 252-256: `for (unsigned int i = 0; i < numTexGens; ++i)`, with `remaining` iterations
still to run and the counter at `i`. -/
def lineTexOffsetLoop : (remaining : Nat) → (i : Nat) → List Call
  | 0, _ => []
  | remaining + 1, i =>
    [Call.Write ("\tif (((" ++ I_TEXOFFSET ++ "[0] >> %d) & 0x1) != 0)\n") [Arg.d i],
     Call.Write "\t\tr.tex%d.x += texOffset;\n" [Arg.d i]] ++
    lineTexOffsetLoop remaining (i + 1)

/-- Lines 277-284: `for (unsigned int i = 0; i < numTexGens; ++i)`, with `remaining` iterations
still to run and the counter at `i`. -/
def pointTexOffsetLoop : (remaining : Nat) → (i : Nat) → List Call
  | 0, _ => []
  | remaining + 1, i =>
    [Call.Write ("\tif (((" ++ I_TEXOFFSET ++ "[1] >> %d) & 0x1) != 0) \x7b\n") [Arg.d i],
     Call.Write "\t\tll.tex%d.xy += float2(0,1) * texOffset;\n" [Arg.d i],
     Call.Write "\t\tlr.tex%d.xy += texOffset;\n" [Arg.d i],
     Call.Write "\t\tur.tex%d.xy += float2(1,0) * texOffset;\n" [Arg.d i],
     Call.Write "\t\x7d\n" []] ++
    pointTexOffsetLoop remaining (i + 1)

/-- Lines 243-257: the two line vertices and their texture-coordinate bias. -/
def lineExpansion (xfr : XFMemory) : List Call :=
  [Call.Write ("\tVS_OUTPUT l = f;\n" ++ "\tVS_OUTPUT r = f;\n") [],
   Call.Write ("\tl.pos.xy -= offset * l.pos.w;\n" ++ "\tr.pos.xy += offset * r.pos.w;\n") [],
   Call.Write ("\tif (" ++ I_TEXOFFSET ++ "[2] != 0) \x7b\n") [],
   Call.Write ("\tfloat texOffset = 1.0 / float(" ++ I_TEXOFFSET ++ "[2]);\n") []] ++
  lineTexOffsetLoop xfr.numTexGens 0 ++
  [Call.Write "\t\x7d\n" []]

/-- Lines 264-285: the four point corners and their texture-coordinate bias. -/
def pointExpansion (xfr : XFMemory) : List Call :=
  [Call.Write
     ("\tVS_OUTPUT ll = f;\n" ++ "\tVS_OUTPUT lr = f;\n" ++ "\tVS_OUTPUT ul = f;\n" ++
      "\tVS_OUTPUT ur = f;\n") [],
   Call.Write
     ("\tll.pos.xy += float2(-1,-1) * offset;\n" ++ "\tlr.pos.xy += float2(1,-1) * offset;\n" ++
      "\tul.pos.xy += float2(-1,1) * offset;\n" ++ "\tur.pos.xy += offset;\n") [],
   Call.Write ("\tif (" ++ I_TEXOFFSET ++ "[3] != 0) \x7b\n") [],
   Call.Write
     ("\tfloat2 texOffset = float2(1.0 / float(" ++ I_TEXOFFSET ++ "[3]), 1.0 / float(" ++
      I_TEXOFFSET ++ "[3]));\n") []] ++
  pointTexOffsetLoop xfr.numTexGens 0 ++
  [Call.Write "\t\x7d\n" []]

/-- Lines 241-295: the expansion of the working vertex and the vertices emitted for it. -/
def expansion (cfg : VideoConfig) (ApiType : API_TYPE) (primitive_type : Nat)
    (lightingEnabled : Bool) (xfr : XFMemory) : List Call :=
  if primitive_type = PRIMITIVE_LINES then
    lineExpansion xfr ++
    EmitVertex cfg ApiType "l" true lightingEnabled xfr ++
    EmitVertex cfg ApiType "r" false lightingEnabled xfr
  else if primitive_type = PRIMITIVE_POINTS then
    pointExpansion xfr ++
    EmitVertex cfg ApiType "ll" true lightingEnabled xfr ++
    EmitVertex cfg ApiType "lr" false lightingEnabled xfr ++
    EmitVertex cfg ApiType "ul" false lightingEnabled xfr ++
    EmitVertex cfg ApiType "ur" false lightingEnabled xfr
  else
    EmitVertex cfg ApiType "f" true lightingEnabled xfr

/-- Lines 214-295: everything between the head of the per-vertex loop and its closing brace. -/
def loopBody (cfg : VideoConfig) (ApiType : API_TYPE) (primitive_type : Nat)
    (lightingEnabled : Bool) (xfr : XFMemory) : List Call :=
  workingVertex cfg ApiType lightingEnabled xfr ++
  expansion cfg ApiType primitive_type lightingEnabled xfr

/-- Lines 297-304: the end of the per-vertex loop, the end of the primitive, the end of the
stereo fallback loop and the end of `main`. -/
def afterLoop (cfg : VideoConfig) (ApiType : API_TYPE) (lightingEnabled : Bool)
    (xfr : XFMemory) : List Call :=
  [Call.Write "\t\x7d\n" []] ++
  EndPrimitive cfg ApiType lightingEnabled xfr ++
  (if cfg.iStereoMode > 0 && !cfg.backend_info.bSupportsGSInstancing then
    [Call.Write "\t\x7d\n" []]
  else []) ++
  [Call.Write "\x7d\n" []]

/-- Lines 75-304: every call issued on `out` after the early return of key-only mode. -/
def shaderCalls (cfg : VideoConfig) (ApiType : API_TYPE) (primitive_type vertex_in
    vertex_out : Nat) (lightingEnabled : Bool) (xfr : XFMemory) : List Call :=
  layoutParameters cfg ApiType primitive_type vertex_out ++
  uniformsAndStruct cfg ApiType lightingEnabled xfr ++
  vertexDataAndMain cfg ApiType primitive_type vertex_in vertex_out lightingEnabled xfr ++
  primitiveSetup ApiType primitive_type lightingEnabled xfr ++
  stereoEye cfg ++
  loopHead cfg vertex_in ++
  loopBody cfg ApiType primitive_type lightingEnabled xfr ++
  afterLoop cfg ApiType lightingEnabled xfr

/-! ## Memory and the two output objects -/

/-- What a non-null `char*` buffer pointer designates: the static array `text` of this file, or
storage the caller handed to the sink. -/
inductive BufRef where
  | static_text
  | caller
  deriving DecidableEq, Repr

/-- The character storage the generator can touch.  `text` is the array
`static char text[GEOMETRYSHADERGEN_BUFFERSIZE]`, so its length is the buffer size; a cell holds
one character (all emitted text is ASCII, one character is one byte). -/
structure Memory where
  text : List Char
  caller : List Char
  deriving DecidableEq, Repr

/-- The constant `GEOMETRYSHADERGEN_BUFFERSIZE`, which is `sizeof(text)`. -/
def GEOMETRYSHADERGEN_BUFFERSIZE (mem : Memory) : Nat := mem.text.length

/-- The cells behind a buffer pointer. -/
def Memory.cells (mem : Memory) : BufRef → List Char
  | BufRef.static_text => mem.text
  | BufRef.caller => mem.caller

/-- Replace the cells behind a buffer pointer. -/
def Memory.setCells (mem : Memory) : BufRef → List Char → Memory
  | BufRef.static_text, cs => { mem with text := cs }
  | BufRef.caller, cs => { mem with caller := cs }

/-- Storing `data` from cell `pos` on, one cell after the other; a store past the end of the
array does not land in the array. -/
def poke (buf : List Char) (pos : Nat) : List Char → List Char
  | [] => buf
  | c :: cs => poke (buf.set pos c) (pos + 1) cs

/-- The canary byte 0x7C. -/
def canary : Char := Char.ofNat 0x7C

/-- The string terminator. -/
def NUL : Char := Char.ofNat 0

/-- The C string that starts at the first cell of a buffer. -/
def cstring (buf : List Char) : List Char := buf.takeWhile (fun c => c != NUL)

/-- Modelled from the spec: the text sink `ShaderCode` (declared in a header that is not among
the sources).  It holds the buffer pointer, null until a buffer is set, and the write position,
kept as an offset from the start of the buffer. -/
structure ShaderCode where
  buf : Option BufRef
  write_ptr : Nat
  deriving DecidableEq, Repr

/-- Modelled from the spec: the key sink `GeometryShaderUid` (declared in a header that is not
among the sources).  It holds the Variant Key. -/
structure GeometryShaderUid where
  data : geometry_shader_uid_data
  deriving DecidableEq, Repr

/-- Modelled from the spec: the operations both sinks expose to the generator (the Output Sink
of the spec; the classes are declared in a header that is not among the sources).
`GetUidData` is `none` where the source sees a null reference, `PutUidData` is a store through
that reference, `Write` receives the formatted text. -/
class ShaderGeneratorInterface (T : Type) where
  GetUidData : T → Option geometry_shader_uid_data
  PutUidData : T → geometry_shader_uid_data → T
  ClearUID : T → T
  GetBuffer : T → Option BufRef
  SetBuffer : T → BufRef → T
  Write : T → Memory → List Char → T × Memory

/-- Modelled from the spec: the key sink records the key fields and discards text entirely. -/
instance : ShaderGeneratorInterface GeometryShaderUid where
  GetUidData o := some o.data
  PutUidData _ d := { data := d }
  ClearUID _ := { data := { primitive_type := 0, wireframe := false, stereo := false,
                            numTexGens := 0, pixel_lighting := false } }
  GetBuffer _ := none
  SetBuffer o _ := o
  Write o mem _ := (o, mem)

/-- Modelled from the spec: the text sink has no key; `SetBuffer` puts the write position at the
start of the buffer; `Write` stores the formatted text and its terminator at the write position
and advances the position by the length of the text, so that the buffer stays null-terminated
and the next `Write` overwrites the terminator. -/
instance : ShaderGeneratorInterface ShaderCode where
  GetUidData _ := none
  PutUidData o _ := o
  ClearUID o := o
  GetBuffer o := o.buf
  SetBuffer _ b := { buf := some b, write_ptr := 0 }
  Write o mem s :=
    match o.buf with
    | none => (o, mem)
    | some b =>
      ({ o with write_ptr := o.write_ptr + s.length },
       mem.setCells b (poke (mem.cells b) o.write_ptr (s ++ [NUL])))

open ShaderGeneratorInterface in
/-- Issue the calls on the sink, in order. -/
def runCalls {T : Type} [ShaderGeneratorInterface T] (H : VSOutputShape) :
    List Call → T → Memory → T × Memory
  | [], out, mem => (out, mem)
  | c :: cs, out, mem => runCalls H cs (Write out mem (c.text H)).1 (Write out mem (c.text H)).2

/-- What one run of the generator leaves behind: the output object, the memory, the last value
of the local reference `uid_data`, the calls issued on `out`, and whether `PanicAlert` was
raised. -/
structure GenResult (T : Type) where
  out : T
  mem : Memory
  uid_data : geometry_shader_uid_data
  calls : List Call
  alert : Bool

/-! ## The generator and its entry points -/

/-- Line 45: the local `vertex_in`, an `unsigned int`. -/
def vertex_in (primitive_type : Nat) : Nat := (primitive_type + 1) % 2 ^ 32

/-- Lines 46-50: the local `vertex_out` after the wireframe increment. -/
def vertex_out (cfg : VideoConfig) (primitive_type : Nat) : Nat :=
  let vertex_out : Nat := if primitive_type = PRIMITIVE_TRIANGLES then 3 else 4
  if cfg.bWireFrame then vertex_out + 1 else vertex_out

/-- Lines 55-56: the local `lightingEnabled`. -/
def lightingEnabled (cfg : VideoConfig) (xfr : XFMemory) : Bool :=
  decide (xfr.numColorChans > 0) && cfg.bEnablePixelLighting
    && cfg.backend_info.bSupportsPixelLighting

open ShaderGeneratorInterface in
/-- `GenerateGeometryShader<T, ApiType, is_writing_shadercode>(out, primitive_type, xfr)`.
`dummy_data` is the uninitialised local of that name, `cfg` is `g_ActiveConfig`. -/
def GenerateGeometryShader {T : Type} [ShaderGeneratorInterface T] (H : VSOutputShape)
    (cfg : VideoConfig) (dummy_data : geometry_shader_uid_data) (mem : Memory)
    (ApiType : API_TYPE) (is_writing_shadercode : Bool)
    (out : T) (primitive_type : Nat) (xfr : XFMemory) : GenResult T :=
  let uidPresent : Bool := (GetUidData out).isSome
  let out := if uidPresent then ClearUID out else out
  let uid_data := (GetUidData out).getD dummy_data
  let uid_data := { uid_data with primitive_type := primitive_type }
  let uid_data := { uid_data with wireframe := cfg.bWireFrame }
  let uid_data := { uid_data with stereo := decide (cfg.iStereoMode > 0) }
  let uid_data := { uid_data with numTexGens := xfr.numTexGens }
  let uid_data := { uid_data with pixel_lighting := lightingEnabled cfg xfr }
  let out := if uidPresent then PutUidData out uid_data else out
  if is_writing_shadercode then
    let codebuffer : BufRef := (GetBuffer out).getD BufRef.static_text
    let out := if (GetBuffer out).isNone then SetBuffer out BufRef.static_text else out
    let mem := mem.setCells codebuffer
      ((mem.cells codebuffer).set (mem.text.length - 1) canary)
    let calls := shaderCalls cfg ApiType primitive_type (vertex_in primitive_type)
      (vertex_out cfg primitive_type) (lightingEnabled cfg xfr) xfr
    let r := runCalls H calls out mem
    let alert : Bool :=
      decide ((r.2.cells codebuffer)[GEOMETRYSHADERGEN_BUFFERSIZE r.2 - 1]? ≠ some canary)
    { out := r.1, mem := r.2, uid_data := uid_data, calls := calls, alert := alert }
  else
    { out := out, mem := mem, uid_data := uid_data, calls := [], alert := false }

/-- `GetGeometryShaderUid(object, primitive_type, ApiType, xfr)`. -/
def GetGeometryShaderUid (H : VSOutputShape) (cfg : VideoConfig)
    (dummy_data : geometry_shader_uid_data) (mem : Memory)
    (object : GeometryShaderUid) (primitive_type : Nat) (ApiType : API_TYPE) (xfr : XFMemory) :
    GenResult GeometryShaderUid :=
  if ApiType = API_TYPE.API_OPENGL then
    GenerateGeometryShader H cfg dummy_data mem API_TYPE.API_OPENGL false object primitive_type xfr
  else
    GenerateGeometryShader H cfg dummy_data mem API_TYPE.API_D3D11 false object primitive_type xfr

/-- `GenerateGeometryShaderCode(object, primitive_type, ApiType, xfr)`. -/
def GenerateGeometryShaderCode (H : VSOutputShape) (cfg : VideoConfig)
    (dummy_data : geometry_shader_uid_data) (mem : Memory)
    (object : ShaderCode) (primitive_type : Nat) (ApiType : API_TYPE) (xfr : XFMemory) :
    GenResult ShaderCode :=
  if ApiType = API_TYPE.API_OPENGL then
    GenerateGeometryShader H cfg dummy_data mem API_TYPE.API_OPENGL true object primitive_type xfr
  else
    GenerateGeometryShader H cfg dummy_data mem API_TYPE.API_D3D11 true object primitive_type xfr

/-! ## Auxiliary definitions used to state the properties -/

/-- The helpers read nothing of the transform state but the texture-coordinate-generator
count: two transform states with the same count get the same text. -/
def VSOutputShape.ReadsOnlyTexGens (H : VSOutputShape) : Prop :=
  (∀ api pl x y q, x.numTexGens = y.numTexGens →
      H.GenerateVSOutputMembers api pl x q = H.GenerateVSOutputMembers api pl y q) ∧
  (∀ api a b pl x y, x.numTexGens = y.numTexGens →
      H.AssignVSOutputMembers api a b pl x = H.AssignVSOutputMembers api a b pl y)

/-- A sample member list of the vertex output struct: the position, one entry per
texture-coordinate generator and, with per-pixel lighting, the normal. -/
def sampleMembers (pl : Bool) (x : XFMemory) (q : Option String) : List Char :=
  ("\t" ++ q.getD "" ++ " float4 pos;\n").data ++
  (List.range x.numTexGens).flatMap (fun i => "\tfloat3 tex".data ++ fmt_d i ++ ";\n".data) ++
  (if pl then "\tfloat4 Normal;\n".data else [])

/-- A sample member-wise assignment `a = b` over the members of `sampleMembers`. -/
def sampleAssign (a b : String) (pl : Bool) (x : XFMemory) : List Char :=
  ("\t" ++ a ++ ".pos = " ++ b ++ ".pos;\n").data ++
  (List.range x.numTexGens).flatMap
    (fun i => ("\t" ++ a ++ ".tex").data ++ fmt_d i ++ (" = " ++ b ++ ".tex").data ++
      fmt_d i ++ ";\n".data) ++
  (if pl then ("\t" ++ a ++ ".Normal = " ++ b ++ ".Normal;\n").data else [])

/-- A sample vertex-output-shape describer, used where a theorem is instantiated at a concrete
input. -/
def sampleShape : VSOutputShape :=
  ⟨fun _ pl x q => sampleMembers pl x q, fun _ a b pl x => sampleAssign a b pl x⟩

/-- The all-zero key, as `ClearUID` leaves it. -/
def zeroUid : geometry_shader_uid_data :=
  { primitive_type := 0, wireframe := false, stereo := false, numTexGens := 0,
    pixel_lighting := false }

/-- A render configuration with everything off on a backend without capabilities. -/
def plainConfig : VideoConfig :=
  { bWireFrame := false, iStereoMode := 0, bEnablePixelLighting := false,
    backend_info := { bSupportsPixelLighting := false, bSupportsGSInstancing := false,
                      bSupportsBindingLayout := false } }

/-- The configuration `plainConfig` on a backend that supports multi-invocation. -/
def instancingConfig : VideoConfig :=
  { plainConfig with backend_info := { plainConfig.backend_info with
      bSupportsGSInstancing := true } }

/-- A transform state with no texture-coordinate generator and no colour channel. -/
def plainXf : XFMemory := { numTexGens := 0, numColorChans := 0, rest := [] }

/-- A static buffer of 512 blank cells and no caller buffer. -/
def blankMemory : Memory := { text := List.replicate 512 ' ', caller := [] }

/-- A text sink on which no buffer has been set. -/
def freshCode : ShaderCode := { buf := none, write_ptr := 0 }

/-- One call of an entry point together with everything it reads: the render configuration in
force, the garbage in the uninitialised local, the sink handed in and the draw state.
`full_text` selects `GenerateGeometryShaderCode`, otherwise `GetGeometryShaderUid` runs. -/
structure Invocation where
  full_text : Bool
  cfg : VideoConfig
  dummy_data : geometry_shader_uid_data
  code : ShaderCode
  key : GeometryShaderUid
  primitive_type : Nat
  ApiType : API_TYPE
  xfr : XFMemory

/-- The memory one call of an entry point leaves behind. -/
def Invocation.run (H : VSOutputShape) (i : Invocation) (mem : Memory) : Memory :=
  if i.full_text then
    (GenerateGeometryShaderCode H i.cfg i.dummy_data mem i.code i.primitive_type i.ApiType
      i.xfr).mem
  else
    (GetGeometryShaderUid H i.cfg i.dummy_data mem i.key i.primitive_type i.ApiType i.xfr).mem

/-- The memory a sequence of calls of the entry points leaves behind. -/
def runInvocations (H : VSOutputShape) : List Invocation → Memory → Memory
  | [], mem => mem
  | i :: rest, mem => runInvocations H rest (i.run H mem)

/-- The argument lists of the `Write` calls made with the format `fmt`, in order. -/
def callsWith (fmt : String) (calls : List Call) : List (List Arg) :=
  calls.filterMap fun c =>
    match c with
    | Call.Write f args => if f = fmt then some args else none
    | _ => none

/-- The formats of the `Write` calls of a sequence, in order. -/
def formats (calls : List Call) : List String :=
  calls.filterMap fun c =>
    match c with
    | Call.Write f _ => some f
    | _ => none

/-- The formats `EmitVertex` can use. -/
def emitVertexFormats : List String :=
  ["\tif (i == 0) first = %s;\n", "\tgl_Position = %s.pos;\n", "\tps.o = %s;\n",
   "\tEmitVertex();\n", "\toutput.Append(ps);\n"]

/-- The formats `EndPrimitive` can use. -/
def endPrimitiveFormats : List String :=
  emitVertexFormats ++ ["\tEndPrimitive();\n", "\toutput.RestartStrip();\n"]

/-- The formats used for the uniform block and the struct `VS_OUTPUT`. -/
def uniformsAndStructFormats : List String :=
  ["layout(std140%s) uniform GSBlock \x7b\n", "cbuffer GSBlock \x7b\n",
   "\tfloat4 " ++ I_STEREOPARAMS ++ ";\n" ++ "\tfloat4 " ++ I_LINEPTPARAMS ++ ";\n" ++
     "\tint4 " ++ I_TEXOFFSET ++ ";\n" ++ "\x7d;\n",
   "struct VS_OUTPUT \x7b\n", "\x7d;\n"]

/-- The formats used for the setup made before the per-vertex loop. -/
def primitiveSetupFormats : List String :=
  ["\tVS_OUTPUT start, end;\n", "\tVS_OUTPUT start = o[0];\n", "\tVS_OUTPUT end = o[1];\n",
   "\tfloat2 offset;\n" ++
     "\tfloat2 to = abs(end.pos.xy / end.pos.w - start.pos.xy / start.pos.w);\n" ++
     "\tif (" ++ I_LINEPTPARAMS ++ ".y * to.y > " ++ I_LINEPTPARAMS ++ ".x * to.x) \x7b\n" ++
     "\t\toffset = float2(" ++ I_LINEPTPARAMS ++ ".z / " ++ I_LINEPTPARAMS ++ ".x, 0);\n" ++
     "\t\x7d else \x7b\n" ++
     "\t\toffset = float2(0, -" ++ I_LINEPTPARAMS ++ ".z / " ++ I_LINEPTPARAMS ++ ".y);\n" ++
     "\t\x7d\n",
   "\tVS_OUTPUT center;\n", "\tVS_OUTPUT center = o[0];\n",
   "\tfloat2 offset = float2(" ++ I_LINEPTPARAMS ++ ".w / " ++ I_LINEPTPARAMS ++ ".x, -" ++
     I_LINEPTPARAMS ++ ".w / " ++ I_LINEPTPARAMS ++ ".y) * center.pos.w;\n"]

/-- The formats used to obtain the eye index. -/
def stereoEyeFormats : List String :=
  ["\tint eye = InstanceID;\n", "\tfor (int eye = 0; eye < 2; ++eye) \x7b\n"]

/-- The formats used to read the working vertex and to tag and shift it. -/
def workingVertexFormats : List String :=
  ["\tVS_OUTPUT f;\n", "\tVS_OUTPUT f = o[i];\n", "\tps.layer = eye;\n", "\tgl_Layer = eye;\n",
   "\tf.pos.x += " ++ I_STEREOPARAMS ++ "[eye] * (f.pos.w - " ++ I_STEREOPARAMS ++ "[2]);\n"]

/-- The formats used by the bias loop of the line expansion. -/
def lineTexOffsetLoopFormats : List String :=
  ["\tif (((" ++ I_TEXOFFSET ++ "[0] >> %d) & 0x1) != 0)\n", "\t\tr.tex%d.x += texOffset;\n"]

/-- The formats used by the bias loop of the point expansion. -/
def pointTexOffsetLoopFormats : List String :=
  ["\tif (((" ++ I_TEXOFFSET ++ "[1] >> %d) & 0x1) != 0) \x7b\n",
   "\t\tll.tex%d.xy += float2(0,1) * texOffset;\n", "\t\tlr.tex%d.xy += texOffset;\n",
   "\t\tur.tex%d.xy += float2(1,0) * texOffset;\n", "\t\x7d\n"]

/-- The formats used by the line expansion. -/
def lineExpansionFormats : List String :=
  ["\tVS_OUTPUT l = f;\n" ++ "\tVS_OUTPUT r = f;\n",
   "\tl.pos.xy -= offset * l.pos.w;\n" ++ "\tr.pos.xy += offset * r.pos.w;\n",
   "\tif (" ++ I_TEXOFFSET ++ "[2] != 0) \x7b\n",
   "\tfloat texOffset = 1.0 / float(" ++ I_TEXOFFSET ++ "[2]);\n", "\t\x7d\n"] ++
  lineTexOffsetLoopFormats

/-- The formats used by the point expansion. -/
def pointExpansionFormats : List String :=
  ["\tVS_OUTPUT ll = f;\n" ++ "\tVS_OUTPUT lr = f;\n" ++ "\tVS_OUTPUT ul = f;\n" ++
     "\tVS_OUTPUT ur = f;\n",
   "\tll.pos.xy += float2(-1,-1) * offset;\n" ++ "\tlr.pos.xy += float2(1,-1) * offset;\n" ++
     "\tul.pos.xy += float2(-1,1) * offset;\n" ++ "\tur.pos.xy += offset;\n",
   "\tif (" ++ I_TEXOFFSET ++ "[3] != 0) \x7b\n",
   "\tfloat2 texOffset = float2(1.0 / float(" ++ I_TEXOFFSET ++ "[3]), 1.0 / float(" ++
     I_TEXOFFSET ++ "[3]));\n"] ++
  pointTexOffsetLoopFormats

/-- The formats used between the head of the per-vertex loop and its closing brace. -/
def loopBodyFormats : List String :=
  workingVertexFormats ++ lineExpansionFormats ++ pointExpansionFormats ++ emitVertexFormats

/-- The formats used after the body of the per-vertex loop. -/
def afterLoopFormats : List String :=
  ["\t\x7d\n", "\x7d\n"] ++ endPrimitiveFormats

/-- The formats used outside the layout parameters, the vertex streams with the head of `main`,
and the head of the per-vertex loop. -/
def bodyFormats : List String :=
  uniformsAndStructFormats ++ primitiveSetupFormats ++ stereoEyeFormats ++ loopBodyFormats ++
    afterLoopFormats

/-- The sizes of the input vertex arrays the calls declare: the `%d` of `vs[%d]` on OpenGL, the
`%d` of `o[%d]` in the head of `main` on D3D11. -/
def declaredInputSizes (ApiType : API_TYPE) (calls : List Call) : List Arg :=
  match ApiType with
  | API_TYPE.API_OPENGL => (callsWith "\x7d vs[%d];\n" calls).filterMap (fun a => a[0]?)
  | API_TYPE.API_D3D11 =>
    (callsWith
      "void main(%s VS_OUTPUT o[%d], inout %sStream<VertexData> output, in uint InstanceID : SV_GSInstanceID)\n\x7b\n"
      calls ++
     callsWith "void main(%s VS_OUTPUT o[%d], inout %sStream<VertexData> output)\n\x7b\n"
      calls).filterMap (fun a => a[1]?)

/-- The iteration bounds of the per-vertex loops in the calls: the `%d` of `i < %d`. -/
def loopBounds (calls : List Call) : List Arg :=
  (callsWith "\tfor (int i = 0; i < %d; ++i) \x7b\n" calls).filterMap (fun a => a[0]?)

/-- The maximum output vertex counts the calls declare: the `%d` of `max_vertices = %d` on
OpenGL, the `%d` of `maxvertexcount(%d)` on D3D11. -/
def declaredMaxVertices (ApiType : API_TYPE) (calls : List Call) : List Arg :=
  match ApiType with
  | API_TYPE.API_OPENGL =>
    (callsWith "layout(%s_strip, max_vertices = %d) out;\n" calls).filterMap (fun a => a[1]?)
  | API_TYPE.API_D3D11 =>
    (callsWith "[maxvertexcount(%d)]\n[instance(%d)]\n" calls ++
     callsWith "[maxvertexcount(%d)]\n" calls).filterMap (fun a => a[0]?)

/-- The formats used for the layout parameters. -/
def layoutParametersFormats : List String :=
  ["layout(%s, invocations = %d) in;\n", "layout(%s_strip, max_vertices = %d) out;\n",
   "layout(%s) in;\n"]

/-- The formats used for the vertex streams and the head of `main`. -/
def vertexDataAndMainFormats : List String :=
  ["#define InstanceID gl_InvocationID\n", "in VertexData \x7b\n", "\x7d vs[%d];\n",
   "out VertexData \x7b\n", "\tflat int layer;\n", "\x7d ps;\n", "void main()\n\x7b\n",
   "struct VertexData \x7b\n", "\tVS_OUTPUT o;\n",
   "\tuint layer : SV_RenderTargetArrayIndex;\n", "\x7d;\n",
   "[maxvertexcount(%d)]\n[instance(%d)]\n",
   "void main(%s VS_OUTPUT o[%d], inout %sStream<VertexData> output, in uint InstanceID : SV_GSInstanceID)\n\x7b\n",
   "[maxvertexcount(%d)]\n",
   "void main(%s VS_OUTPUT o[%d], inout %sStream<VertexData> output)\n\x7b\n",
   "\tVertexData ps;\n"]

/-- The formats used before the per-vertex loop, the holder of the first vertex included. -/
def beforeLoopFormats : List String :=
  layoutParametersFormats ++ uniformsAndStructFormats ++ vertexDataAndMainFormats ++
    primitiveSetupFormats ++ stereoEyeFormats ++ ["\tVS_OUTPUT first;\n"]

/-- The calls made before the head of the per-vertex loop (lines 75-210). -/
def beforeLoop (cfg : VideoConfig) (ApiType : API_TYPE) (primitive_type vertex_in
    vertex_out : Nat) (lightingEnabled : Bool) (xfr : XFMemory) : List Call :=
  layoutParameters cfg ApiType primitive_type vertex_out ++
  uniformsAndStruct cfg ApiType lightingEnabled xfr ++
  vertexDataAndMain cfg ApiType primitive_type vertex_in vertex_out lightingEnabled xfr ++
  primitiveSetup ApiType primitive_type lightingEnabled xfr ++
  stereoEye cfg ++
  (if cfg.bWireFrame then [Call.Write "\tVS_OUTPUT first;\n" []] else [])

/-- The number of vertex-emission operations among the calls: `EmitVertex();` of OpenGL and
`output.Append(ps);` of D3D11. -/
def emissions (calls : List Call) : Nat :=
  (callsWith "\tEmitVertex();\n" calls).length +
  (callsWith "\toutput.Append(ps);\n" calls).length

/-- The text `vsprintf` substitutes for one argument. -/
def Arg.text : Arg → List Char
  | Arg.s v => v.data
  | Arg.d v => fmt_d v
  | Arg.invalid => []

/-- The character `x` occurs neither in the string of a `%s` argument nor in any decimal
number. -/
def Arg.avoids (x : Char) : Arg → Bool
  | Arg.s v => !v.data.contains x
  | Arg.d _ => !"-0123456789".data.contains x
  | Arg.invalid => true

/-- The character `x` occurs neither in the format nor in the arguments of a `Write`, and in
none of the strings handed to a helper. -/
def Call.avoids (x : Char) : Call → Bool
  | Call.Write f args => !f.data.contains x && args.all (Arg.avoids x)
  | Call.GenerateVSOutputMembers _ _ _ q =>
    match q with
    | none => true
    | some s => !s.data.contains x
  | Call.AssignVSOutputMembers _ a b _ _ => !a.data.contains x && !b.data.contains x

/-- The helpers emit the character `x` only if it occurs in a string they are handed. -/
def VSOutputShape.Avoids (H : VSOutputShape) (x : Char) : Prop :=
  (∀ api pl xfr q, Call.avoids x (Call.GenerateVSOutputMembers api pl xfr q) = true →
      x ∉ H.GenerateVSOutputMembers api pl xfr q) ∧
  (∀ api a b pl xfr, Call.avoids x (Call.AssignVSOutputMembers api a b pl xfr) = true →
      x ∉ H.AssignVSOutputMembers api a b pl xfr)

/-- A static buffer of 64 blank cells and no caller buffer. -/
def smallMemory : Memory := { text := List.replicate 64 ' ', caller := [] }

/-- Whether the characters `needle` occur consecutively somewhere in `hay`. -/
def hasInfix (needle : List Char) : List Char → Bool
  | [] => needle.isEmpty
  | c :: cs => needle.isPrefixOf (c :: cs) || hasInfix needle cs

/-- Whether a `Write` names a texture coordinate of a vertex, that is, whether its format
contains `.tex`. -/
def mentionsTex : Call → Bool
  | Call.Write f _ => hasInfix ".tex".data f.data
  | _ => false

/-- The braces a format opens minus the braces it closes. -/
def braceDelta (f : String) : Int :=
  (f.data.count (Char.ofNat 123) : Int) - (f.data.count (Char.ofNat 125) : Int)

/-- Where a walk through the generated statements stands: the trip counts of the blocks that
are open, innermost first, and the number of vertices emitted so far. -/
structure EmitState where
  stack : List Nat
  emitted : Nat
  deriving DecidableEq, Repr

/-- One statement of the generated program, for counting the vertices one run of `main` emits.
A vertex emission runs once for every combination of iterations of the loops around it; the
per-vertex loop runs as often as its bound says, the eye loop `eyeTrips` times (2 for a whole
run, 1 for the iterations of one eye), any other block once; a format that closes more braces
than it opens ends the innermost block.  The helpers are taken to emit neither braces nor
vertex emissions. -/
def emitStep (eyeTrips : Nat) (s : EmitState) : Call → EmitState
  | Call.Write f args =>
    if f = "\tEmitVertex();\n" ∨ f = "\toutput.Append(ps);\n" then
      { stack := s.stack, emitted := s.emitted + s.stack.prod }
    else if f = "\tfor (int i = 0; i < %d; ++i) \x7b\n" then
      { stack := (match args with
                  | [Arg.d n] => n
                  | _ => 1) :: s.stack,
        emitted := s.emitted }
    else if f = "\tfor (int eye = 0; eye < 2; ++eye) \x7b\n" then
      { stack := eyeTrips :: s.stack, emitted := s.emitted }
    else if braceDelta f > 0 then { stack := 1 :: s.stack, emitted := s.emitted }
    else if braceDelta f < 0 then { stack := s.stack.tail, emitted := s.emitted }
    else s
  | _ => s

/-- The number of vertices one run of `main` emits, the eye loop counted `eyeTrips` times. -/
def emittedVertices (eyeTrips : Nat) (calls : List Call) : Nat :=
  (calls.foldl (emitStep eyeTrips) { stack := [], emitted := 0 }).emitted

/-- A format that is no vertex emission, opens no loop and has as many opening as closing
braces. -/
def neutralFormat (f : String) : Bool :=
  f != "\tEmitVertex();\n" && f != "\toutput.Append(ps);\n" &&
  f != "\tfor (int i = 0; i < %d; ++i) \x7b\n" &&
  f != "\tfor (int eye = 0; eye < 2; ++eye) \x7b\n" && braceDelta f == 0

/-- The render configuration with another stereo mode. -/
def withStereoMode (cfg : VideoConfig) (m : Int) : VideoConfig :=
  { cfg with iStereoMode := m }

/-- The formats used outside the choice of the eye index. -/
def outsideStereoEyeFormats : List String :=
  layoutParametersFormats ++ uniformsAndStructFormats ++ vertexDataAndMainFormats ++
    primitiveSetupFormats ++
    ["\tVS_OUTPUT first;\n", "\tfor (int i = 0; i < %d; ++i) \x7b\n"] ++
    loopBodyFormats ++ afterLoopFormats

/-- Whether a call names the variable `first`: in the format or a string argument of a `Write`,
or in a string handed to a helper. -/
def namesFirst : Call → Bool
  | Call.Write f args =>
    hasInfix "first".data f.data ||
      args.any (fun a =>
        match a with
        | Arg.s v => hasInfix "first".data v.data
        | _ => false)
  | Call.GenerateVSOutputMembers _ _ _ q =>
    match q with
    | some s => hasInfix "first".data s.data
    | none => false
  | Call.AssignVSOutputMembers _ a b _ _ =>
    hasInfix "first".data a.data || hasInfix "first".data b.data

/-- The backend's end-of-strip operation. -/
def endOfStrip (ApiType : API_TYPE) : Call :=
  if ApiType = API_TYPE.API_OPENGL then Call.Write "\tEndPrimitive();\n" []
  else Call.Write "\toutput.RestartStrip();\n" []

/-- The vertex a loop iteration emits first: `l` for LINES, `ll` for POINTS, else `f`. -/
def firstEmitted (primitive_type : Nat) : String :=
  if primitive_type = PRIMITIVE_LINES then "l"
  else if primitive_type = PRIMITIVE_POINTS then "ll" else "f"

/-- The input topologies the calls declare: the first `%s` of the input layout on OpenGL, the
first `%s` of the head of `main` on D3D11. -/
def declaredInputTopology (ApiType : API_TYPE) (calls : List Call) : List Arg :=
  match ApiType with
  | API_TYPE.API_OPENGL =>
    (callsWith "layout(%s, invocations = %d) in;\n" calls ++
     callsWith "layout(%s) in;\n" calls).filterMap (fun a => a[0]?)
  | API_TYPE.API_D3D11 =>
    (callsWith
      "void main(%s VS_OUTPUT o[%d], inout %sStream<VertexData> output, in uint InstanceID : SV_GSInstanceID)\n\x7b\n"
      calls ++
     callsWith "void main(%s VS_OUTPUT o[%d], inout %sStream<VertexData> output)\n\x7b\n"
      calls).filterMap (fun a => a[0]?)

/-- The output topologies the calls declare: the `%s` of `%s_strip` in the output layout on
OpenGL, the `%s` of `%sStream` in the head of `main` on D3D11. -/
def declaredOutputTopology (ApiType : API_TYPE) (calls : List Call) : List Arg :=
  match ApiType with
  | API_TYPE.API_OPENGL =>
    (callsWith "layout(%s_strip, max_vertices = %d) out;\n" calls).filterMap (fun a => a[0]?)
  | API_TYPE.API_D3D11 =>
    (callsWith
      "void main(%s VS_OUTPUT o[%d], inout %sStream<VertexData> output, in uint InstanceID : SV_GSInstanceID)\n\x7b\n"
      calls ++
     callsWith "void main(%s VS_OUTPUT o[%d], inout %sStream<VertexData> output)\n\x7b\n"
      calls).filterMap (fun a => a[2]?)

/-- The vertex a call copies into the output vertex `ps`: the `%s` of `gl_Position = %s.pos` and
the source of the member-wise copy into `ps` on OpenGL, the `%s` of `ps.o = %s` on D3D11. -/
def stagedVertex : Call → Option String
  | Call.Write f args =>
    if f = "\tgl_Position = %s.pos;\n" ∨ f = "\tps.o = %s;\n" then
      (match args with
       | [Arg.s v] => some v
       | _ => none)
    else none
  | Call.AssignVSOutputMembers _ a b _ _ => if a = "ps" then some b else none
  | _ => none

/-- Whether a call is a vertex-emission operation. -/
def isEmission : Call → Bool
  | Call.Write f _ => f == "\tEmitVertex();\n" || f == "\toutput.Append(ps);\n"
  | _ => false

/-- The vertices the calls emit, in order: each emission sends the vertex last copied into `ps`
(`cur`, none if nothing has been copied yet). -/
def emittedNames : Option String → List Call → List (Option String)
  | _, [] => []
  | cur, c :: cs =>
    if isEmission c then cur :: emittedNames cur cs
    else
      match stagedVertex c with
      | some v => emittedNames (some v) cs
      | none => emittedNames cur cs

/-- The vertices one loop iteration is to emit: `l`, `r` for LINES, the corners `ll`, `lr`,
`ul`, `ur` for POINTS, else the working vertex `f`. -/
def emittedSequence (primitive_type : Nat) : List String :=
  if primitive_type = PRIMITIVE_LINES then ["l", "r"]
  else if primitive_type = PRIMITIVE_POINTS then ["ll", "lr", "ul", "ur"] else ["f"]

/-- The calls of `EmitVertex` for a sequence of vertices, the first one passed as the first
vertex and no other. -/
def emitAll (cfg : VideoConfig) (ApiType : API_TYPE) (lightingEnabled : Bool) (xfr : XFMemory) :
    List String → List Call
  | [] => []
  | v :: vs =>
    EmitVertex cfg ApiType v true lightingEnabled xfr ++
      vs.flatMap (fun w => EmitVertex cfg ApiType w false lightingEnabled xfr)

/-- Whether a `Write` belongs to the texture-coordinate bias: its format names a texture
coordinate of a vertex (`.tex`), the bias `texOffset`, or the offset vector of the uniform
block. -/
def biasStatement : Call → Bool
  | Call.Write f _ =>
    hasInfix ".tex".data f.data || hasInfix "texOffset".data f.data ||
      hasInfix I_TEXOFFSET.data f.data
  | _ => false

/-- A call that neither emits a vertex nor copies one into `ps`. -/
def inert (c : Call) : Bool :=
  !isEmission c && (stagedVertex c).isNone

/-- Following the spec's words, the statements in which the two backends may differ:
declarations (the layout parameters, the uniform block, the struct, the vertex streams and the
head of `main`, lines 75-148, with the members the helper lists), the reading of input vertices
into `start`, `end`, `center` and `f`, the vertex emission (the copy into `ps` and the
emission operation) and the end-of-strip operation. -/
def claimedBackendSpecific : Call → Bool
  | Call.Write f _ =>
    (layoutParametersFormats ++ uniformsAndStructFormats ++ vertexDataAndMainFormats ++
      ["\tVS_OUTPUT start, end;\n", "\tVS_OUTPUT start = o[0];\n", "\tVS_OUTPUT end = o[1];\n",
       "\tVS_OUTPUT center;\n", "\tVS_OUTPUT center = o[0];\n", "\tVS_OUTPUT f;\n",
       "\tVS_OUTPUT f = o[i];\n",
       "\tgl_Position = %s.pos;\n", "\tps.o = %s;\n", "\tEmitVertex();\n",
       "\toutput.Append(ps);\n",
       "\tEndPrimitive();\n", "\toutput.RestartStrip();\n"]).contains f
  | Call.GenerateVSOutputMembers _ _ _ _ => true
  | Call.AssignVSOutputMembers _ a _ _ _ => ["start", "end", "center", "f", "ps"].contains a

/-- The statement that sets the built-in output layer of OpenGL (line 229). -/
def layerBuiltin : Call → Bool
  | Call.Write f _ => f == "\tgl_Layer = eye;\n"
  | _ => false

/-- Following the spec's words, the statements claimed to be the same on both backends: all
that are not backend-specific. -/
def claimedShared (calls : List Call) : List Call :=
  calls.filter (fun c => !claimedBackendSpecific c)

/-- The statements that are the same on both backends: all that are neither backend-specific
nor the setting of the built-in output layer. -/
def sharedStatements (calls : List Call) : List Call :=
  calls.filter (fun c => !claimedBackendSpecific c && !layerBuiltin c)

/-- The opening brace. -/
def openBrace : Char := Char.ofNat 123

/-- The closing brace. -/
def closeBrace : Char := Char.ofNat 125

/-- The block depth after reading a text from depth `d`; none if some closing brace has no
opening brace before it. -/
def braceWalk : Nat → List Char → Option Nat
  | d, [] => some d
  | d, c :: cs =>
    if c = openBrace then braceWalk (d + 1) cs
    else if c = closeBrace then
      (match d with
       | 0 => none
       | d + 1 => braceWalk d cs)
    else braceWalk d cs

/-- An argument whose text has no brace. -/
def Arg.plain (a : Arg) : Bool := a.avoids openBrace && a.avoids closeBrace

/-- The block depth after one call, read off the format of a `Write` whose arguments have no
brace; a helper that is handed no brace leaves the depth as it is. -/
def callWalk (d : Nat) : Call → Option Nat
  | Call.Write f args => if args.all Arg.plain then braceWalk d f.data else none
  | Call.GenerateVSOutputMembers api pl x q =>
    if Call.avoids openBrace (Call.GenerateVSOutputMembers api pl x q) &&
        Call.avoids closeBrace (Call.GenerateVSOutputMembers api pl x q) then some d
    else none
  | Call.AssignVSOutputMembers api a b pl x =>
    if Call.avoids openBrace (Call.AssignVSOutputMembers api a b pl x) &&
        Call.avoids closeBrace (Call.AssignVSOutputMembers api a b pl x) then some d
    else none

/-- The block depth after a sequence of calls. -/
def callsWalk : Nat → List Call → Option Nat
  | d, [] => some d
  | d, c :: cs =>
    match callWalk d c with
    | some e => callsWalk e cs
    | none => none

/-- The call that opens `main` (lines 121, 139, 144). -/
def mainHead (cfg : VideoConfig) (ApiType : API_TYPE) (primitive_type vertex_in : Nat) : Call :=
  if ApiType = API_TYPE.API_OPENGL then Call.Write "void main()\n\x7b\n" []
  else if cfg.backend_info.bSupportsGSInstancing then
    Call.Write
      "void main(%s VS_OUTPUT o[%d], inout %sStream<VertexData> output, in uint InstanceID : SV_GSInstanceID)\n\x7b\n"
      [tableArg primitives_d3d primitive_type, Arg.d vertex_in,
       Arg.s (if cfg.bWireFrame then "Line" else "Triangle")]
  else
    Call.Write "void main(%s VS_OUTPUT o[%d], inout %sStream<VertexData> output)\n\x7b\n"
      [tableArg primitives_d3d primitive_type, Arg.d vertex_in,
       Arg.s (if cfg.bWireFrame then "Line" else "Triangle")]

/-- Whether the eye loop of the stereo fallback is used: stereo without multi-invocation. -/
def stereoFallback (cfg : VideoConfig) : Bool :=
  decide (cfg.iStereoMode > 0) && !cfg.backend_info.bSupportsGSInstancing

/-- A static buffer of 64 blank cells and a caller buffer of 512 blank cells. -/
def callerMemory : Memory := { text := List.replicate 64 ' ', caller := List.replicate 512 ' ' }

theorem sampleShape_readsOnlyTexGens : sampleShape.ReadsOnlyTexGens := by
  constructor
  · intro api pl x y q h
    simp [sampleShape, sampleMembers, h]
  · intro api a b pl x y h
    simp [sampleShape, sampleAssign, h]

theorem callsText_eq_flatten (H : VSOutputShape) (cs : List Call) :
    callsText H cs = (cs.map (Call.text H)).flatten := by
  induction cs with
  | nil => rfl
  | cons c cs ih => simp [callsText, ih]

theorem runCalls_congr {T : Type} [ShaderGeneratorInterface T] (H : VSOutputShape)
    (cs₁ cs₂ : List Call) (h : cs₁.map (Call.text H) = cs₂.map (Call.text H))
    (out : T) (mem : Memory) : runCalls H cs₁ out mem = runCalls H cs₂ out mem := by
  induction cs₁ generalizing cs₂ out mem with
  | nil =>
    cases cs₂ with
    | nil => rfl
    | cons c cs => simp at h
  | cons c cs ih =>
    cases cs₂ with
    | nil => simp at h
    | cons c' cs' =>
      simp only [List.map_cons, List.cons.injEq] at h
      simp only [runCalls, h.1]
      exact ih cs' h.2 _ _

theorem emitVertex_text_congr (H : VSOutputShape) (hH : H.ReadsOnlyTexGens)
    (cfg₁ cfg₂ : VideoConfig) (ApiType : API_TYPE) (v : String) (fv le : Bool)
    (xfr₁ xfr₂ : XFMemory) (hw : cfg₁.bWireFrame = cfg₂.bWireFrame)
    (hn : xfr₁.numTexGens = xfr₂.numTexGens) :
    (EmitVertex cfg₁ ApiType v fv le xfr₁).map (Call.text H) =
      (EmitVertex cfg₂ ApiType v fv le xfr₂).map (Call.text H) := by
  have hA := hH.2 ApiType "ps" v le xfr₁ xfr₂ hn
  cases ApiType <;> simp only [EmitVertex, Call.text, hw, hA, ↓reduceIte, reduceCtorEq, List.map_append, List.map_cons, List.map_nil]

theorem endPrimitive_text_congr (H : VSOutputShape) (hH : H.ReadsOnlyTexGens)
    (cfg₁ cfg₂ : VideoConfig) (ApiType : API_TYPE) (le : Bool)
    (xfr₁ xfr₂ : XFMemory) (hw : cfg₁.bWireFrame = cfg₂.bWireFrame)
    (hn : xfr₁.numTexGens = xfr₂.numTexGens) :
    (EndPrimitive cfg₁ ApiType le xfr₁).map (Call.text H) =
      (EndPrimitive cfg₂ ApiType le xfr₂).map (Call.text H) := by
  have hE := emitVertex_text_congr H hH cfg₁ cfg₂ ApiType "first" false le xfr₁ xfr₂ hw hn
  simp only [EndPrimitive, List.map_append, hw]
  split_ifs <;> simp only [List.map_append, hE]

theorem layoutParameters_congr (cfg₁ cfg₂ : VideoConfig) (ApiType : API_TYPE) (p vout : Nat)
    (hw : cfg₁.bWireFrame = cfg₂.bWireFrame)
    (hs : (cfg₁.iStereoMode > 0) ↔ (cfg₂.iStereoMode > 0))
    (hi : cfg₁.backend_info.bSupportsGSInstancing = cfg₂.backend_info.bSupportsGSInstancing) :
    layoutParameters cfg₁ ApiType p vout = layoutParameters cfg₂ ApiType p vout := by
  simp only [layoutParameters, hw, hs, hi]

theorem uniformsAndStruct_text_congr (H : VSOutputShape) (hH : H.ReadsOnlyTexGens)
    (cfg₁ cfg₂ : VideoConfig) (ApiType : API_TYPE) (le : Bool) (xfr₁ xfr₂ : XFMemory)
    (hn : xfr₁.numTexGens = xfr₂.numTexGens)
    (hb : ApiType = API_TYPE.API_OPENGL →
      cfg₁.backend_info.bSupportsBindingLayout = cfg₂.backend_info.bSupportsBindingLayout) :
    (uniformsAndStruct cfg₁ ApiType le xfr₁).map (Call.text H) =
      (uniformsAndStruct cfg₂ ApiType le xfr₂).map (Call.text H) := by
  have hG := hH.1 ApiType le xfr₁ xfr₂ none hn
  cases ApiType
  · simp only [uniformsAndStruct, Call.text, hG, hb rfl, ↓reduceIte, reduceCtorEq, List.map_append, List.map_cons, List.map_nil]
  · simp only [uniformsAndStruct, Call.text, hG, ↓reduceIte, reduceCtorEq, List.map_append, List.map_cons, List.map_nil]

theorem vertexDataAndMain_text_congr (H : VSOutputShape) (hH : H.ReadsOnlyTexGens)
    (cfg₁ cfg₂ : VideoConfig) (ApiType : API_TYPE) (p vin vout : Nat) (le : Bool)
    (xfr₁ xfr₂ : XFMemory)
    (hw : cfg₁.bWireFrame = cfg₂.bWireFrame)
    (hs : (cfg₁.iStereoMode > 0) ↔ (cfg₂.iStereoMode > 0))
    (hn : xfr₁.numTexGens = xfr₂.numTexGens)
    (hi : cfg₁.backend_info.bSupportsGSInstancing = cfg₂.backend_info.bSupportsGSInstancing)
    (hb : ApiType = API_TYPE.API_OPENGL →
      cfg₁.backend_info.bSupportsBindingLayout = cfg₂.backend_info.bSupportsBindingLayout) :
    (vertexDataAndMain cfg₁ ApiType p vin vout le xfr₁).map (Call.text H) =
      (vertexDataAndMain cfg₂ ApiType p vin vout le xfr₂).map (Call.text H) := by
  have hG := fun q => hH.1 ApiType le xfr₁ xfr₂ q hn
  cases ApiType
  · simp only [vertexDataAndMain, Call.text, hG, hb rfl, hs, hi, ↓reduceIte, reduceCtorEq, List.map_append, List.map_cons, List.map_nil]
  · simp only [vertexDataAndMain, Call.text, hw, hs, hi, ↓reduceIte, reduceCtorEq, List.map_append, List.map_cons, List.map_nil]

theorem primitiveSetup_text_congr (H : VSOutputShape) (hH : H.ReadsOnlyTexGens)
    (ApiType : API_TYPE) (p : Nat) (le : Bool) (xfr₁ xfr₂ : XFMemory)
    (hn : xfr₁.numTexGens = xfr₂.numTexGens) :
    (primitiveSetup ApiType p le xfr₁).map (Call.text H) =
      (primitiveSetup ApiType p le xfr₂).map (Call.text H) := by
  have hA := fun a b => hH.2 ApiType a b le xfr₁ xfr₂ hn
  simp only [primitiveSetup]
  split_ifs <;> simp only [Call.text, hA, ↓reduceIte, reduceCtorEq, List.map_append, List.map_cons, List.map_nil]

theorem stereoEye_congr (cfg₁ cfg₂ : VideoConfig)
    (hs : (cfg₁.iStereoMode > 0) ↔ (cfg₂.iStereoMode > 0))
    (hi : cfg₁.backend_info.bSupportsGSInstancing = cfg₂.backend_info.bSupportsGSInstancing) :
    stereoEye cfg₁ = stereoEye cfg₂ := by
  simp only [stereoEye, hs, hi]

theorem loopHead_congr (cfg₁ cfg₂ : VideoConfig) (vin : Nat)
    (hw : cfg₁.bWireFrame = cfg₂.bWireFrame) : loopHead cfg₁ vin = loopHead cfg₂ vin := by
  simp only [loopHead, hw]

theorem workingVertex_text_congr (H : VSOutputShape) (hH : H.ReadsOnlyTexGens)
    (cfg₁ cfg₂ : VideoConfig) (ApiType : API_TYPE) (le : Bool) (xfr₁ xfr₂ : XFMemory)
    (hs : (cfg₁.iStereoMode > 0) ↔ (cfg₂.iStereoMode > 0))
    (hn : xfr₁.numTexGens = xfr₂.numTexGens) :
    (workingVertex cfg₁ ApiType le xfr₁).map (Call.text H) =
      (workingVertex cfg₂ ApiType le xfr₂).map (Call.text H) := by
  have hA := hH.2 ApiType "f" "vs[i]" le xfr₁ xfr₂ hn
  cases ApiType <;> simp only [workingVertex, Call.text, hA, hs, ↓reduceIte, reduceCtorEq, List.map_append, List.map_cons, List.map_nil]

theorem expansion_text_congr (H : VSOutputShape) (hH : H.ReadsOnlyTexGens)
    (cfg₁ cfg₂ : VideoConfig) (ApiType : API_TYPE) (p : Nat) (le : Bool) (xfr₁ xfr₂ : XFMemory)
    (hw : cfg₁.bWireFrame = cfg₂.bWireFrame)
    (hn : xfr₁.numTexGens = xfr₂.numTexGens) :
    (expansion cfg₁ ApiType p le xfr₁).map (Call.text H) =
      (expansion cfg₂ ApiType p le xfr₂).map (Call.text H) := by
  have hE := fun v fv => emitVertex_text_congr H hH cfg₁ cfg₂ ApiType v fv le xfr₁ xfr₂ hw hn
  simp only [expansion, lineExpansion, pointExpansion, hn]
  split_ifs <;> simp only [List.map_append, hE]

theorem afterLoop_text_congr (H : VSOutputShape) (hH : H.ReadsOnlyTexGens)
    (cfg₁ cfg₂ : VideoConfig) (ApiType : API_TYPE) (le : Bool) (xfr₁ xfr₂ : XFMemory)
    (hw : cfg₁.bWireFrame = cfg₂.bWireFrame)
    (hs : (cfg₁.iStereoMode > 0) ↔ (cfg₂.iStereoMode > 0))
    (hn : xfr₁.numTexGens = xfr₂.numTexGens)
    (hi : cfg₁.backend_info.bSupportsGSInstancing = cfg₂.backend_info.bSupportsGSInstancing) :
    (afterLoop cfg₁ ApiType le xfr₁).map (Call.text H) =
      (afterLoop cfg₂ ApiType le xfr₂).map (Call.text H) := by
  have hE := endPrimitive_text_congr H hH cfg₁ cfg₂ ApiType le xfr₁ xfr₂ hw hn
  have hd : decide (cfg₁.iStereoMode > 0) = decide (cfg₂.iStereoMode > 0) := by
    simp only [hs]
  simp only [afterLoop, List.map_append, hE, hi, hd]

/-- The texts of the calls are fixed by the wireframe flag, the stereo flag, the lighting flag,
the primitive kind, the texture-coordinate-generator count and the two capability flags. -/
theorem shaderCalls_text_congr (H : VSOutputShape) (hH : H.ReadsOnlyTexGens)
    (cfg₁ cfg₂ : VideoConfig) (ApiType : API_TYPE) (p vin vout : Nat) (le : Bool)
    (xfr₁ xfr₂ : XFMemory)
    (hw : cfg₁.bWireFrame = cfg₂.bWireFrame)
    (hs : (cfg₁.iStereoMode > 0) ↔ (cfg₂.iStereoMode > 0))
    (hn : xfr₁.numTexGens = xfr₂.numTexGens)
    (hi : cfg₁.backend_info.bSupportsGSInstancing = cfg₂.backend_info.bSupportsGSInstancing)
    (hb : ApiType = API_TYPE.API_OPENGL →
      cfg₁.backend_info.bSupportsBindingLayout = cfg₂.backend_info.bSupportsBindingLayout) :
    (shaderCalls cfg₁ ApiType p vin vout le xfr₁).map (Call.text H) =
      (shaderCalls cfg₂ ApiType p vin vout le xfr₂).map (Call.text H) := by
  simp only [shaderCalls, loopBody, List.map_append,
    layoutParameters_congr cfg₁ cfg₂ ApiType p vout hw hs hi,
    uniformsAndStruct_text_congr H hH cfg₁ cfg₂ ApiType le xfr₁ xfr₂ hn hb,
    vertexDataAndMain_text_congr H hH cfg₁ cfg₂ ApiType p vin vout le xfr₁ xfr₂ hw hs hn hi hb,
    primitiveSetup_text_congr H hH ApiType p le xfr₁ xfr₂ hn,
    stereoEye_congr cfg₁ cfg₂ hs hi, loopHead_congr cfg₁ cfg₂ vin hw,
    workingVertex_text_congr H hH cfg₁ cfg₂ ApiType le xfr₁ xfr₂ hs hn,
    expansion_text_congr H hH cfg₁ cfg₂ ApiType p le xfr₁ xfr₂ hw hn,
    afterLoop_text_congr H hH cfg₁ cfg₂ ApiType le xfr₁ xfr₂ hw hs hn hi]

/-! ### The entry points, unfolded -/

theorem GetGeometryShaderUid_data (H : VSOutputShape) (cfg : VideoConfig)
    (dummy_data : geometry_shader_uid_data) (mem : Memory) (object : GeometryShaderUid)
    (primitive_type : Nat) (ApiType : API_TYPE) (xfr : XFMemory) :
    (GetGeometryShaderUid H cfg dummy_data mem object primitive_type ApiType xfr).out.data =
      { primitive_type := primitive_type
        wireframe := cfg.bWireFrame
        stereo := decide (cfg.iStereoMode > 0)
        numTexGens := xfr.numTexGens
        pixel_lighting := decide (xfr.numColorChans > 0) && cfg.bEnablePixelLighting
          && cfg.backend_info.bSupportsPixelLighting } := by
  cases ApiType <;> rfl

/-- The buffer a text-mode run writes to: the one set on the sink, else the static `text`. -/
theorem GenerateGeometryShaderCode_eq (H : VSOutputShape) (cfg : VideoConfig)
    (dummy_data : geometry_shader_uid_data) (mem : Memory) (object : ShaderCode)
    (primitive_type : Nat) (ApiType : API_TYPE) (xfr : XFMemory) :
    GenerateGeometryShaderCode H cfg dummy_data mem object primitive_type ApiType xfr =
      { out := (runCalls H (shaderCalls cfg ApiType primitive_type (vertex_in primitive_type)
            (vertex_out cfg primitive_type) (lightingEnabled cfg xfr) xfr)
            (if object.buf.isNone then ({ buf := some BufRef.static_text, write_ptr := 0 } :
              ShaderCode) else object)
            (mem.setCells (object.buf.getD BufRef.static_text)
              ((mem.cells (object.buf.getD BufRef.static_text)).set
                (mem.text.length - 1) canary))).1
        mem := (runCalls H (shaderCalls cfg ApiType primitive_type (vertex_in primitive_type)
            (vertex_out cfg primitive_type) (lightingEnabled cfg xfr) xfr)
            (if object.buf.isNone then ({ buf := some BufRef.static_text, write_ptr := 0 } :
              ShaderCode) else object)
            (mem.setCells (object.buf.getD BufRef.static_text)
              ((mem.cells (object.buf.getD BufRef.static_text)).set
                (mem.text.length - 1) canary))).2
        uid_data :=
          { primitive_type := primitive_type
            wireframe := cfg.bWireFrame
            stereo := decide (cfg.iStereoMode > 0)
            numTexGens := xfr.numTexGens
            pixel_lighting := lightingEnabled cfg xfr }
        calls := shaderCalls cfg ApiType primitive_type (vertex_in primitive_type)
            (vertex_out cfg primitive_type) (lightingEnabled cfg xfr) xfr
        alert := decide (((runCalls H (shaderCalls cfg ApiType primitive_type
            (vertex_in primitive_type) (vertex_out cfg primitive_type)
            (lightingEnabled cfg xfr) xfr)
            (if object.buf.isNone then ({ buf := some BufRef.static_text, write_ptr := 0 } :
              ShaderCode) else object)
            (mem.setCells (object.buf.getD BufRef.static_text)
              ((mem.cells (object.buf.getD BufRef.static_text)).set
                (mem.text.length - 1) canary))).2.cells
              (object.buf.getD BufRef.static_text))[GEOMETRYSHADERGEN_BUFFERSIZE
                (runCalls H (shaderCalls cfg ApiType primitive_type
            (vertex_in primitive_type) (vertex_out cfg primitive_type)
            (lightingEnabled cfg xfr) xfr)
            (if object.buf.isNone then ({ buf := some BufRef.static_text, write_ptr := 0 } :
              ShaderCode) else object)
            (mem.setCells (object.buf.getD BufRef.static_text)
              ((mem.cells (object.buf.getD BufRef.static_text)).set
                (mem.text.length - 1) canary))).2 - 1]? ≠ some canary) } := by
  cases ApiType <;> rfl

theorem GenerateGeometryShaderCode_calls (H : VSOutputShape) (cfg : VideoConfig)
    (dummy_data : geometry_shader_uid_data) (mem : Memory) (object : ShaderCode)
    (primitive_type : Nat) (ApiType : API_TYPE) (xfr : XFMemory) :
    (GenerateGeometryShaderCode H cfg dummy_data mem object primitive_type ApiType xfr).calls =
      shaderCalls cfg ApiType primitive_type (vertex_in primitive_type)
        (vertex_out cfg primitive_type) (lightingEnabled cfg xfr) xfr := by
  cases ApiType <;> rfl

/-! ### C1, C2: the Variant Key -/

set_option maxRecDepth 1000000 in
/-- C1 (as stated, refuted): on the D3D11 backend, a TRIANGLES draw under two render
configurations that differ only in the supports-multi-invocation capability flag gets the same
Variant Key, but the emitted texts, and the C strings left in the buffer, differ. -/
theorem equal_keys_different_text :
    (GetGeometryShaderUid sampleShape instancingConfig zeroUid blankMemory ⟨zeroUid⟩
        PRIMITIVE_TRIANGLES API_TYPE.API_D3D11 plainXf).out.data =
      (GetGeometryShaderUid sampleShape plainConfig zeroUid blankMemory ⟨zeroUid⟩
        PRIMITIVE_TRIANGLES API_TYPE.API_D3D11 plainXf).out.data ∧
    callsText sampleShape (GenerateGeometryShaderCode sampleShape instancingConfig zeroUid
        blankMemory freshCode PRIMITIVE_TRIANGLES API_TYPE.API_D3D11 plainXf).calls ≠
      callsText sampleShape (GenerateGeometryShaderCode sampleShape plainConfig zeroUid
        blankMemory freshCode PRIMITIVE_TRIANGLES API_TYPE.API_D3D11 plainXf).calls ∧
    cstring (GenerateGeometryShaderCode sampleShape instancingConfig zeroUid
        blankMemory freshCode PRIMITIVE_TRIANGLES API_TYPE.API_D3D11 plainXf).mem.text ≠
      cstring (GenerateGeometryShaderCode sampleShape plainConfig zeroUid
        blankMemory freshCode PRIMITIVE_TRIANGLES API_TYPE.API_D3D11 plainXf).mem.text := by
  decide

/-- C1 (amended): for every backend and every two inputs that agree on the
supports-multi-invocation flag and, on OpenGL, on the supports-explicit-binding-layout flag,
equal Variant Keys imply byte-identical shader text: run from the same sink and memory, the two
generations emit the same text, leave the same sink and the same memory, and raise the alert
alike (the vertex-output-shape helpers reading nothing of the transform state but the
texture-coordinate-generator count). -/
theorem equal_keys_same_text (H : VSOutputShape) (hH : H.ReadsOnlyTexGens)
    (cfg₁ cfg₂ : VideoConfig) (dummy_data : geometry_shader_uid_data) (mem : Memory)
    (key₁ key₂ : GeometryShaderUid) (object : ShaderCode) (p₁ p₂ : Nat) (ApiType : API_TYPE)
    (xfr₁ xfr₂ : XFMemory)
    (hi : cfg₁.backend_info.bSupportsGSInstancing = cfg₂.backend_info.bSupportsGSInstancing)
    (hb : ApiType = API_TYPE.API_OPENGL →
      cfg₁.backend_info.bSupportsBindingLayout = cfg₂.backend_info.bSupportsBindingLayout)
    (hkey : (GetGeometryShaderUid H cfg₁ dummy_data mem key₁ p₁ ApiType xfr₁).out.data =
      (GetGeometryShaderUid H cfg₂ dummy_data mem key₂ p₂ ApiType xfr₂).out.data) :
    callsText H (GenerateGeometryShaderCode H cfg₁ dummy_data mem object p₁ ApiType xfr₁).calls =
      callsText H (GenerateGeometryShaderCode H cfg₂ dummy_data mem object p₂ ApiType xfr₂).calls ∧
    (GenerateGeometryShaderCode H cfg₁ dummy_data mem object p₁ ApiType xfr₁).out =
      (GenerateGeometryShaderCode H cfg₂ dummy_data mem object p₂ ApiType xfr₂).out ∧
    (GenerateGeometryShaderCode H cfg₁ dummy_data mem object p₁ ApiType xfr₁).mem =
      (GenerateGeometryShaderCode H cfg₂ dummy_data mem object p₂ ApiType xfr₂).mem ∧
    (GenerateGeometryShaderCode H cfg₁ dummy_data mem object p₁ ApiType xfr₁).alert =
      (GenerateGeometryShaderCode H cfg₂ dummy_data mem object p₂ ApiType xfr₂).alert := by
  rw [GetGeometryShaderUid_data, GetGeometryShaderUid_data] at hkey
  simp only [geometry_shader_uid_data.mk.injEq, decide_eq_decide] at hkey
  obtain ⟨hp, hw, hs, hn, hl⟩ := hkey
  subst hp
  have hl' : lightingEnabled cfg₁ xfr₁ = lightingEnabled cfg₂ xfr₂ := by
    simpa [lightingEnabled] using hl
  have hv : vertex_out cfg₁ p₁ = vertex_out cfg₂ p₁ := by simp only [vertex_out, hw]
  have hc := shaderCalls_text_congr H hH cfg₁ cfg₂ ApiType p₁ (vertex_in p₁)
    (vertex_out cfg₂ p₁) (lightingEnabled cfg₂ xfr₂) xfr₁ xfr₂ hw hs hn hi hb
  have hr := fun (out : ShaderCode) (m : Memory) => runCalls_congr H _ _ hc out m
  simp only [GenerateGeometryShaderCode_eq, hl', hv, hr, callsText_eq_flatten, hc, and_self]

/-- C1 (amended), instantiated: stereo modes 1 and 2 with different colour-channel counts and
different remaining transform state give the same key and the same text. -/
theorem equal_keys_same_text_witness :
    callsText sampleShape (GenerateGeometryShaderCode sampleShape
        { plainConfig with iStereoMode := 1 } zeroUid blankMemory freshCode PRIMITIVE_LINES
        API_TYPE.API_OPENGL { numTexGens := 2, numColorChans := 1, rest := [] }).calls =
      callsText sampleShape (GenerateGeometryShaderCode sampleShape
        { plainConfig with iStereoMode := 2 } zeroUid blankMemory freshCode PRIMITIVE_LINES
        API_TYPE.API_OPENGL { numTexGens := 2, numColorChans := 2, rest := [7] }).calls ∧
    (GenerateGeometryShaderCode sampleShape
        { plainConfig with iStereoMode := 1 } zeroUid blankMemory freshCode PRIMITIVE_LINES
        API_TYPE.API_OPENGL { numTexGens := 2, numColorChans := 1, rest := [] }).out =
      (GenerateGeometryShaderCode sampleShape
        { plainConfig with iStereoMode := 2 } zeroUid blankMemory freshCode PRIMITIVE_LINES
        API_TYPE.API_OPENGL { numTexGens := 2, numColorChans := 2, rest := [7] }).out ∧
    (GenerateGeometryShaderCode sampleShape
        { plainConfig with iStereoMode := 1 } zeroUid blankMemory freshCode PRIMITIVE_LINES
        API_TYPE.API_OPENGL { numTexGens := 2, numColorChans := 1, rest := [] }).mem =
      (GenerateGeometryShaderCode sampleShape
        { plainConfig with iStereoMode := 2 } zeroUid blankMemory freshCode PRIMITIVE_LINES
        API_TYPE.API_OPENGL { numTexGens := 2, numColorChans := 2, rest := [7] }).mem ∧
    (GenerateGeometryShaderCode sampleShape
        { plainConfig with iStereoMode := 1 } zeroUid blankMemory freshCode PRIMITIVE_LINES
        API_TYPE.API_OPENGL { numTexGens := 2, numColorChans := 1, rest := [] }).alert =
      (GenerateGeometryShaderCode sampleShape
        { plainConfig with iStereoMode := 2 } zeroUid blankMemory freshCode PRIMITIVE_LINES
        API_TYPE.API_OPENGL { numTexGens := 2, numColorChans := 2, rest := [7] }).alert :=
  equal_keys_same_text sampleShape sampleShape_readsOnlyTexGens _ _ zeroUid blankMemory
    ⟨zeroUid⟩ ⟨zeroUid⟩ freshCode _ _ API_TYPE.API_OPENGL _ _ rfl (fun _ => rfl) (by decide)

/-- C2: the key `GetGeometryShaderUid` leaves in `object` has primitive_type = the primitive
kind, wireframe = the wireframe flag, stereo = (stereo mode > 0), numTexGens = the
texture-coordinate-generator count and pixel_lighting = (colour-channel count > 0 and pixel
lighting enabled and supported by the backend); nothing else (the helpers, the uninitialised
local, the memory, the former content of `object`, the backend) enters any field. -/
theorem uid_transcription (H : VSOutputShape) (cfg : VideoConfig)
    (dummy_data : geometry_shader_uid_data) (mem : Memory) (object : GeometryShaderUid)
    (primitive_type : Nat) (ApiType : API_TYPE) (xfr : XFMemory) :
    (GetGeometryShaderUid H cfg dummy_data mem object primitive_type ApiType xfr).out.data =
      { primitive_type := primitive_type
        wireframe := cfg.bWireFrame
        stereo := decide (cfg.iStereoMode > 0)
        numTexGens := xfr.numTexGens
        pixel_lighting := decide (xfr.numColorChans > 0) && cfg.bEnablePixelLighting
          && cfg.backend_info.bSupportsPixelLighting } :=
  GetGeometryShaderUid_data H cfg dummy_data mem object primitive_type ApiType xfr

/-! ### Stores into a buffer -/

theorem poke_length (D : List Char) :
    ∀ (b : List Char) (k : Nat), (poke b k D).length = b.length := by
  induction D with
  | nil => intro b k; rfl
  | cons c cs ih => intro b k; simp [poke, ih]

theorem poke_append (A B : List Char) : ∀ (b : List Char) (k : Nat),
    poke b k (A ++ B) = poke (poke b k A) (k + A.length) B := by
  induction A with
  | nil => intro b k; simp [poke]
  | cons c cs ih =>
    intro b k
    have e : k + 1 + cs.length = k + (cs.length + 1) := by omega
    show poke (b.set k c) (k + 1) (cs ++ B) = poke (poke (b.set k c) (k + 1) cs) _ B
    rw [ih, List.length_cons, e]

theorem poke_getElem? (D : List Char) : ∀ (b : List Char) (k j : Nat),
    (poke b k D)[j]? =
      if k ≤ j ∧ j < k + D.length then (if j < b.length then D[j - k]? else none)
      else b[j]? := by
  induction D with
  | nil =>
    intro b k j
    have h : ¬ (k ≤ j ∧ j < k + ([] : List Char).length) := by
      simp only [List.length_nil]; omega
    rw [if_neg h]; rfl
  | cons c cs ih =>
    intro b k j
    rw [poke, ih, List.length_set, List.getElem?_set]
    by_cases h1 : k = j
    · subst h1
      have h2 : ¬ (k + 1 ≤ k ∧ k < k + 1 + cs.length) := by omega
      have h3 : k ≤ k ∧ k < k + (c :: cs).length := by
        simp only [List.length_cons]; omega
      rw [if_neg h2, if_pos h3, if_pos rfl]
      simp
    · by_cases h2 : k + 1 ≤ j ∧ j < k + 1 + cs.length
      · have h3 : k ≤ j ∧ j < k + (c :: cs).length := by
          simp only [List.length_cons]; omega
        have h4 : j - k = (j - (k + 1)) + 1 := by omega
        rw [if_pos h2, if_pos h3, h4, List.getElem?_cons_succ]
      · have h3 : ¬ (k ≤ j ∧ j < k + (c :: cs).length) := by
          simp only [List.length_cons]; omega
        rw [if_neg h2, if_neg h3, if_neg h1]

theorem poke_zero (D b : List Char) : poke b 0 D = D.take b.length ++ b.drop D.length := by
  apply List.ext_getElem?
  intro j
  rw [poke_getElem?, List.getElem?_append, List.getElem?_take, List.getElem?_drop]
  simp only [Nat.zero_le, true_and, Nat.zero_add, Nat.sub_zero, List.length_take]
  by_cases h1 : j < D.length <;> by_cases h2 : j < b.length
  · have : j < min b.length D.length := by omega
    simp [h1, h2, this]
  · have : ¬ j < min b.length D.length := by omega
    have e : D.length + (j - min b.length D.length) = D.length + (j - b.length) := by omega
    simp only [h1, h2, this, if_true, if_false, e]
    rw [List.getElem?_eq_none (by omega)]
  · have : ¬ j < min b.length D.length := by omega
    have e : D.length + (j - min b.length D.length) = j := by omega
    simp [h1, this, e]
  · have : ¬ j < min b.length D.length := by omega
    simp only [h1, this, if_false]
    rw [List.getElem?_eq_none (by omega), List.getElem?_eq_none (by omega)]

theorem poke_overwrite_terminator (X t D : List Char) (w : Nat) :
    poke (poke X w (t ++ [NUL])) (w + t.length) (D ++ [NUL]) = poke X w (t ++ D ++ [NUL]) := by
  have h : ∀ (d : Char) (E : List Char),
      poke (poke X w (t ++ [NUL])) (w + t.length) (d :: E) = poke X w (t ++ d :: E) := by
    intro d E
    rw [poke_append t [NUL], poke_append t (d :: E)]
    simp only [poke, List.set_set]
  cases D with
  | nil => simpa using h NUL []
  | cons d E => simpa using h d (E ++ [NUL])

theorem cells_setCells (mem : Memory) (b : BufRef) (cs : List Char) :
    (mem.setCells b cs).cells b = cs := by
  cases b <;> rfl

theorem setCells_setCells (mem : Memory) (b : BufRef) (cs cs' : List Char) :
    (mem.setCells b cs).setCells b cs' = mem.setCells b cs' := by
  cases b <;> rfl

theorem text_length_setCells (mem : Memory) (b : BufRef) (cs : List Char)
    (h : cs.length = (mem.cells b).length) :
    (mem.setCells b cs).text.length = mem.text.length := by
  cases b
  · exact h
  · rfl

/-- Running a non-empty sequence of calls on a text sink with a buffer stores the whole text
and one terminator at the write position. -/
theorem runCalls_code (H : VSOutputShape) (b : BufRef) (cs : List Call) :
    ∀ (c : Call) (w : Nat) (mem : Memory),
      runCalls H (c :: cs) ({ buf := some b, write_ptr := w } : ShaderCode) mem =
        ({ buf := some b, write_ptr := w + (callsText H (c :: cs)).length },
         mem.setCells b (poke (mem.cells b) w (callsText H (c :: cs) ++ [NUL]))) := by
  induction cs with
  | nil =>
    intro c w mem
    simp [runCalls, callsText, ShaderGeneratorInterface.Write]
  | cons c' cs ih =>
    intro c w mem
    have e : w + (c.text H).length + (callsText H (c' :: cs)).length =
        w + (callsText H (c :: c' :: cs)).length := by
      simp only [callsText, List.length_append]; omega
    rw [runCalls]
    simp only [ShaderGeneratorInterface.Write]
    rw [ih, cells_setCells, setCells_setCells, poke_overwrite_terminator, e]
    simp only [callsText, List.append_assoc]

theorem runCalls_code_text_length (H : VSOutputShape) (cs : List Call) :
    ∀ (out : ShaderCode) (mem : Memory),
      (runCalls H cs out mem).2.text.length = mem.text.length := by
  induction cs with
  | nil => intro out mem; rfl
  | cons c cs ih =>
    intro out mem
    rw [runCalls, ih]
    simp only [ShaderGeneratorInterface.Write]
    cases hb : out.buf with
    | none => rfl
    | some b =>
      simp only []
      exact text_length_setCells _ _ _ (poke_length _ _ _)

theorem uniformsAndStruct_length (cfg : VideoConfig) (ApiType : API_TYPE) (le : Bool)
    (xfr : XFMemory) : (uniformsAndStruct cfg ApiType le xfr).length = 5 := by
  cases ApiType <;> rfl

theorem shaderCalls_eq_cons (cfg : VideoConfig) (ApiType : API_TYPE) (p vin vout : Nat)
    (le : Bool) (xfr : XFMemory) :
    ∃ c cs, shaderCalls cfg ApiType p vin vout le xfr = c :: cs := by
  apply List.exists_cons_of_ne_nil
  intro h
  have := congrArg List.length h
  simp only [shaderCalls, List.length_append, uniformsAndStruct_length, List.length_nil] at this
  omega

/-- The calls of a text-mode run, by the inputs of the entry point. -/
theorem shaderCalls_run_eq_cons (cfg : VideoConfig) (ApiType : API_TYPE) (p : Nat)
    (xfr : XFMemory) :
    ∃ c cs, shaderCalls cfg ApiType p (vertex_in p) (vertex_out cfg p) (lightingEnabled cfg xfr)
      xfr = c :: cs :=
  shaderCalls_eq_cons cfg ApiType p _ _ _ xfr

/-- A text-mode run on a sink with no buffer: the sink is pointed at the static array, the text
and its terminator are stored from cell 0 of the array, over the canary-stamped old content. -/
theorem GenerateGeometryShaderCode_fresh (H : VSOutputShape) (cfg : VideoConfig)
    (dummy_data : geometry_shader_uid_data) (mem : Memory) (w : Nat)
    (primitive_type : Nat) (ApiType : API_TYPE) (xfr : XFMemory) :
    (GenerateGeometryShaderCode H cfg dummy_data mem { buf := none, write_ptr := w }
        primitive_type ApiType xfr).out =
      { buf := some BufRef.static_text
        write_ptr := (callsText H (GenerateGeometryShaderCode H cfg dummy_data mem
          { buf := none, write_ptr := w } primitive_type ApiType xfr).calls).length } ∧
    (GenerateGeometryShaderCode H cfg dummy_data mem { buf := none, write_ptr := w }
        primitive_type ApiType xfr).mem =
      { mem with text := (poke (mem.text.set (mem.text.length - 1) canary) 0
          (callsText H (GenerateGeometryShaderCode H cfg dummy_data mem
            { buf := none, write_ptr := w } primitive_type ApiType xfr).calls ++ [NUL])) } ∧
    (GenerateGeometryShaderCode H cfg dummy_data mem { buf := none, write_ptr := w }
        primitive_type ApiType xfr).alert =
      decide ((poke (mem.text.set (mem.text.length - 1) canary) 0
          (callsText H (GenerateGeometryShaderCode H cfg dummy_data mem
            { buf := none, write_ptr := w } primitive_type ApiType xfr).calls ++ [NUL]))[
              mem.text.length - 1]? ≠ some canary) := by
  obtain ⟨c, cs, hc⟩ := shaderCalls_run_eq_cons cfg ApiType primitive_type xfr
  simp only [GenerateGeometryShaderCode_eq, hc, Option.isNone_none, if_true, Option.getD_none,
    runCalls_code, Nat.zero_add, GEOMETRYSHADERGEN_BUFFERSIZE, Memory.cells, Memory.setCells,
    poke_length, List.length_set, and_self]

theorem takeWhile_append_stop {α : Type} (p : α → Bool) (x : α) (hx : p x = false) :
    ∀ (A B : List α), (A ++ x :: B).takeWhile p = (A ++ [x]).takeWhile p := by
  intro A B
  induction A with
  | nil => simp [List.takeWhile, hx]
  | cons a A ih =>
    simp only [List.cons_append, List.takeWhile_cons, ih]

/-- The C string read from a buffer into which a text and its terminator were stored from cell
0 does not depend on what the buffer held before. -/
theorem cstring_poke_zero (T b : List Char) :
    cstring (poke b 0 (T ++ [NUL])) = cstring ((T ++ [NUL]).take b.length) := by
  rw [poke_zero]
  by_cases h : (T ++ [NUL]).length ≤ b.length
  · rw [List.take_of_length_le h]
    unfold cstring
    rw [List.append_assoc, List.singleton_append]
    exact takeWhile_append_stop _ NUL (by decide) T _
  · rw [List.drop_of_length_le (by omega), List.append_nil]

/-- The cell under the canary after a text and its terminator were stored from cell 0 of a
canary-stamped buffer. -/
theorem canary_cell_poke_zero (T b : List Char) :
    (poke (b.set (b.length - 1) canary) 0 (T ++ [NUL]))[b.length - 1]? =
      if b.length - 1 < T.length + 1 then
        (if b.length - 1 < b.length then (T ++ [NUL])[b.length - 1]? else none)
      else (if b.length - 1 < b.length then some canary else none) := by
  rw [poke_getElem?, List.length_set, List.getElem?_set]
  simp

theorem Invocation.run_text_length (H : VSOutputShape) (i : Invocation) (mem : Memory) :
    (i.run H mem).text.length = mem.text.length := by
  unfold Invocation.run
  split_ifs
  · rw [GenerateGeometryShaderCode_eq]
    simp only []
    rw [runCalls_code_text_length]
    apply text_length_setCells
    simp
  · cases i.ApiType <;> rfl

theorem runInvocations_text_length (H : VSOutputShape) (l : List Invocation) :
    ∀ mem : Memory, (runInvocations H l mem).text.length = mem.text.length := by
  induction l with
  | nil => intro mem; rfl
  | cons i l ih => intro mem; rw [runInvocations, ih, Invocation.run_text_length]

theorem GetGeometryShaderUid_out (H : VSOutputShape) (cfg : VideoConfig)
    (dummy_data : geometry_shader_uid_data) (mem : Memory) (object : GeometryShaderUid)
    (primitive_type : Nat) (ApiType : API_TYPE) (xfr : XFMemory) :
    (GetGeometryShaderUid H cfg dummy_data mem object primitive_type ApiType xfr).out =
      { data :=
        { primitive_type := primitive_type
          wireframe := cfg.bWireFrame
          stereo := decide (cfg.iStereoMode > 0)
          numTexGens := xfr.numTexGens
          pixel_lighting := decide (xfr.numColorChans > 0) && cfg.bEnablePixelLighting
            && cfg.backend_info.bSupportsPixelLighting } } := by
  cases ApiType <;> rfl

theorem canary_cell_of_length (T b : List Char) (n : Nat) (h : b.length = n) :
    (poke (b.set (b.length - 1) canary) 0 (T ++ [NUL]))[b.length - 1]? =
      if n - 1 < T.length + 1 then
        (if n - 1 < n then (T ++ [NUL])[n - 1]? else none)
      else (if n - 1 < n then some canary else none) := by
  subst h
  exact canary_cell_poke_zero T b


/-! ### C3: determinism -/

/-- C3: a text-mode run on a fresh sink (no buffer set) is repeated after any sequence
`between` of calls of the entry points, with any inputs and sinks, and with other garbage in
the uninitialised local.  The second run emits the same text, leaves the same C string in the
static buffer, the same sink and the same alert as the first; its text is stored from cell 0 of
the reused buffer (the sink points at the static array and has advanced by the length of the
text), and the C string in the buffer is that of the text and its terminator cut at the buffer
size, so nothing of an earlier call is left in it.  Two key-mode runs on the same input give
the same key, whatever the sinks held and whatever ran in between. -/
theorem determinism (H : VSOutputShape) (cfg : VideoConfig)
    (d₁ d₂ : geometry_shader_uid_data) (mem : Memory) (w₁ w₂ : Nat)
    (key₁ key₂ : GeometryShaderUid) (primitive_type : Nat) (ApiType : API_TYPE)
    (xfr : XFMemory) (between : List Invocation) :
    let r₁ := GenerateGeometryShaderCode H cfg d₁ mem { buf := none, write_ptr := w₁ }
      primitive_type ApiType xfr
    let r₂ := GenerateGeometryShaderCode H cfg d₂ (runInvocations H between r₁.mem)
      { buf := none, write_ptr := w₂ } primitive_type ApiType xfr
    callsText H r₂.calls = callsText H r₁.calls ∧
    cstring r₂.mem.text = cstring r₁.mem.text ∧
    r₂.out = r₁.out ∧
    r₂.alert = r₁.alert ∧
    r₂.out.buf = some BufRef.static_text ∧
    r₂.out.write_ptr = (callsText H r₂.calls).length ∧
    cstring r₂.mem.text =
      cstring ((callsText H r₂.calls ++ [NUL]).take (GEOMETRYSHADERGEN_BUFFERSIZE mem)) ∧
    (GetGeometryShaderUid H cfg d₂ (runInvocations H between r₁.mem) key₂ primitive_type
        ApiType xfr).out =
      (GetGeometryShaderUid H cfg d₁ mem key₁ primitive_type ApiType xfr).out := by
  intro r₁ r₂
  obtain ⟨ho₁, hm₁, ha₁⟩ := GenerateGeometryShaderCode_fresh H cfg d₁ mem w₁ primitive_type
    ApiType xfr
  obtain ⟨ho₂, hm₂, ha₂⟩ := GenerateGeometryShaderCode_fresh H cfg d₂
    (runInvocations H between r₁.mem) w₂ primitive_type ApiType xfr
  have hc : r₂.calls = r₁.calls := by
    simp only [r₁, r₂, GenerateGeometryShaderCode_calls]
  have hN₁ : r₁.mem.text.length = mem.text.length := by
    simp only [r₁, hm₁, poke_length, List.length_set]
  have hN : (runInvocations H between r₁.mem).text.length = mem.text.length := by
    rw [runInvocations_text_length, hN₁]
  have ht₁ : cstring r₁.mem.text =
      cstring ((callsText H r₁.calls ++ [NUL]).take mem.text.length) := by
    simp only [r₁, hm₁, cstring_poke_zero, List.length_set]
  have ht₂ : cstring r₂.mem.text =
      cstring ((callsText H r₂.calls ++ [NUL]).take mem.text.length) := by
    simp only [r₂, hm₂, cstring_poke_zero, List.length_set, hN]
  refine ⟨by rw [hc], ?_, ?_, ?_, ?_, ?_, ht₂, ?_⟩
  · rw [ht₁, ht₂, hc]
  · simp only [r₂, r₁, ho₂, ho₁]
    simp only [GenerateGeometryShaderCode_calls]
  · show (GenerateGeometryShaderCode H cfg d₂ (runInvocations H between r₁.mem)
        { buf := none, write_ptr := w₂ } primitive_type ApiType xfr).alert =
      (GenerateGeometryShaderCode H cfg d₁ mem { buf := none, write_ptr := w₁ }
        primitive_type ApiType xfr).alert
    rw [ha₂, ha₁, canary_cell_of_length _ _ _ hN, canary_cell_of_length _ _ _ rfl]
    simp only [GenerateGeometryShaderCode_calls]
  · simp only [r₂, ho₂]
  · simp only [r₂, ho₂]
  · rw [GetGeometryShaderUid_out, GetGeometryShaderUid_out]

/-! ### Calls made with a given format -/

theorem callsWith_append (fmt : String) (a b : List Call) :
    callsWith fmt (a ++ b) = callsWith fmt a ++ callsWith fmt b := by
  simp [callsWith, List.filterMap_append]

theorem callsWith_nil (fmt : String) : callsWith fmt [] = [] := rfl

theorem callsWith_cons_Write (fmt f : String) (args : List Arg) (cs : List Call) :
    callsWith fmt (Call.Write f args :: cs) =
      if f = fmt then args :: callsWith fmt cs else callsWith fmt cs := by
  simp only [callsWith, List.filterMap_cons]
  split_ifs <;> rfl

theorem callsWith_cons_Generate (fmt : String) (api : API_TYPE) (pl : Bool) (x : XFMemory)
    (q : Option String) (cs : List Call) :
    callsWith fmt (Call.GenerateVSOutputMembers api pl x q :: cs) = callsWith fmt cs := rfl

theorem callsWith_cons_Assign (fmt : String) (api : API_TYPE) (a b : String) (pl : Bool)
    (x : XFMemory) (cs : List Call) :
    callsWith fmt (Call.AssignVSOutputMembers api a b pl x :: cs) = callsWith fmt cs := rfl

theorem formats_append (a b : List Call) : formats (a ++ b) = formats a ++ formats b := by
  simp [formats, List.filterMap_append]

theorem formats_nil : formats [] = [] := rfl

theorem formats_cons_Write (f : String) (args : List Arg) (cs : List Call) :
    formats (Call.Write f args :: cs) = f :: formats cs := rfl

theorem formats_cons_Generate (api : API_TYPE) (pl : Bool) (x : XFMemory)
    (q : Option String) (cs : List Call) :
    formats (Call.GenerateVSOutputMembers api pl x q :: cs) = formats cs := rfl

theorem formats_cons_Assign (api : API_TYPE) (a b : String) (pl : Bool)
    (x : XFMemory) (cs : List Call) :
    formats (Call.AssignVSOutputMembers api a b pl x :: cs) = formats cs := rfl

/-- No call is made with a format that is not among the formats of the sequence. -/
theorem callsWith_eq_nil (fmt : String) (cs : List Call) (h : fmt ∉ formats cs) :
    callsWith fmt cs = [] := by
  induction cs with
  | nil => rfl
  | cons c cs ih =>
    cases c with
    | Write f args =>
      rw [formats_cons_Write, List.mem_cons, not_or] at h
      rw [callsWith_cons_Write, if_neg (Ne.symm h.1), ih h.2]
    | GenerateVSOutputMembers api pl x q => exact ih h
    | AssignVSOutputMembers api a b pl x => exact ih h

theorem formats_EmitVertex (cfg : VideoConfig) (ApiType : API_TYPE) (v : String)
    (fv le : Bool) (xfr : XFMemory) :
    ∀ f ∈ formats (EmitVertex cfg ApiType v fv le xfr),
      f ∈ emitVertexFormats := by
  cases ApiType <;> simp only [EmitVertex] <;> split_ifs <;>
    simp [emitVertexFormats, formats_append, formats_cons_Write, formats_cons_Assign,
      formats_nil]

theorem formats_subset_append {a b : List Call} {A B : List String}
    (ha : ∀ f ∈ formats a, f ∈ A) (hb : ∀ f ∈ formats b, f ∈ B) :
    ∀ f ∈ formats (a ++ b), f ∈ A ++ B := by
  intro f hf
  rw [formats_append, List.mem_append] at hf
  rw [List.mem_append]
  exact hf.imp (ha f) (hb f)

theorem formats_endPrimitive (cfg : VideoConfig) (ApiType : API_TYPE) (le : Bool)
    (xfr : XFMemory) :
    ∀ f ∈ formats (EndPrimitive cfg ApiType le xfr), f ∈ endPrimitiveFormats := by
  unfold EndPrimitive endPrimitiveFormats
  apply formats_subset_append
  · split_ifs
    · exact formats_EmitVertex cfg ApiType "first" false le xfr
    · simp [formats_nil]
  · split_ifs <;> simp [formats_cons_Write, formats_nil]

theorem formats_uniformsAndStruct (cfg : VideoConfig) (ApiType : API_TYPE) (le : Bool)
    (xfr : XFMemory) :
    ∀ f ∈ formats (uniformsAndStruct cfg ApiType le xfr), f ∈ uniformsAndStructFormats := by
  cases ApiType <;>
    simp [uniformsAndStruct, uniformsAndStructFormats, formats_append, formats_cons_Write,
      formats_cons_Generate, formats_nil]

theorem formats_primitiveSetup (ApiType : API_TYPE) (p : Nat) (le : Bool) (xfr : XFMemory) :
    ∀ f ∈ formats (primitiveSetup ApiType p le xfr), f ∈ primitiveSetupFormats := by
  unfold primitiveSetup
  cases ApiType <;> split_ifs <;>
    simp [primitiveSetupFormats, formats_append, formats_cons_Write,
      formats_cons_Assign, formats_nil]

theorem formats_stereoEye (cfg : VideoConfig) :
    ∀ f ∈ formats (stereoEye cfg), f ∈ stereoEyeFormats := by
  unfold stereoEye
  split_ifs <;> simp [stereoEyeFormats, formats_cons_Write, formats_nil]

theorem formats_workingVertex (cfg : VideoConfig) (ApiType : API_TYPE) (le : Bool)
    (xfr : XFMemory) :
    ∀ f ∈ formats (workingVertex cfg ApiType le xfr), f ∈ workingVertexFormats := by
  unfold workingVertex
  cases ApiType <;> split_ifs <;>
    simp [workingVertexFormats, formats_append, formats_cons_Write,
      formats_cons_Assign, formats_nil]

theorem formats_lineTexOffsetLoop (n : Nat) :
    ∀ i, ∀ f ∈ formats (lineTexOffsetLoop n i), f ∈ lineTexOffsetLoopFormats := by
  induction n with
  | zero => intro i f hf; simp [lineTexOffsetLoop, formats_nil] at hf
  | succ n ih =>
    intro i f hf
    rw [lineTexOffsetLoop, formats_append, List.mem_append] at hf
    rcases hf with hf | hf
    · simp only [formats_cons_Write, formats_nil] at hf
      exact hf
    · exact ih _ f hf

theorem formats_pointTexOffsetLoop (n : Nat) :
    ∀ i, ∀ f ∈ formats (pointTexOffsetLoop n i), f ∈ pointTexOffsetLoopFormats := by
  induction n with
  | zero => intro i f hf; simp [pointTexOffsetLoop, formats_nil] at hf
  | succ n ih =>
    intro i f hf
    rw [pointTexOffsetLoop, formats_append, List.mem_append] at hf
    rcases hf with hf | hf
    · simp only [formats_cons_Write, formats_nil] at hf
      exact hf
    · exact ih _ f hf

theorem formats_lineExpansion (xfr : XFMemory) :
    ∀ f ∈ formats (lineExpansion xfr), f ∈ lineExpansionFormats := by
  intro f hf
  simp only [lineExpansion, formats_append, formats_cons_Write, formats_nil,
    List.mem_append] at hf
  simp only [lineExpansionFormats, List.mem_append]
  rcases hf with (hf | hf) | hf
  · left; revert hf; simp only [List.mem_cons, List.mem_singleton, List.not_mem_nil, or_false]; tauto
  · right; exact formats_lineTexOffsetLoop _ _ f hf
  · left; revert hf; simp only [List.mem_cons, List.mem_singleton, List.not_mem_nil, or_false]; tauto

theorem formats_pointExpansion (xfr : XFMemory) :
    ∀ f ∈ formats (pointExpansion xfr), f ∈ pointExpansionFormats := by
  intro f hf
  simp only [pointExpansion, formats_append, formats_cons_Write, formats_nil,
    List.mem_append] at hf
  simp only [pointExpansionFormats, List.mem_append]
  rcases hf with (hf | hf) | hf
  · left; revert hf; simp only [List.mem_cons, List.mem_singleton, List.not_mem_nil, or_false]; tauto
  · right; exact formats_pointTexOffsetLoop _ _ f hf
  · right; revert hf; simp only [pointTexOffsetLoopFormats, List.mem_cons, List.mem_singleton, List.not_mem_nil, or_false]; tauto

theorem formats_loopBody (cfg : VideoConfig) (ApiType : API_TYPE) (p : Nat) (le : Bool)
    (xfr : XFMemory) :
    ∀ f ∈ formats (loopBody cfg ApiType p le xfr), f ∈ loopBodyFormats := by
  intro f hf
  have hE := fun v fv => formats_EmitVertex cfg ApiType v fv le xfr f
  simp only [loopBody, formats_append, List.mem_append] at hf
  simp only [loopBodyFormats, List.mem_append]
  rcases hf with hf | hf
  · exact Or.inl (Or.inl (Or.inl (formats_workingVertex _ _ _ _ f hf)))
  · unfold expansion at hf
    split_ifs at hf
    · simp only [formats_append, List.mem_append] at hf
      rcases hf with (hf | hf) | hf
      · exact Or.inl (Or.inl (Or.inr (formats_lineExpansion _ f hf)))
      · exact Or.inr (hE _ _ hf)
      · exact Or.inr (hE _ _ hf)
    · simp only [formats_append, List.mem_append] at hf
      rcases hf with (((hf | hf) | hf) | hf) | hf
      · exact Or.inl (Or.inr (formats_pointExpansion _ f hf))
      · exact Or.inr (hE _ _ hf)
      · exact Or.inr (hE _ _ hf)
      · exact Or.inr (hE _ _ hf)
      · exact Or.inr (hE _ _ hf)
    · exact Or.inr (hE _ _ hf)

theorem formats_afterLoop (cfg : VideoConfig) (ApiType : API_TYPE) (le : Bool)
    (xfr : XFMemory) :
    ∀ f ∈ formats (afterLoop cfg ApiType le xfr), f ∈ afterLoopFormats := by
  intro f hf
  simp only [afterLoop, formats_append, List.mem_append] at hf
  simp only [afterLoopFormats, List.mem_append]
  rcases hf with ((hf | hf) | hf) | hf
  · left; revert hf; simp only [formats_cons_Write, formats_nil, List.mem_cons, List.mem_singleton, List.not_mem_nil, or_false]; tauto
  · exact Or.inr (formats_endPrimitive _ _ _ _ f hf)
  · left; revert hf; split_ifs <;> simp only [formats_cons_Write, formats_nil, List.mem_cons, List.mem_singleton, List.not_mem_nil, or_false] <;> tauto
  · left; revert hf; simp only [formats_cons_Write, formats_nil, List.mem_cons, List.mem_singleton, List.not_mem_nil, or_false]; tauto

/-- A format that is used nowhere in the body can only be found in the layout parameters, in
the vertex streams with the head of `main`, and in the head of the per-vertex loop. -/
theorem callsWith_shaderCalls (fmt : String) (h : fmt ∉ bodyFormats) (cfg : VideoConfig)
    (ApiType : API_TYPE) (p vin vout : Nat) (le : Bool) (xfr : XFMemory) :
    callsWith fmt (shaderCalls cfg ApiType p vin vout le xfr) =
      callsWith fmt (layoutParameters cfg ApiType p vout) ++
      callsWith fmt (vertexDataAndMain cfg ApiType p vin vout le xfr) ++
      callsWith fmt (loopHead cfg vin) := by
  simp only [bodyFormats, List.mem_append, not_or] at h
  obtain ⟨⟨⟨⟨h1, h2⟩, h3⟩, h4⟩, h5⟩ := h
  simp only [shaderCalls, callsWith_append,
    callsWith_eq_nil fmt _ (fun hf => h1 (formats_uniformsAndStruct _ _ _ _ fmt hf)),
    callsWith_eq_nil fmt _ (fun hf => h2 (formats_primitiveSetup _ _ _ _ fmt hf)),
    callsWith_eq_nil fmt _ (fun hf => h3 (formats_stereoEye _ fmt hf)),
    callsWith_eq_nil fmt _ (fun hf => h4 (formats_loopBody _ _ _ _ _ fmt hf)),
    callsWith_eq_nil fmt _ (fun hf => h5 (formats_afterLoop _ _ _ _ fmt hf)),
    List.append_nil]


/-! ### C4: declared vertex counts -/

theorem vertex_in_of_le (p : Nat) (hp : p ≤ 2) : vertex_in p = p + 1 := by
  unfold vertex_in
  omega

theorem vertex_out_eq (cfg : VideoConfig) (p : Nat) :
    vertex_out cfg p = (if p = PRIMITIVE_TRIANGLES then 3 else 4) +
      (if cfg.bWireFrame then 1 else 0) := by
  unfold vertex_out
  split_ifs <;> rfl

theorem vertex_out_le (cfg : VideoConfig) (p : Nat) : vertex_out cfg p ≤ 5 := by
  unfold vertex_out
  split_ifs <;> simp

theorem declaredInputSizes_shaderCalls (cfg : VideoConfig) (ApiType : API_TYPE)
    (p vin vout : Nat) (le : Bool) (xfr : XFMemory) :
    declaredInputSizes ApiType (shaderCalls cfg ApiType p vin vout le xfr) = [Arg.d vin] := by
  cases ApiType
  · simp only [declaredInputSizes]
    rw [callsWith_shaderCalls _ (by decide)]
    simp only [layoutParameters, vertexDataAndMain, loopHead, reduceCtorEq, ↓reduceIte]
    split_ifs <;>
      simp +decide [callsWith_append, callsWith_cons_Write, callsWith_cons_Generate,
        callsWith_nil]
  · simp only [declaredInputSizes]
    rw [callsWith_shaderCalls _ (by decide), callsWith_shaderCalls _ (by decide)]
    simp only [layoutParameters, vertexDataAndMain, loopHead, reduceCtorEq, ↓reduceIte]
    split_ifs <;>
      simp +decide [callsWith_append, callsWith_cons_Write, callsWith_nil]

theorem loopBounds_shaderCalls (cfg : VideoConfig) (ApiType : API_TYPE)
    (p vin vout : Nat) (le : Bool) (xfr : XFMemory) :
    loopBounds (shaderCalls cfg ApiType p vin vout le xfr) = [Arg.d vin] := by
  simp only [loopBounds]
  rw [callsWith_shaderCalls _ (by decide)]
  cases ApiType <;> simp only [layoutParameters, vertexDataAndMain, loopHead, reduceCtorEq, ↓reduceIte] <;> split_ifs <;>
    simp +decide [callsWith_append, callsWith_cons_Write, callsWith_cons_Generate,
      callsWith_nil]

theorem declaredMaxVertices_shaderCalls (cfg : VideoConfig) (ApiType : API_TYPE)
    (p vin vout : Nat) (le : Bool) (xfr : XFMemory) :
    declaredMaxVertices ApiType (shaderCalls cfg ApiType p vin vout le xfr) =
      [Arg.d (if cfg.iStereoMode > 0 ∧ cfg.backend_info.bSupportsGSInstancing = false
        then vout * 2 % 2 ^ 32 else vout)] := by
  cases ApiType
  · simp only [declaredMaxVertices]
    rw [callsWith_shaderCalls _ (by decide)]
    simp only [layoutParameters, vertexDataAndMain, loopHead, reduceCtorEq, ↓reduceIte]
    split_ifs <;>
      simp_all +decide [callsWith_append, callsWith_cons_Write, callsWith_cons_Generate,
        callsWith_nil]
  · simp only [declaredMaxVertices]
    rw [callsWith_shaderCalls _ (by decide), callsWith_shaderCalls _ (by decide)]
    simp only [layoutParameters, vertexDataAndMain, loopHead, reduceCtorEq, ↓reduceIte]
    split_ifs <;>
      simp_all +decide [callsWith_append, callsWith_cons_Write, callsWith_nil]

/-- C4: for a primitive kind p in POINTS=0, LINES=1, TRIANGLES=2, on both backends and for every
flag combination, the text declares exactly one input vertex array, of size p + 1, runs exactly
one per-vertex loop, for p + 1 iterations, and declares exactly one maximum output vertex
count: vertex_out = (3 if TRIANGLES else 4) + (1 if wireframe else 0), doubled when stereo is
active and multi-invocation is unsupported. -/
theorem declared_vertex_counts (H : VSOutputShape) (cfg : VideoConfig)
    (dummy_data : geometry_shader_uid_data) (mem : Memory) (object : ShaderCode)
    (primitive_type : Nat) (ApiType : API_TYPE) (xfr : XFMemory) (hp : primitive_type ≤ 2) :
    declaredInputSizes ApiType (GenerateGeometryShaderCode H cfg dummy_data mem object
        primitive_type ApiType xfr).calls = [Arg.d (primitive_type + 1)] ∧
    loopBounds (GenerateGeometryShaderCode H cfg dummy_data mem object
        primitive_type ApiType xfr).calls = [Arg.d (primitive_type + 1)] ∧
    declaredMaxVertices ApiType (GenerateGeometryShaderCode H cfg dummy_data mem object
        primitive_type ApiType xfr).calls =
      [Arg.d (if cfg.iStereoMode > 0 ∧ cfg.backend_info.bSupportsGSInstancing = false
        then 2 * ((if primitive_type = PRIMITIVE_TRIANGLES then 3 else 4) +
          (if cfg.bWireFrame then 1 else 0))
        else (if primitive_type = PRIMITIVE_TRIANGLES then 3 else 4) +
          (if cfg.bWireFrame then 1 else 0))] := by
  have hv := vertex_out_le cfg primitive_type
  have hm : vertex_out cfg primitive_type * 2 % 2 ^ 32 = 2 * vertex_out cfg primitive_type := by
    omega
  rw [GenerateGeometryShaderCode_calls, declaredInputSizes_shaderCalls,
    loopBounds_shaderCalls, declaredMaxVertices_shaderCalls, vertex_in_of_le _ hp, hm,
    vertex_out_eq]
  exact ⟨rfl, rfl, rfl⟩

/-- C4, instantiated: a wireframe stereo LINES draw on D3D11 without multi-invocation declares
`o[2]`, loops to 2 and declares `maxvertexcount(10)`. -/
theorem declared_vertex_counts_witness :
    declaredInputSizes API_TYPE.API_D3D11 (GenerateGeometryShaderCode sampleShape
        { plainConfig with bWireFrame := true, iStereoMode := 1 } zeroUid blankMemory freshCode
        PRIMITIVE_LINES API_TYPE.API_D3D11 plainXf).calls = [Arg.d 2] ∧
    loopBounds (GenerateGeometryShaderCode sampleShape
        { plainConfig with bWireFrame := true, iStereoMode := 1 } zeroUid blankMemory freshCode
        PRIMITIVE_LINES API_TYPE.API_D3D11 plainXf).calls = [Arg.d 2] ∧
    declaredMaxVertices API_TYPE.API_D3D11 (GenerateGeometryShaderCode sampleShape
        { plainConfig with bWireFrame := true, iStereoMode := 1 } zeroUid blankMemory freshCode
        PRIMITIVE_LINES API_TYPE.API_D3D11 plainXf).calls = [Arg.d 10] :=
  declared_vertex_counts sampleShape { plainConfig with bWireFrame := true, iStereoMode := 1 }
    zeroUid blankMemory freshCode PRIMITIVE_LINES API_TYPE.API_D3D11 plainXf (by decide)


/-! ### The calls before the per-vertex loop -/

theorem formats_layoutParameters (cfg : VideoConfig) (ApiType : API_TYPE) (p vout : Nat) :
    ∀ f ∈ formats (layoutParameters cfg ApiType p vout), f ∈ layoutParametersFormats := by
  unfold layoutParameters
  cases ApiType
  · simp only [↓reduceIte]
    split_ifs <;> simp [layoutParametersFormats, formats_cons_Write, formats_nil]
  · simp [formats_nil]

theorem formats_vertexDataAndMain (cfg : VideoConfig) (ApiType : API_TYPE) (p vin vout : Nat)
    (le : Bool) (xfr : XFMemory) :
    ∀ f ∈ formats (vertexDataAndMain cfg ApiType p vin vout le xfr),
      f ∈ vertexDataAndMainFormats := by
  unfold vertexDataAndMain
  cases ApiType <;> simp only [reduceCtorEq, ↓reduceIte] <;> split_ifs <;>
    simp [vertexDataAndMainFormats, formats_append, formats_cons_Write, formats_cons_Generate,
      formats_nil]

theorem formats_beforeLoop (cfg : VideoConfig) (ApiType : API_TYPE) (p vin vout : Nat)
    (le : Bool) (xfr : XFMemory) :
    ∀ f ∈ formats (beforeLoop cfg ApiType p vin vout le xfr), f ∈ beforeLoopFormats := by
  unfold beforeLoop beforeLoopFormats
  refine formats_subset_append (formats_subset_append (formats_subset_append
    (formats_subset_append (formats_subset_append (formats_layoutParameters _ _ _ _)
      (formats_uniformsAndStruct _ _ _ _)) (formats_vertexDataAndMain _ _ _ _ _ _ _))
    (formats_primitiveSetup _ _ _ _)) (formats_stereoEye _)) ?_
  split_ifs <;> simp [formats_cons_Write, formats_nil]

/-- The calls of the generator, cut at the head of the per-vertex loop. -/
theorem shaderCalls_eq_loop (cfg : VideoConfig) (ApiType : API_TYPE) (p vin vout : Nat)
    (le : Bool) (xfr : XFMemory) :
    shaderCalls cfg ApiType p vin vout le xfr =
      beforeLoop cfg ApiType p vin vout le xfr ++
        Call.Write "\tfor (int i = 0; i < %d; ++i) \x7b\n" [Arg.d vin] ::
          (loopBody cfg ApiType p le xfr ++ afterLoop cfg ApiType le xfr) := by
  simp only [shaderCalls, beforeLoop, loopHead, List.append_assoc, List.singleton_append,
    List.cons_append, List.nil_append]

/-! ### C5: vertex emissions per loop iteration -/

theorem emissions_append (a b : List Call) : emissions (a ++ b) = emissions a + emissions b := by
  simp only [emissions, callsWith_append, List.length_append]
  omega

theorem emissions_eq_zero (cs : List Call) (h₁ : "\tEmitVertex();\n" ∉ formats cs)
    (h₂ : "\toutput.Append(ps);\n" ∉ formats cs) : emissions cs = 0 := by
  simp only [emissions, callsWith_eq_nil _ _ h₁, callsWith_eq_nil _ _ h₂, List.length_nil]

theorem emissions_EmitVertex (cfg : VideoConfig) (ApiType : API_TYPE) (v : String)
    (fv le : Bool) (xfr : XFMemory) : emissions (EmitVertex cfg ApiType v fv le xfr) = 1 := by
  unfold EmitVertex emissions
  cases ApiType <;> simp only [reduceCtorEq, ↓reduceIte] <;> split_ifs <;>
    simp +decide [callsWith_append, callsWith_cons_Write, callsWith_cons_Assign, callsWith_nil]

theorem emissions_beforeLoop (cfg : VideoConfig) (ApiType : API_TYPE) (p vin vout : Nat)
    (le : Bool) (xfr : XFMemory) : emissions (beforeLoop cfg ApiType p vin vout le xfr) = 0 :=
  emissions_eq_zero _
    (fun h => absurd (formats_beforeLoop _ _ _ _ _ _ _ _ h) (by decide))
    (fun h => absurd (formats_beforeLoop _ _ _ _ _ _ _ _ h) (by decide))

theorem emissions_workingVertex (cfg : VideoConfig) (ApiType : API_TYPE) (le : Bool)
    (xfr : XFMemory) : emissions (workingVertex cfg ApiType le xfr) = 0 :=
  emissions_eq_zero _
    (fun h => absurd (formats_workingVertex _ _ _ _ _ h) (by decide))
    (fun h => absurd (formats_workingVertex _ _ _ _ _ h) (by decide))

theorem emissions_lineExpansion (xfr : XFMemory) : emissions (lineExpansion xfr) = 0 :=
  emissions_eq_zero _
    (fun h => absurd (formats_lineExpansion _ _ h) (by decide))
    (fun h => absurd (formats_lineExpansion _ _ h) (by decide))

theorem emissions_pointExpansion (xfr : XFMemory) : emissions (pointExpansion xfr) = 0 :=
  emissions_eq_zero _
    (fun h => absurd (formats_pointExpansion _ _ h) (by decide))
    (fun h => absurd (formats_pointExpansion _ _ h) (by decide))

theorem emissions_loopBody (cfg : VideoConfig) (ApiType : API_TYPE) (p : Nat) (le : Bool)
    (xfr : XFMemory) :
    emissions (loopBody cfg ApiType p le xfr) =
      if p = PRIMITIVE_LINES then 2 else if p = PRIMITIVE_POINTS then 4 else 1 := by
  unfold loopBody expansion
  split_ifs <;>
    simp only [emissions_append, emissions_workingVertex, emissions_lineExpansion,
      emissions_pointExpansion, emissions_EmitVertex]

theorem emissions_EndPrimitive (cfg : VideoConfig) (ApiType : API_TYPE) (le : Bool)
    (xfr : XFMemory) :
    emissions (EndPrimitive cfg ApiType le xfr) = if cfg.bWireFrame then 1 else 0 := by
  unfold EndPrimitive
  rw [emissions_append]
  have h : emissions (if ApiType = API_TYPE.API_OPENGL then
      [Call.Write "\tEndPrimitive();\n" []] else [Call.Write "\toutput.RestartStrip();\n" []])
      = 0 := by
    split_ifs <;> rfl
  rw [h]
  split_ifs
  · rw [emissions_EmitVertex]
  · rfl

theorem emissions_afterLoop (cfg : VideoConfig) (ApiType : API_TYPE) (le : Bool)
    (xfr : XFMemory) :
    emissions (afterLoop cfg ApiType le xfr) = if cfg.bWireFrame then 1 else 0 := by
  unfold afterLoop
  have h : emissions (if (decide (cfg.iStereoMode > 0) &&
      !cfg.backend_info.bSupportsGSInstancing) = true then [Call.Write "\t\x7d\n" []] else [])
      = 0 := by
    split_ifs <;> rfl
  rw [emissions_append, emissions_append, emissions_append, emissions_EndPrimitive, h]
  have h₁ : emissions [Call.Write "\t\x7d\n" []] = 0 := rfl
  have h₂ : emissions [Call.Write "\x7d\n" []] = 0 := rfl
  rw [h₁, h₂]
  omega

/-- C5: for a primitive kind in POINTS, LINES, TRIANGLES, both backends and every flag
combination, the generated calls are: calls with no vertex emission and no loop head, then the
head of the per-vertex loop, then the loop body (lines 214-295), then the brace closing the
loop and the rest.  The loop body contains exactly 2 vertex emissions for LINES, 4 for POINTS
and 1 for TRIANGLES; what follows it contains exactly one when wireframe mode is active and
none when it is not. -/
theorem emissions_per_iteration (H : VSOutputShape) (cfg : VideoConfig)
    (dummy_data : geometry_shader_uid_data) (mem : Memory) (object : ShaderCode)
    (primitive_type : Nat) (ApiType : API_TYPE) (xfr : XFMemory) (hp : primitive_type ≤ 2) :
    ∃ before after,
      (GenerateGeometryShaderCode H cfg dummy_data mem object primitive_type ApiType
          xfr).calls =
        before ++ Call.Write "\tfor (int i = 0; i < %d; ++i) \x7b\n"
            [Arg.d (primitive_type + 1)] ::
          (loopBody cfg ApiType primitive_type (lightingEnabled cfg xfr) xfr ++
            Call.Write "\t\x7d\n" [] :: after) ∧
      emissions before = 0 ∧
      callsWith "\tfor (int i = 0; i < %d; ++i) \x7b\n" before = [] ∧
      emissions (loopBody cfg ApiType primitive_type (lightingEnabled cfg xfr) xfr) =
        (if primitive_type = PRIMITIVE_LINES then 2
         else if primitive_type = PRIMITIVE_POINTS then 4 else 1) ∧
      emissions after = (if cfg.bWireFrame then 1 else 0) := by
  refine ⟨beforeLoop cfg ApiType primitive_type (vertex_in primitive_type)
      (vertex_out cfg primitive_type) (lightingEnabled cfg xfr) xfr,
    (afterLoop cfg ApiType (lightingEnabled cfg xfr) xfr).tail, ?_, ?_, ?_, ?_, ?_⟩
  · rw [GenerateGeometryShaderCode_calls, shaderCalls_eq_loop, vertex_in_of_le _ hp]
    rfl
  · exact emissions_beforeLoop _ _ _ _ _ _ _
  · exact callsWith_eq_nil _ _
      (fun h => absurd (formats_beforeLoop _ _ _ _ _ _ _ _ h) (by decide))
  · exact emissions_loopBody _ _ _ _ _
  · have h := emissions_afterLoop cfg ApiType (lightingEnabled cfg xfr) xfr
    have e : afterLoop cfg ApiType (lightingEnabled cfg xfr) xfr =
        Call.Write "\t\x7d\n" [] ::
          (afterLoop cfg ApiType (lightingEnabled cfg xfr) xfr).tail := rfl
    rw [e] at h
    exact h

/-- C5, instantiated: a wireframe POINTS draw on OpenGL. -/
theorem emissions_per_iteration_witness :
    ∃ before after,
      (GenerateGeometryShaderCode sampleShape { plainConfig with bWireFrame := true } zeroUid
          blankMemory freshCode PRIMITIVE_POINTS API_TYPE.API_OPENGL plainXf).calls =
        before ++ Call.Write "\tfor (int i = 0; i < %d; ++i) \x7b\n" [Arg.d 1] ::
          (loopBody { plainConfig with bWireFrame := true } API_TYPE.API_OPENGL
              PRIMITIVE_POINTS false plainXf ++
            Call.Write "\t\x7d\n" [] :: after) ∧
      emissions before = 0 ∧
      callsWith "\tfor (int i = 0; i < %d; ++i) \x7b\n" before = [] ∧
      emissions (loopBody { plainConfig with bWireFrame := true } API_TYPE.API_OPENGL
          PRIMITIVE_POINTS false plainXf) = 4 ∧
      emissions after = 1 :=
  emissions_per_iteration sampleShape { plainConfig with bWireFrame := true } zeroUid
    blankMemory freshCode PRIMITIVE_POINTS API_TYPE.API_OPENGL plainXf (by decide)

/-! ### Characters of the emitted text -/

theorem digitChar_mem (k : Nat) (hk : k < 10) : Nat.digitChar k ∈ "-0123456789".data := by
  interval_cases k <;> decide

theorem mem_toDigitsCore (fuel : Nat) :
    ∀ (n : Nat) (ds : List Char) (c : Char), c ∈ Nat.toDigitsCore 10 fuel n ds →
      c ∈ ds ∨ c ∈ "-0123456789".data := by
  induction fuel with
  | zero => intro n ds c h; exact Or.inl h
  | succ fuel ih =>
    intro n ds c h
    rw [Nat.toDigitsCore] at h
    have hd := digitChar_mem (n % 10) (Nat.mod_lt _ (by decide))
    split_ifs at h
    · rcases List.mem_cons.mp h with h | h
      · exact Or.inr (h ▸ hd)
      · exact Or.inl h
    · rcases ih _ _ _ h with h | h
      · rcases List.mem_cons.mp h with h | h
        · exact Or.inr (h ▸ hd)
        · exact Or.inl h
      · exact Or.inr h

theorem mem_fmt_d (v : Nat) (c : Char) (h : c ∈ fmt_d v) : c ∈ "-0123456789".data := by
  unfold fmt_d at h
  have key : ∀ n, c ∈ (Nat.repr n).data → c ∈ "-0123456789".data := by
    intro n hn
    rcases mem_toDigitsCore _ _ _ _ hn with h | h
    · simp at h
    · exact h
  split_ifs at h
  · exact key _ h
  · rcases List.mem_cons.mp h with h | h
    · subst h; decide
    · exact key _ h

theorem mem_vsprintf (c : Char) : ∀ (fmt : List Char) (args : List Arg),
    c ∈ vsprintf fmt args → c ∈ fmt ∨ ∃ a ∈ args, c ∈ a.text := by
  intro fmt args
  induction fmt, args using vsprintf.induct with
  | case1 args => intro h; simp [vsprintf] at h
  | case2 fmt v args ih =>
    intro h
    rw [vsprintf, List.mem_append] at h
    rcases h with h | h
    · exact Or.inr ⟨Arg.s v, List.mem_cons_self _ _, h⟩
    · rcases ih h with h | ⟨a, ha, hc⟩
      · exact Or.inl (List.mem_cons_of_mem _ (List.mem_cons_of_mem _ h))
      · exact Or.inr ⟨a, List.mem_cons_of_mem _ ha, hc⟩
  | case3 fmt args ih =>
    intro h
    rw [vsprintf] at h
    rcases ih h with h | ⟨a, ha, hc⟩
    · exact Or.inl (List.mem_cons_of_mem _ (List.mem_cons_of_mem _ h))
    · exact Or.inr ⟨a, List.mem_cons_of_mem _ ha, hc⟩
  | case4 fmt v args ih =>
    intro h
    rw [vsprintf, List.mem_append] at h
    rcases h with h | h
    · exact Or.inr ⟨Arg.d v, List.mem_cons_self _ _, h⟩
    · rcases ih h with h | ⟨a, ha, hc⟩
      · exact Or.inl (List.mem_cons_of_mem _ (List.mem_cons_of_mem _ h))
      · exact Or.inr ⟨a, List.mem_cons_of_mem _ ha, hc⟩
  | case5 c' fmt args h1 h2 h3 ih =>
    intro h
    rw [vsprintf] at h
    · rcases List.mem_cons.mp h with h | h
      · exact Or.inl (h ▸ List.mem_cons_self _ _)
      · rcases ih h with h | h
        · exact Or.inl (List.mem_cons_of_mem _ h)
        · exact Or.inr h
    all_goals assumption

theorem not_mem_of_contains_eq_false {l : List Char} {x : Char}
    (h : (!l.contains x) = true) : x ∉ l := by
  simpa using h

theorem not_mem_arg_text (x : Char) (a : Arg) (h : a.avoids x = true) : x ∉ a.text := by
  cases a with
  | s v => exact not_mem_of_contains_eq_false h
  | d v => exact fun hx => not_mem_of_contains_eq_false h (mem_fmt_d v x hx)
  | invalid => simp [Arg.text]

/-- A call that avoids `x` puts no `x` on the sink, if the helpers avoid `x`. -/
theorem not_mem_call_text (H : VSOutputShape) (x : Char) (hH : H.Avoids x) (c : Call)
    (h : c.avoids x = true) : x ∉ c.text H := by
  cases c with
  | Write f args =>
    simp only [Call.avoids, Bool.and_eq_true, List.all_eq_true] at h
    intro hx
    rcases mem_vsprintf x _ _ hx with hx | ⟨a, ha, hx⟩
    · exact not_mem_of_contains_eq_false h.1 hx
    · exact not_mem_arg_text x a (h.2 a ha) hx
  | GenerateVSOutputMembers api pl xfr q => exact hH.1 api pl xfr q h
  | AssignVSOutputMembers api a b pl xfr => exact hH.2 api a b pl xfr h

theorem not_mem_callsText (H : VSOutputShape) (x : Char) (hH : H.Avoids x) (cs : List Call)
    (h : cs.all (Call.avoids x) = true) : x ∉ callsText H cs := by
  induction cs with
  | nil => simp [callsText]
  | cons c cs ih =>
    rw [List.all_cons, Bool.and_eq_true] at h
    rw [callsText, List.mem_append, not_or]
    exact ⟨not_mem_call_text H x hH c h.1, ih h.2⟩

theorem tableArg_avoids_canary_ogl (p : Nat) :
    (tableArg primitives_ogl p).avoids canary = true := by
  rcases p with _ | _ | _ | p <;> rfl

theorem tableArg_avoids_canary_d3d (p : Nat) :
    (tableArg primitives_d3d p).avoids canary = true := by
  rcases p with _ | _ | _ | p <;> rfl

theorem emitVertex_avoids_canary (cfg : VideoConfig) (ApiType : API_TYPE) (v : String)
    (hv : canary ∉ v.data) (fv le : Bool) (xfr : XFMemory) :
    (EmitVertex cfg ApiType v fv le xfr).all (Call.avoids canary) = true := by
  unfold EmitVertex
  cases ApiType <;> simp only [reduceCtorEq, ↓reduceIte] <;> split_ifs <;>
    simp +decide [Call.avoids, Arg.avoids, hv]

theorem endPrimitive_avoids_canary (cfg : VideoConfig) (ApiType : API_TYPE) (le : Bool)
    (xfr : XFMemory) : (EndPrimitive cfg ApiType le xfr).all (Call.avoids canary) = true := by
  unfold EndPrimitive
  rw [List.all_append, Bool.and_eq_true]
  constructor
  · split_ifs
    · exact emitVertex_avoids_canary _ _ _ (by decide) _ _ _
    · rfl
  · split_ifs <;> decide

theorem layoutParameters_avoids_canary (cfg : VideoConfig) (ApiType : API_TYPE) (p vout : Nat) :
    (layoutParameters cfg ApiType p vout).all (Call.avoids canary) = true := by
  have ht := tableArg_avoids_canary_ogl p
  unfold layoutParameters
  cases ApiType
  · simp only [↓reduceIte]
    split_ifs <;> simp only [List.all_cons, List.all_nil, Call.avoids, ht] <;>
      simp +decide [Arg.avoids]
  · rfl

theorem uniformsAndStruct_avoids_canary (cfg : VideoConfig) (ApiType : API_TYPE) (le : Bool)
    (xfr : XFMemory) :
    (uniformsAndStruct cfg ApiType le xfr).all (Call.avoids canary) = true := by
  unfold uniformsAndStruct
  cases ApiType <;> simp only [reduceCtorEq, ↓reduceIte]
  · split_ifs <;> simp +decide [Call.avoids, Arg.avoids]
  · simp +decide [Call.avoids, Arg.avoids]

theorem vertexDataAndMain_avoids_canary (cfg : VideoConfig) (ApiType : API_TYPE)
    (p vin vout : Nat) (le : Bool) (xfr : XFMemory) :
    (vertexDataAndMain cfg ApiType p vin vout le xfr).all (Call.avoids canary) = true := by
  have ht := tableArg_avoids_canary_d3d p
  unfold vertexDataAndMain
  cases ApiType <;> simp only [reduceCtorEq, ↓reduceIte] <;> split_ifs <;>
    simp only [List.all_cons, List.all_nil, List.all_append, Call.avoids, ht] <;>
    simp +decide [Arg.avoids]

set_option maxRecDepth 100000 in
theorem primitiveSetup_avoids_canary (ApiType : API_TYPE) (p : Nat) (le : Bool)
    (xfr : XFMemory) : (primitiveSetup ApiType p le xfr).all (Call.avoids canary) = true := by
  unfold primitiveSetup
  cases ApiType <;> simp only [reduceCtorEq, ↓reduceIte] <;> split_ifs <;> rfl

theorem stereoEye_avoids_canary (cfg : VideoConfig) :
    (stereoEye cfg).all (Call.avoids canary) = true := by
  unfold stereoEye
  split_ifs <;> decide

theorem loopHead_avoids_canary (cfg : VideoConfig) (vin : Nat) :
    (loopHead cfg vin).all (Call.avoids canary) = true := by
  unfold loopHead
  split_ifs <;> simp +decide [Call.avoids, Arg.avoids]

theorem workingVertex_avoids_canary (cfg : VideoConfig) (ApiType : API_TYPE) (le : Bool)
    (xfr : XFMemory) : (workingVertex cfg ApiType le xfr).all (Call.avoids canary) = true := by
  unfold workingVertex
  cases ApiType <;> simp only [reduceCtorEq, ↓reduceIte] <;> split_ifs <;>
    simp +decide [Call.avoids, Arg.avoids]

theorem lineTexOffsetLoop_avoids_canary (n : Nat) :
    ∀ i, (lineTexOffsetLoop n i).all (Call.avoids canary) = true := by
  induction n with
  | zero => intro i; rfl
  | succ n ih =>
    intro i
    rw [lineTexOffsetLoop, List.all_append, ih]
    simp +decide [Call.avoids, Arg.avoids]

theorem pointTexOffsetLoop_avoids_canary (n : Nat) :
    ∀ i, (pointTexOffsetLoop n i).all (Call.avoids canary) = true := by
  induction n with
  | zero => intro i; rfl
  | succ n ih =>
    intro i
    rw [pointTexOffsetLoop, List.all_append, ih]
    simp +decide [Call.avoids, Arg.avoids]

theorem expansion_avoids_canary (cfg : VideoConfig) (ApiType : API_TYPE) (p : Nat) (le : Bool)
    (xfr : XFMemory) : (expansion cfg ApiType p le xfr).all (Call.avoids canary) = true := by
  have hE := fun v hv fv => emitVertex_avoids_canary cfg ApiType v hv fv le xfr
  unfold expansion lineExpansion pointExpansion
  split_ifs
  · simp only [List.all_append, lineTexOffsetLoop_avoids_canary,
      hE "l" (by decide), hE "r" (by decide)]
    simp +decide [Call.avoids, Arg.avoids]
  · simp only [List.all_append, pointTexOffsetLoop_avoids_canary,
      hE "ll" (by decide), hE "lr" (by decide), hE "ul" (by decide), hE "ur" (by decide)]
    simp +decide [Call.avoids, Arg.avoids]
  · exact hE "f" (by decide) _

theorem afterLoop_avoids_canary (cfg : VideoConfig) (ApiType : API_TYPE) (le : Bool)
    (xfr : XFMemory) : (afterLoop cfg ApiType le xfr).all (Call.avoids canary) = true := by
  unfold afterLoop
  simp only [List.all_append, endPrimitive_avoids_canary]
  split_ifs <;> decide

/-- No call of the generator has the canary byte in its format or in an argument. -/
theorem shaderCalls_avoids_canary (cfg : VideoConfig) (ApiType : API_TYPE) (p vin vout : Nat)
    (le : Bool) (xfr : XFMemory) :
    (shaderCalls cfg ApiType p vin vout le xfr).all (Call.avoids canary) = true := by
  simp only [shaderCalls, loopBody, List.all_append, layoutParameters_avoids_canary,
    uniformsAndStruct_avoids_canary, vertexDataAndMain_avoids_canary,
    primitiveSetup_avoids_canary, stereoEye_avoids_canary, loopHead_avoids_canary,
    workingVertex_avoids_canary, expansion_avoids_canary, afterLoop_avoids_canary,
    Bool.and_self]


/-! ### C6: overflow detection -/

theorem sampleShape_avoids_canary : sampleShape.Avoids canary := by
  have hd : ∀ i, canary ∉ fmt_d i := fun i h => absurd (mem_fmt_d i canary h) (by decide)
  constructor
  · intro api pl xfr q hq
    have hq' : canary ∉ (q.getD "").data := by
      cases q with
      | none => decide
      | some s => exact not_mem_of_contains_eq_false hq
    simp only [sampleShape, sampleMembers, String.data_append, List.mem_append,
      List.mem_flatMap, not_or, not_exists, not_and]
    refine ⟨⟨⟨⟨by decide, hq'⟩, by decide⟩, fun i _ => ⟨⟨by decide, hd i⟩, by decide⟩⟩, ?_⟩
    split_ifs
    · decide
    · simp
  · intro api a b pl xfr hab
    simp only [Call.avoids, Bool.and_eq_true] at hab
    have ha := not_mem_of_contains_eq_false hab.1
    have hb := not_mem_of_contains_eq_false hab.2
    simp only [sampleShape, sampleAssign, String.data_append, List.mem_append,
      List.mem_flatMap, not_or, not_exists, not_and]
    refine ⟨⟨⟨⟨⟨⟨by decide, ha⟩, by decide⟩, hb⟩, by decide⟩, fun i _ =>
      ⟨⟨⟨⟨⟨⟨by decide, ha⟩, by decide⟩, hd i⟩, ⟨⟨by decide, hb⟩, by decide⟩⟩, hd i⟩,
        by decide⟩⟩, ?_⟩
    split_ifs
    · exact fun h => by
        simp only [String.data_append, List.mem_append] at h
        rcases h with (((h | h) | h) | h) | h
        · revert h; decide
        · exact ha h
        · revert h; decide
        · exact hb h
        · revert h; decide
    · simp

/-- A text-mode run on any sink: the text and its terminator are stored in the buffer the sink
holds (the static array if it holds none), over the canary-stamped old content, from the write
position of the sink (cell 0 if no buffer was set), and the alert tells whether the canary cell
has changed. -/
theorem GenerateGeometryShaderCode_cells (H : VSOutputShape) (cfg : VideoConfig)
    (dummy_data : geometry_shader_uid_data) (mem : Memory) (object : ShaderCode)
    (primitive_type : Nat) (ApiType : API_TYPE) (xfr : XFMemory) :
    (GenerateGeometryShaderCode H cfg dummy_data mem object primitive_type ApiType
        xfr).mem.cells (object.buf.getD BufRef.static_text) =
      poke ((mem.cells (object.buf.getD BufRef.static_text)).set (mem.text.length - 1) canary)
        (if object.buf.isNone then 0 else object.write_ptr)
        (callsText H (GenerateGeometryShaderCode H cfg dummy_data mem object primitive_type
          ApiType xfr).calls ++ [NUL]) ∧
    (GenerateGeometryShaderCode H cfg dummy_data mem object primitive_type ApiType xfr).alert =
      decide ((poke ((mem.cells (object.buf.getD BufRef.static_text)).set
          (mem.text.length - 1) canary)
        (if object.buf.isNone then 0 else object.write_ptr)
        (callsText H (GenerateGeometryShaderCode H cfg dummy_data mem object primitive_type
          ApiType xfr).calls ++ [NUL]))[mem.text.length - 1]? ≠ some canary) := by
  obtain ⟨c, cs, hc⟩ := shaderCalls_run_eq_cons cfg ApiType primitive_type xfr
  have hlen : ∀ (out : ShaderCode) (m : Memory),
      (runCalls H (c :: cs) out m).2.text.length = m.text.length :=
    fun out m => runCalls_code_text_length H (c :: cs) out m
  rcases object with ⟨buf, w⟩
  cases buf with
  | none =>
    simp only [GenerateGeometryShaderCode_eq, hc, Option.isNone_none, if_true, Option.getD_none,
      runCalls_code, Nat.zero_add, GEOMETRYSHADERGEN_BUFFERSIZE, Memory.cells, Memory.setCells,
      poke_length, List.length_set, and_self]
  | some b =>
    simp only [GenerateGeometryShaderCode_eq, hc, Option.isNone_some, Bool.false_eq_true,
      if_false, Option.getD_some, runCalls_code, cells_setCells, GEOMETRYSHADERGEN_BUFFERSIZE,
      true_and]
    rw [setCells_setCells, text_length_setCells _ _ _
      (by rw [poke_length, List.length_set])]

/-- The canary cell after a text and its terminator were stored from cell `w` of a
canary-stamped buffer that has the cell. -/
theorem canary_cell_poke (T B : List Char) (w k : Nat) (hk : k < B.length) :
    (poke (B.set k canary) w (T ++ [NUL]))[k]? =
      if w ≤ k ∧ k ≤ w + T.length then (T ++ [NUL])[k - w]? else some canary := by
  rw [poke_getElem?, List.length_set, List.length_append, List.length_singleton,
    List.getElem?_set]
  have h1 : (k < w + (T.length + 1)) = (k ≤ w + T.length) := by
    apply propext; omega
  simp only [h1, hk, if_true]

theorem canary_cell_changed (T B : List Char) (w k : Nat) (hk : k < B.length)
    (hT : canary ∉ T) :
    (poke (B.set k canary) w (T ++ [NUL]))[k]? ≠ some canary ↔ w ≤ k ∧ k ≤ w + T.length := by
  rw [canary_cell_poke T B w k hk]
  by_cases h : w ≤ k ∧ k ≤ w + T.length
  · simp only [h, and_self, if_true, iff_true]
    intro hc
    have hm := List.getElem?_mem hc
    rw [List.mem_append] at hm
    rcases hm with hm | hm
    · exact hT hm
    · revert hm; decide
  · simp only [h, if_false, ne_eq, not_true_eq_false]

set_option maxRecDepth 1000000 in
/-- C6 (as stated, refuted): a text longer than the buffer capacity does not always raise the
alert.  A plain TRIANGLES draw on D3D11 has a text of 372 bytes.  Generated on a fresh sink into
a static buffer of 64 cells it raises the alert and leaves the sink at write position 372;
generated once more on that sink, the same text is stored from position 372 on, the canary of
cell 63 is not touched and no alert is raised.  Likewise on a sink that holds a caller buffer of
512 cells and stands at write position 100: the canary goes to cell 63 of that buffer, the
text is stored in cells 100 to 472, and no alert is raised. -/
theorem overflow_undetected :
    (callsText sampleShape (GenerateGeometryShaderCode sampleShape plainConfig zeroUid
        smallMemory freshCode PRIMITIVE_TRIANGLES API_TYPE.API_D3D11 plainXf).calls).length =
      372 ∧
    GEOMETRYSHADERGEN_BUFFERSIZE smallMemory = 64 ∧
    (GenerateGeometryShaderCode sampleShape plainConfig zeroUid smallMemory freshCode
        PRIMITIVE_TRIANGLES API_TYPE.API_D3D11 plainXf).alert = true ∧
    (GenerateGeometryShaderCode sampleShape plainConfig zeroUid smallMemory freshCode
        PRIMITIVE_TRIANGLES API_TYPE.API_D3D11 plainXf).out =
      { buf := some BufRef.static_text, write_ptr := 372 } ∧
    (GenerateGeometryShaderCode sampleShape plainConfig zeroUid
        (GenerateGeometryShaderCode sampleShape plainConfig zeroUid smallMemory freshCode
          PRIMITIVE_TRIANGLES API_TYPE.API_D3D11 plainXf).mem
        { buf := some BufRef.static_text, write_ptr := 372 }
        PRIMITIVE_TRIANGLES API_TYPE.API_D3D11 plainXf).alert = false ∧
    GEOMETRYSHADERGEN_BUFFERSIZE callerMemory = 64 ∧
    (GenerateGeometryShaderCode sampleShape plainConfig zeroUid callerMemory
        { buf := some BufRef.caller, write_ptr := 100 }
        PRIMITIVE_TRIANGLES API_TYPE.API_D3D11 plainXf).alert = false ∧
    (GenerateGeometryShaderCode sampleShape plainConfig zeroUid callerMemory
        { buf := some BufRef.caller, write_ptr := 100 }
        PRIMITIVE_TRIANGLES API_TYPE.API_D3D11 plainXf).mem.caller[63]? = some canary ∧
    (GenerateGeometryShaderCode sampleShape plainConfig zeroUid callerMemory
        { buf := some BufRef.caller, write_ptr := 100 }
        PRIMITIVE_TRIANGLES API_TYPE.API_D3D11 plainXf).mem.caller[472]? = some NUL := by
  decide

/-- C6 (amended): in full-text mode the generator first stores the canary 0x7C at index
GEOMETRYSHADERGEN_BUFFERSIZE - 1 of the buffer it writes to (the one set on the sink, else the
static array, whose last cell this is) and only then issues its calls, from that memory; it
raises the alert exactly when that cell no longer holds 0x7C afterwards.  Hence, on a sink
without buffer, where the text is stored from cell 0 of the static array: a text longer than the
buffer size by at least one byte raises the alert if the vertex-output-shape helpers emit no byte
0x7C unless handed one (the generator hands them none), and a text that ends, terminator
included, before the canary cell raises none.  On any sink whose buffer has the canary cell,
the text being stored from the write position of the sink: a text that ends, terminator
included, before the canary cell or starts past it raises no alert, whatever its length, and,
the helpers emitting no byte 0x7C, the alert is raised exactly when the text with its terminator
reaches the canary cell. -/
theorem overflow_detection (H : VSOutputShape) (cfg : VideoConfig)
    (dummy_data : geometry_shader_uid_data) (mem : Memory) (object : ShaderCode)
    (primitive_type : Nat) (ApiType : API_TYPE) (xfr : XFMemory) :
    let r := GenerateGeometryShaderCode H cfg dummy_data mem object primitive_type ApiType xfr
    let codebuffer := object.buf.getD BufRef.static_text
    let n := GEOMETRYSHADERGEN_BUFFERSIZE mem
    let stamped := mem.setCells codebuffer ((mem.cells codebuffer).set (n - 1) canary)
    let start := if object.buf.isNone then 0 else object.write_ptr
    let len := (callsText H r.calls).length
    (n - 1 < (mem.cells codebuffer).length → (stamped.cells codebuffer)[n - 1]? = some canary) ∧
    (r.out, r.mem) = runCalls H r.calls
      (if object.buf.isNone then { buf := some BufRef.static_text, write_ptr := 0 } else object)
      stamped ∧
    (r.alert = true ↔ (r.mem.cells codebuffer)[n - 1]? ≠ some canary) ∧
    (H.Avoids canary → object.buf = none → n + 1 ≤ len → r.alert = true) ∧
    (object.buf = none → len + 1 ≤ n - 1 → r.alert = false) ∧
    (H.Avoids canary → object.buf = none → 0 < n → (r.alert = true ↔ n ≤ len + 1)) ∧
    (n - 1 < (mem.cells codebuffer).length → start + len + 1 ≤ n - 1 ∨ n - 1 < start →
      r.alert = false) ∧
    (H.Avoids canary → n - 1 < (mem.cells codebuffer).length →
      (r.alert = true ↔ start ≤ n - 1 ∧ n - 1 ≤ start + len)) := by
  intro r codebuffer n stamped start len
  obtain ⟨_, halert⟩ := GenerateGeometryShaderCode_cells H cfg dummy_data mem object
    primitive_type ApiType xfr
  have hclean : H.Avoids canary → canary ∉ callsText H r.calls := by
    intro hH
    apply not_mem_callsText H canary hH
    simp only [r, GenerateGeometryShaderCode_calls]
    exact shaderCalls_avoids_canary _ _ _ _ _ _ _
  have hquiet : n - 1 < (mem.cells codebuffer).length →
      start + len + 1 ≤ n - 1 ∨ n - 1 < start → r.alert = false := by
    intro hk hpos
    have hk' : mem.text.length - 1 <
        (mem.cells (object.buf.getD BufRef.static_text)).length := hk
    have hpos' : (if object.buf.isNone then 0 else object.write_ptr) +
        (callsText H (GenerateGeometryShaderCode H cfg dummy_data mem object primitive_type
          ApiType xfr).calls).length + 1 ≤ mem.text.length - 1 ∨
        mem.text.length - 1 < (if object.buf.isNone then 0 else object.write_ptr) := hpos
    show (GenerateGeometryShaderCode H cfg dummy_data mem object primitive_type ApiType
      xfr).alert = false
    rw [halert, decide_eq_false_iff_not, not_not, canary_cell_poke _ _ _ _ hk', if_neg]
    intro h
    omega
  have hiff : H.Avoids canary → n - 1 < (mem.cells codebuffer).length →
      (r.alert = true ↔ start ≤ n - 1 ∧ n - 1 ≤ start + len) := by
    intro hH hk
    have hk' : mem.text.length - 1 <
        (mem.cells (object.buf.getD BufRef.static_text)).length := hk
    show (GenerateGeometryShaderCode H cfg dummy_data mem object primitive_type ApiType
      xfr).alert = true ↔ _
    rw [halert, decide_eq_true_iff]
    exact canary_cell_changed _ _ _ _ hk' (hclean hH)
  have hstart : object.buf = none → start = 0 := by
    intro hb
    simp only [start, hb, Option.isNone_none, if_true]
  have hcells : object.buf = none → (mem.cells codebuffer).length = n := by
    intro hb
    simp only [codebuffer, hb, Option.getD_none, Memory.cells, n, GEOMETRYSHADERGEN_BUFFERSIZE]
  refine ⟨?_, ?_, ?_, ?_, ?_, ?_, hquiet, hiff⟩
  · intro h
    rw [cells_setCells, List.getElem?_set]
    simp [h]
  · simp only [r, stamped, codebuffer, n, GenerateGeometryShaderCode_eq,
      GEOMETRYSHADERGEN_BUFFERSIZE]
  · simp only [r, codebuffer, n, GenerateGeometryShaderCode_eq, GEOMETRYSHADERGEN_BUFFERSIZE,
      decide_eq_true_iff, runCalls_code_text_length]
    rw [text_length_setCells _ _ _ (List.length_set _ _ _)]
  · intro hH hb hlen
    by_cases hn : 0 < n
    · have h := hiff hH (by rw [hcells hb]; omega)
      rw [hstart hb] at h
      exact h.mpr ⟨Nat.zero_le _, by omega⟩
    · have h0 : mem.text = [] := by
        simp only [n, GEOMETRYSHADERGEN_BUFFERSIZE] at hn
        exact List.length_eq_zero.mp (by omega)
      show (GenerateGeometryShaderCode H cfg dummy_data mem object primitive_type ApiType
        xfr).alert = true
      rw [halert, decide_eq_true_iff, poke_getElem?]
      simp [hb, h0, Memory.cells]
  · intro hb hlen
    have hn : 0 < n := by omega
    exact hquiet (by rw [hcells hb]; omega) (Or.inl (by rw [hstart hb]; omega))
  · intro hH hb hn
    have h := hiff hH (by rw [hcells hb]; omega)
    rw [hstart hb] at h
    rw [h]
    constructor
    · intro h1; omega
    · intro h1; exact ⟨Nat.zero_le _, by omega⟩

set_option maxRecDepth 100000 in
/-- C6 (amended), instantiated: on a fresh sink the text of a plain TRIANGLES draw on D3D11 fits
a buffer of 512 cells and raises no alert; in a buffer of 64 cells it runs over the canary and
raises the alert.  On a sink that holds a caller buffer of 512 cells and stands at its start,
the text runs over the canary of cell 63 and raises the alert. -/
theorem overflow_detection_witness :
    (GenerateGeometryShaderCode sampleShape plainConfig zeroUid blankMemory freshCode
        PRIMITIVE_TRIANGLES API_TYPE.API_D3D11 plainXf).alert = false ∧
    (GenerateGeometryShaderCode sampleShape plainConfig zeroUid smallMemory freshCode
        PRIMITIVE_TRIANGLES API_TYPE.API_D3D11 plainXf).alert = true ∧
    (GenerateGeometryShaderCode sampleShape plainConfig zeroUid callerMemory
        { buf := some BufRef.caller, write_ptr := 0 }
        PRIMITIVE_TRIANGLES API_TYPE.API_D3D11 plainXf).alert = true :=
  ⟨(overflow_detection sampleShape plainConfig zeroUid blankMemory
      freshCode PRIMITIVE_TRIANGLES API_TYPE.API_D3D11 plainXf).2.2.2.2.1 rfl (by decide),
   (overflow_detection sampleShape plainConfig zeroUid smallMemory
      freshCode PRIMITIVE_TRIANGLES API_TYPE.API_D3D11 plainXf).2.2.2.1 sampleShape_avoids_canary
      rfl (by decide),
   ((overflow_detection sampleShape plainConfig zeroUid callerMemory
      { buf := some BufRef.caller, write_ptr := 0 } PRIMITIVE_TRIANGLES API_TYPE.API_D3D11
      plainXf).2.2.2.2.2.2.2 sampleShape_avoids_canary (by decide)).mpr
      ⟨by decide, by decide⟩⟩


/-! ### C7, C8: texture-coordinate bias -/

theorem filter_mentionsTex_eq_nil (cs : List Call)
    (h : ∀ f ∈ formats cs, hasInfix ".tex".data f.data = false) :
    cs.filter mentionsTex = [] := by
  induction cs with
  | nil => rfl
  | cons c cs ih =>
    cases c with
    | Write f args =>
      have h1 : mentionsTex (Call.Write f args) = false := h f (List.mem_cons_self _ _)
      rw [List.filter_cons, h1]
      exact ih (fun g hg => h g (List.mem_cons_of_mem _ hg))
    | GenerateVSOutputMembers api pl x q => exact ih h
    | AssignVSOutputMembers api a b pl x => exact ih h

theorem filter_mentionsTex_of_formats (cs : List Call) (vocab : List String)
    (hv : ∀ f ∈ formats cs, f ∈ vocab)
    (hc : vocab.all (fun f => !hasInfix ".tex".data f.data) = true) :
    cs.filter mentionsTex = [] := by
  apply filter_mentionsTex_eq_nil
  intro f hf
  have := List.all_eq_true.mp hc f (hv f hf)
  simpa using this

/-- The bias loop of the line expansion: one guard on bit `i` of component 0 and one bias of
`r.tex<i>.x` for each counter value, in increasing order. -/
theorem lineTexOffsetLoop_eq (n : Nat) : ∀ i, lineTexOffsetLoop n i =
    (List.range' i n).flatMap (fun j =>
      [Call.Write ("\tif (((" ++ I_TEXOFFSET ++ "[0] >> %d) & 0x1) != 0)\n") [Arg.d j],
       Call.Write "\t\tr.tex%d.x += texOffset;\n" [Arg.d j]]) := by
  induction n with
  | zero => intro i; rfl
  | succ n ih =>
    intro i
    rw [lineTexOffsetLoop, ih, List.range'_succ, List.flatMap_cons]

theorem filter_mentionsTex_lineTexOffsetLoop (n : Nat) : ∀ i,
    (lineTexOffsetLoop n i).filter mentionsTex =
      (List.range' i n).map (fun j => Call.Write "\t\tr.tex%d.x += texOffset;\n" [Arg.d j]) := by
  induction n with
  | zero => intro i; rfl
  | succ n ih =>
    intro i
    rw [lineTexOffsetLoop, List.filter_append, ih, List.range'_succ, List.map_cons]
    rfl

set_option maxRecDepth 100000 in
theorem filter_mentionsTex_beforeLoop (cfg : VideoConfig) (ApiType : API_TYPE)
    (p vin vout : Nat) (le : Bool) (xfr : XFMemory) :
    (beforeLoop cfg ApiType p vin vout le xfr).filter mentionsTex = [] :=
  filter_mentionsTex_of_formats _ _ (formats_beforeLoop _ _ _ _ _ _ _) (by decide)

set_option maxRecDepth 100000 in
theorem filter_mentionsTex_workingVertex (cfg : VideoConfig) (ApiType : API_TYPE)
    (le : Bool) (xfr : XFMemory) :
    (workingVertex cfg ApiType le xfr).filter mentionsTex = [] :=
  filter_mentionsTex_of_formats _ _ (formats_workingVertex _ _ _ _) (by decide)

set_option maxRecDepth 100000 in
theorem filter_mentionsTex_EmitVertex (cfg : VideoConfig) (ApiType : API_TYPE) (v : String)
    (fv le : Bool) (xfr : XFMemory) :
    (EmitVertex cfg ApiType v fv le xfr).filter mentionsTex = [] :=
  filter_mentionsTex_of_formats _ _ (formats_EmitVertex _ _ _ _ _ _) (by decide)

set_option maxRecDepth 100000 in
theorem filter_mentionsTex_afterLoop (cfg : VideoConfig) (ApiType : API_TYPE)
    (le : Bool) (xfr : XFMemory) :
    (afterLoop cfg ApiType le xfr).filter mentionsTex = [] :=
  filter_mentionsTex_of_formats _ _ (formats_afterLoop _ _ _ _) (by decide)

set_option maxRecDepth 100000 in
theorem filter_mentionsTex_lineExpansion (xfr : XFMemory) :
    (lineExpansion xfr).filter mentionsTex =
      (List.range xfr.numTexGens).map
        (fun j => Call.Write "\t\tr.tex%d.x += texOffset;\n" [Arg.d j]) := by
  unfold lineExpansion
  rw [List.filter_append, List.filter_append, filter_mentionsTex_lineTexOffsetLoop,
    List.range_eq_range']
  have h₁ : ([Call.Write ("\tVS_OUTPUT l = f;\n" ++ "\tVS_OUTPUT r = f;\n") [],
      Call.Write ("\tl.pos.xy -= offset * l.pos.w;\n" ++ "\tr.pos.xy += offset * r.pos.w;\n") [],
      Call.Write ("\tif (" ++ I_TEXOFFSET ++ "[2] != 0) \x7b\n") [],
      Call.Write ("\tfloat texOffset = 1.0 / float(" ++ I_TEXOFFSET ++ "[2]);\n") []]).filter
      mentionsTex = [] := by decide
  have h₂ : [Call.Write "\t\x7d\n" []].filter mentionsTex = [] := by decide
  rw [h₁, h₂, List.nil_append, List.append_nil]

/-- C7: for a LINES input with n active texture-coordinate generators, on both backends and for
every flag combination, the generated calls are: calls that name no texture coordinate, then
the guard testing texture-offset component 2 for non-zero and the definition of
texOffset = 1/component 2, then for i = 0, ..., n - 1 in order the guard testing bit i of
texture-offset component 0 followed by the statement adding texOffset to `r.tex<i>.x`, then
the brace closing the outer guard, then calls that name no texture coordinate.  So the only
statements of the whole text that name a texture coordinate are those n statements on `r`
(none names one of `l`), and the statement for channel i directly follows the test of bit i. -/
theorem line_texcoord_bias (H : VSOutputShape) (cfg : VideoConfig)
    (dummy_data : geometry_shader_uid_data) (mem : Memory) (object : ShaderCode)
    (ApiType : API_TYPE) (xfr : XFMemory) :
    (∃ before after,
      (GenerateGeometryShaderCode H cfg dummy_data mem object PRIMITIVE_LINES ApiType
          xfr).calls =
        before ++
          [Call.Write ("\tif (" ++ I_TEXOFFSET ++ "[2] != 0) \x7b\n") [],
           Call.Write ("\tfloat texOffset = 1.0 / float(" ++ I_TEXOFFSET ++ "[2]);\n") []] ++
          (List.range xfr.numTexGens).flatMap (fun i =>
            [Call.Write ("\tif (((" ++ I_TEXOFFSET ++ "[0] >> %d) & 0x1) != 0)\n") [Arg.d i],
             Call.Write "\t\tr.tex%d.x += texOffset;\n" [Arg.d i]]) ++
          Call.Write "\t\x7d\n" [] :: after ∧
      before.filter mentionsTex = [] ∧ after.filter mentionsTex = []) ∧
    (GenerateGeometryShaderCode H cfg dummy_data mem object PRIMITIVE_LINES ApiType
        xfr).calls.filter mentionsTex =
      (List.range xfr.numTexGens).map
        (fun i => Call.Write "\t\tr.tex%d.x += texOffset;\n" [Arg.d i]) ∧
    (∀ i, Call.text H
        (Call.Write ("\tif (((" ++ I_TEXOFFSET ++ "[0] >> %d) & 0x1) != 0)\n") [Arg.d i]) =
        ("\tif (((" ++ I_TEXOFFSET ++ "[0] >> ").data ++ fmt_d i ++ ") & 0x1) != 0)\n".data ∧
      Call.text H (Call.Write "\t\tr.tex%d.x += texOffset;\n" [Arg.d i]) =
        "\t\tr.tex".data ++ fmt_d i ++ ".x += texOffset;\n".data) := by
  have hE := fun v fv =>
    filter_mentionsTex_EmitVertex cfg ApiType v fv (lightingEnabled cfg xfr) xfr
  refine ⟨⟨beforeLoop cfg ApiType PRIMITIVE_LINES (vertex_in PRIMITIVE_LINES)
        (vertex_out cfg PRIMITIVE_LINES) (lightingEnabled cfg xfr) xfr ++
      Call.Write "\tfor (int i = 0; i < %d; ++i) \x7b\n" [Arg.d (vertex_in PRIMITIVE_LINES)] ::
      (workingVertex cfg ApiType (lightingEnabled cfg xfr) xfr ++
        [Call.Write ("\tVS_OUTPUT l = f;\n" ++ "\tVS_OUTPUT r = f;\n") [],
         Call.Write
          ("\tl.pos.xy -= offset * l.pos.w;\n" ++ "\tr.pos.xy += offset * r.pos.w;\n") []]),
      EmitVertex cfg ApiType "l" true (lightingEnabled cfg xfr) xfr ++
        EmitVertex cfg ApiType "r" false (lightingEnabled cfg xfr) xfr ++
        afterLoop cfg ApiType (lightingEnabled cfg xfr) xfr, ?_, ?_, ?_⟩, ?_, ?_⟩
  · rw [GenerateGeometryShaderCode_calls, shaderCalls_eq_loop]
    simp only [loopBody, expansion, lineExpansion, lineTexOffsetLoop_eq, ↓reduceIte,
      List.range_eq_range', List.append_assoc, List.cons_append, List.nil_append]
  · rw [List.filter_append, filter_mentionsTex_beforeLoop, List.nil_append, List.filter_cons,
      List.filter_append, filter_mentionsTex_workingVertex]
    rfl
  · rw [List.filter_append, List.filter_append, hE, hE, filter_mentionsTex_afterLoop]
    rfl
  · rw [GenerateGeometryShaderCode_calls, shaderCalls_eq_loop]
    simp only [loopBody, expansion, ↓reduceIte]
    rw [List.filter_append, filter_mentionsTex_beforeLoop, List.nil_append, List.filter_cons,
      List.filter_append, List.filter_append, List.filter_append, List.filter_append,
      filter_mentionsTex_workingVertex, filter_mentionsTex_lineExpansion, hE, hE,
      filter_mentionsTex_afterLoop]
    simp only [List.append_nil, List.nil_append]
    rfl
  · intro i
    exact ⟨rfl, rfl⟩


/-- The bias loop of the point expansion: for each counter value, in increasing order, one
guarded block on bit `i` of component 1 biasing `ll`, `lr` and `ur`. -/
theorem pointTexOffsetLoop_eq (n : Nat) : ∀ i, pointTexOffsetLoop n i =
    (List.range' i n).flatMap (fun j =>
      [Call.Write ("\tif (((" ++ I_TEXOFFSET ++ "[1] >> %d) & 0x1) != 0) \x7b\n") [Arg.d j],
       Call.Write "\t\tll.tex%d.xy += float2(0,1) * texOffset;\n" [Arg.d j],
       Call.Write "\t\tlr.tex%d.xy += texOffset;\n" [Arg.d j],
       Call.Write "\t\tur.tex%d.xy += float2(1,0) * texOffset;\n" [Arg.d j],
       Call.Write "\t\x7d\n" []]) := by
  induction n with
  | zero => intro i; rfl
  | succ n ih =>
    intro i
    rw [pointTexOffsetLoop, ih, List.range'_succ, List.flatMap_cons]

theorem filter_mentionsTex_pointTexOffsetLoop (n : Nat) : ∀ i,
    (pointTexOffsetLoop n i).filter mentionsTex =
      (List.range' i n).flatMap (fun j =>
        [Call.Write "\t\tll.tex%d.xy += float2(0,1) * texOffset;\n" [Arg.d j],
         Call.Write "\t\tlr.tex%d.xy += texOffset;\n" [Arg.d j],
         Call.Write "\t\tur.tex%d.xy += float2(1,0) * texOffset;\n" [Arg.d j]]) := by
  induction n with
  | zero => intro i; rfl
  | succ n ih =>
    intro i
    rw [pointTexOffsetLoop, List.filter_append, ih, List.range'_succ, List.flatMap_cons]
    rfl

set_option maxRecDepth 100000 in
theorem filter_mentionsTex_pointExpansion (xfr : XFMemory) :
    (pointExpansion xfr).filter mentionsTex =
      (List.range xfr.numTexGens).flatMap (fun j =>
        [Call.Write "\t\tll.tex%d.xy += float2(0,1) * texOffset;\n" [Arg.d j],
         Call.Write "\t\tlr.tex%d.xy += texOffset;\n" [Arg.d j],
         Call.Write "\t\tur.tex%d.xy += float2(1,0) * texOffset;\n" [Arg.d j]]) := by
  unfold pointExpansion
  rw [List.filter_append, List.filter_append, filter_mentionsTex_pointTexOffsetLoop,
    List.range_eq_range']
  have h₁ : ([Call.Write
      ("\tVS_OUTPUT ll = f;\n" ++ "\tVS_OUTPUT lr = f;\n" ++ "\tVS_OUTPUT ul = f;\n" ++
        "\tVS_OUTPUT ur = f;\n") [],
      Call.Write
      ("\tll.pos.xy += float2(-1,-1) * offset;\n" ++ "\tlr.pos.xy += float2(1,-1) * offset;\n" ++
        "\tul.pos.xy += float2(-1,1) * offset;\n" ++ "\tur.pos.xy += offset;\n") [],
      Call.Write ("\tif (" ++ I_TEXOFFSET ++ "[3] != 0) \x7b\n") [],
      Call.Write
      ("\tfloat2 texOffset = float2(1.0 / float(" ++ I_TEXOFFSET ++ "[3]), 1.0 / float(" ++
        I_TEXOFFSET ++ "[3]));\n") []]).filter mentionsTex = [] := by decide
  have h₂ : [Call.Write "\t\x7d\n" []].filter mentionsTex = [] := by decide
  rw [h₁, h₂, List.nil_append, List.append_nil]

/-- C8: for a POINTS input with n active texture-coordinate generators, on both backends and
for every flag combination, the generated calls are: calls that name no texture coordinate,
then the guard testing texture-offset component 3 for non-zero and the definition of
texOffset = (1/component 3, 1/component 3), then for i = 0, ..., n - 1 in order a block guarded
by the test of bit i of texture-offset component 1 that adds (0,1) * texOffset to
`ll.tex<i>.xy`, texOffset to `lr.tex<i>.xy` and (1,0) * texOffset to `ur.tex<i>.xy`, then the
brace closing the outer guard, then calls that name no texture coordinate.  So the only
statements of the whole text that name a texture coordinate are those 3 n statements on `ll`,
`lr` and `ur`; none names one of `ul`. -/
theorem point_texcoord_bias (H : VSOutputShape) (cfg : VideoConfig)
    (dummy_data : geometry_shader_uid_data) (mem : Memory) (object : ShaderCode)
    (ApiType : API_TYPE) (xfr : XFMemory) :
    (∃ before after,
      (GenerateGeometryShaderCode H cfg dummy_data mem object PRIMITIVE_POINTS ApiType
          xfr).calls =
        before ++
          [Call.Write ("\tif (" ++ I_TEXOFFSET ++ "[3] != 0) \x7b\n") [],
           Call.Write
            ("\tfloat2 texOffset = float2(1.0 / float(" ++ I_TEXOFFSET ++
              "[3]), 1.0 / float(" ++ I_TEXOFFSET ++ "[3]));\n") []] ++
          (List.range xfr.numTexGens).flatMap (fun i =>
            [Call.Write ("\tif (((" ++ I_TEXOFFSET ++ "[1] >> %d) & 0x1) != 0) \x7b\n")
               [Arg.d i],
             Call.Write "\t\tll.tex%d.xy += float2(0,1) * texOffset;\n" [Arg.d i],
             Call.Write "\t\tlr.tex%d.xy += texOffset;\n" [Arg.d i],
             Call.Write "\t\tur.tex%d.xy += float2(1,0) * texOffset;\n" [Arg.d i],
             Call.Write "\t\x7d\n" []]) ++
          Call.Write "\t\x7d\n" [] :: after ∧
      before.filter mentionsTex = [] ∧ after.filter mentionsTex = []) ∧
    (GenerateGeometryShaderCode H cfg dummy_data mem object PRIMITIVE_POINTS ApiType
        xfr).calls.filter mentionsTex =
      (List.range xfr.numTexGens).flatMap (fun i =>
        [Call.Write "\t\tll.tex%d.xy += float2(0,1) * texOffset;\n" [Arg.d i],
         Call.Write "\t\tlr.tex%d.xy += texOffset;\n" [Arg.d i],
         Call.Write "\t\tur.tex%d.xy += float2(1,0) * texOffset;\n" [Arg.d i]]) ∧
    (∀ i, Call.text H
        (Call.Write ("\tif (((" ++ I_TEXOFFSET ++ "[1] >> %d) & 0x1) != 0) \x7b\n")
          [Arg.d i]) =
        ("\tif (((" ++ I_TEXOFFSET ++ "[1] >> ").data ++ fmt_d i ++
          ") & 0x1) != 0) \x7b\n".data ∧
      Call.text H (Call.Write "\t\tll.tex%d.xy += float2(0,1) * texOffset;\n" [Arg.d i]) =
        "\t\tll.tex".data ++ fmt_d i ++ ".xy += float2(0,1) * texOffset;\n".data ∧
      Call.text H (Call.Write "\t\tlr.tex%d.xy += texOffset;\n" [Arg.d i]) =
        "\t\tlr.tex".data ++ fmt_d i ++ ".xy += texOffset;\n".data ∧
      Call.text H (Call.Write "\t\tur.tex%d.xy += float2(1,0) * texOffset;\n" [Arg.d i]) =
        "\t\tur.tex".data ++ fmt_d i ++ ".xy += float2(1,0) * texOffset;\n".data) := by
  have hE := fun v fv =>
    filter_mentionsTex_EmitVertex cfg ApiType v fv (lightingEnabled cfg xfr) xfr
  refine ⟨⟨beforeLoop cfg ApiType PRIMITIVE_POINTS (vertex_in PRIMITIVE_POINTS)
        (vertex_out cfg PRIMITIVE_POINTS) (lightingEnabled cfg xfr) xfr ++
      Call.Write "\tfor (int i = 0; i < %d; ++i) \x7b\n" [Arg.d (vertex_in PRIMITIVE_POINTS)] ::
      (workingVertex cfg ApiType (lightingEnabled cfg xfr) xfr ++
        [Call.Write
          ("\tVS_OUTPUT ll = f;\n" ++ "\tVS_OUTPUT lr = f;\n" ++ "\tVS_OUTPUT ul = f;\n" ++
            "\tVS_OUTPUT ur = f;\n") [],
         Call.Write
          ("\tll.pos.xy += float2(-1,-1) * offset;\n" ++
            "\tlr.pos.xy += float2(1,-1) * offset;\n" ++
            "\tul.pos.xy += float2(-1,1) * offset;\n" ++ "\tur.pos.xy += offset;\n") []]),
      EmitVertex cfg ApiType "ll" true (lightingEnabled cfg xfr) xfr ++
        EmitVertex cfg ApiType "lr" false (lightingEnabled cfg xfr) xfr ++
        EmitVertex cfg ApiType "ul" false (lightingEnabled cfg xfr) xfr ++
        EmitVertex cfg ApiType "ur" false (lightingEnabled cfg xfr) xfr ++
        afterLoop cfg ApiType (lightingEnabled cfg xfr) xfr, ?_, ?_, ?_⟩, ?_, ?_⟩
  · rw [GenerateGeometryShaderCode_calls, shaderCalls_eq_loop]
    have h01 : PRIMITIVE_POINTS ≠ PRIMITIVE_LINES := by decide
    simp only [loopBody, expansion, pointExpansion, pointTexOffsetLoop_eq, ↓reduceIte, h01,
      List.range_eq_range', List.append_assoc, List.cons_append, List.nil_append]
  · rw [List.filter_append, filter_mentionsTex_beforeLoop, List.nil_append, List.filter_cons,
      List.filter_append, filter_mentionsTex_workingVertex]
    rfl
  · rw [List.filter_append, List.filter_append, List.filter_append, List.filter_append,
      hE, hE, hE, hE, filter_mentionsTex_afterLoop]
    rfl
  · rw [GenerateGeometryShaderCode_calls, shaderCalls_eq_loop]
    have h01 : PRIMITIVE_POINTS ≠ PRIMITIVE_LINES := by decide
    simp only [loopBody, expansion, ↓reduceIte, h01]
    simp only [List.filter_append, List.filter_cons, filter_mentionsTex_beforeLoop,
      filter_mentionsTex_workingVertex, filter_mentionsTex_pointExpansion, hE,
      filter_mentionsTex_afterLoop, List.append_nil, List.nil_append]
    rfl
  · intro i
    exact ⟨rfl, rfl, rfl, rfl⟩


/-! ### Counting the emitted vertices -/

theorem emitStep_neutral (e : Nat) (s : EmitState) (f : String) (args : List Arg)
    (h : neutralFormat f = true) : emitStep e s (Call.Write f args) = s := by
  simp only [neutralFormat, Bool.and_eq_true, bne_iff_ne, ne_eq, beq_iff_eq] at h
  obtain ⟨⟨⟨⟨h1, h2⟩, h3⟩, h4⟩, h5⟩ := h
  simp only [emitStep, h1, h2, h3, h4, h5, or_self, if_false, gt_iff_lt, lt_self_iff_false]

theorem foldl_emitStep_neutral (e : Nat) (cs : List Call) :
    ∀ s : EmitState, (∀ f ∈ formats cs, neutralFormat f = true) →
      cs.foldl (emitStep e) s = s := by
  induction cs with
  | nil => intro s _; rfl
  | cons c cs ih =>
    intro s h
    cases c with
    | Write f args =>
      rw [List.foldl_cons, emitStep_neutral e s f args (h f (List.mem_cons_self _ _))]
      exact ih s (fun g hg => h g (List.mem_cons_of_mem _ hg))
    | GenerateVSOutputMembers api pl x q => exact ih s h
    | AssignVSOutputMembers api a b pl x => exact ih s h

theorem foldl_emitStep_of_formats (e : Nat) (cs : List Call) (vocab : List String)
    (hv : ∀ f ∈ formats cs, f ∈ vocab) (hc : vocab.all neutralFormat = true)
    (s : EmitState) : cs.foldl (emitStep e) s = s :=
  foldl_emitStep_neutral e cs s (fun f hf => List.all_eq_true.mp hc f (hv f hf))

set_option maxRecDepth 100000 in
theorem foldl_emitStep_layoutParameters (e : Nat) (cfg : VideoConfig) (ApiType : API_TYPE)
    (p vout : Nat) (s : EmitState) :
    (layoutParameters cfg ApiType p vout).foldl (emitStep e) s = s :=
  foldl_emitStep_of_formats e _ _ (formats_layoutParameters _ _ _ _) (by decide) s

set_option maxRecDepth 100000 in
theorem foldl_emitStep_primitiveSetup (e : Nat) (ApiType : API_TYPE) (p : Nat) (le : Bool)
    (xfr : XFMemory) (s : EmitState) :
    (primitiveSetup ApiType p le xfr).foldl (emitStep e) s = s :=
  foldl_emitStep_of_formats e _ _ (formats_primitiveSetup _ _ _ _) (by decide) s

set_option maxRecDepth 100000 in
theorem foldl_emitStep_workingVertex (e : Nat) (cfg : VideoConfig) (ApiType : API_TYPE)
    (le : Bool) (xfr : XFMemory) (s : EmitState) :
    (workingVertex cfg ApiType le xfr).foldl (emitStep e) s = s :=
  foldl_emitStep_of_formats e _ _ (formats_workingVertex _ _ _ _) (by decide) s

set_option maxRecDepth 100000 in
theorem foldl_emitStep_lineTexOffsetLoop (e n i : Nat) (s : EmitState) :
    (lineTexOffsetLoop n i).foldl (emitStep e) s = s :=
  foldl_emitStep_of_formats e _ _ (formats_lineTexOffsetLoop n i) (by decide) s

set_option maxRecDepth 100000 in
theorem foldl_emitStep_uniformsAndStruct (e : Nat) (cfg : VideoConfig) (ApiType : API_TYPE)
    (le : Bool) (xfr : XFMemory) (s : EmitState) :
    (uniformsAndStruct cfg ApiType le xfr).foldl (emitStep e) s = s := by
  unfold uniformsAndStruct
  cases ApiType <;> simp only [reduceCtorEq, ↓reduceIte] <;> rfl

set_option maxRecDepth 100000 in
theorem foldl_emitStep_vertexDataAndMain (e : Nat) (cfg : VideoConfig) (ApiType : API_TYPE)
    (p vin vout : Nat) (le : Bool) (xfr : XFMemory) (s : EmitState) :
    (vertexDataAndMain cfg ApiType p vin vout le xfr).foldl (emitStep e) s =
      { stack := 1 :: s.stack, emitted := s.emitted } := by
  unfold vertexDataAndMain
  cases ApiType <;> simp only [reduceCtorEq, ↓reduceIte] <;> split_ifs <;> rfl

theorem foldl_emitStep_stereoEye (e : Nat) (cfg : VideoConfig) (s : EmitState) :
    (stereoEye cfg).foldl (emitStep e) s =
      { stack := (if cfg.iStereoMode > 0 ∧ cfg.backend_info.bSupportsGSInstancing = false
          then [e] else []) ++ s.stack,
        emitted := s.emitted } := by
  unfold stereoEye
  split_ifs <;> first | rfl | simp_all

theorem foldl_emitStep_loopHead (e : Nat) (cfg : VideoConfig) (vin : Nat) (s : EmitState) :
    (loopHead cfg vin).foldl (emitStep e) s =
      { stack := vin :: s.stack, emitted := s.emitted } := by
  unfold loopHead
  split_ifs <;> rfl

theorem foldl_emitStep_pointTexOffsetLoop (e n : Nat) : ∀ (i : Nat) (s : EmitState),
    (pointTexOffsetLoop n i).foldl (emitStep e) s = s := by
  induction n with
  | zero => intro i s; rfl
  | succ n ih =>
    intro i s
    rw [pointTexOffsetLoop, List.foldl_append, ih]
    rfl

theorem foldl_emitStep_EmitVertex (e : Nat) (cfg : VideoConfig) (ApiType : API_TYPE)
    (v : String) (fv le : Bool) (xfr : XFMemory) (s : EmitState) :
    (EmitVertex cfg ApiType v fv le xfr).foldl (emitStep e) s =
      { stack := s.stack, emitted := s.emitted + s.stack.prod } := by
  unfold EmitVertex
  cases ApiType <;> simp only [reduceCtorEq, ↓reduceIte] <;> split_ifs <;> rfl

theorem foldl_emitStep_lineExpansion (e : Nat) (xfr : XFMemory) (s : EmitState) :
    (lineExpansion xfr).foldl (emitStep e) s = s := by
  unfold lineExpansion
  rw [List.foldl_append, List.foldl_append, foldl_emitStep_lineTexOffsetLoop]
  rfl

theorem foldl_emitStep_pointExpansion (e : Nat) (xfr : XFMemory) (s : EmitState) :
    (pointExpansion xfr).foldl (emitStep e) s = s := by
  unfold pointExpansion
  rw [List.foldl_append, List.foldl_append, foldl_emitStep_pointTexOffsetLoop]
  rfl

theorem foldl_emitStep_loopBody (e : Nat) (cfg : VideoConfig) (ApiType : API_TYPE) (p : Nat)
    (le : Bool) (xfr : XFMemory) (s : EmitState) :
    (loopBody cfg ApiType p le xfr).foldl (emitStep e) s =
      { stack := s.stack,
        emitted := s.emitted +
          (if p = PRIMITIVE_LINES then 2 else if p = PRIMITIVE_POINTS then 4 else 1) *
            s.stack.prod } := by
  unfold loopBody expansion
  rw [List.foldl_append, foldl_emitStep_workingVertex]
  split_ifs
  · simp only [List.foldl_append, foldl_emitStep_lineExpansion, foldl_emitStep_EmitVertex]
    congr 1; omega
  · simp only [List.foldl_append, foldl_emitStep_pointExpansion, foldl_emitStep_EmitVertex]
    congr 1; omega
  · simp only [foldl_emitStep_EmitVertex, Nat.one_mul]

theorem foldl_emitStep_EndPrimitive (e : Nat) (cfg : VideoConfig) (ApiType : API_TYPE)
    (le : Bool) (xfr : XFMemory) (s : EmitState) :
    (EndPrimitive cfg ApiType le xfr).foldl (emitStep e) s =
      { stack := s.stack,
        emitted := s.emitted + (if cfg.bWireFrame then 1 else 0) * s.stack.prod } := by
  unfold EndPrimitive
  rw [List.foldl_append]
  have h : ∀ t : EmitState, (if ApiType = API_TYPE.API_OPENGL then
      [Call.Write "\tEndPrimitive();\n" []] else
      [Call.Write "\toutput.RestartStrip();\n" []]).foldl (emitStep e) t = t := by
    intro t; split_ifs <;> rfl
  rw [h]
  split_ifs
  · rw [foldl_emitStep_EmitVertex, Nat.one_mul]
  · simp

theorem foldl_emitStep_afterLoop (e : Nat) (cfg : VideoConfig) (ApiType : API_TYPE)
    (le : Bool) (xfr : XFMemory) (s : EmitState) :
    (afterLoop cfg ApiType le xfr).foldl (emitStep e) s =
      { stack := (if cfg.iStereoMode > 0 ∧ cfg.backend_info.bSupportsGSInstancing = false
          then s.stack.tail.tail else s.stack.tail).tail,
        emitted := s.emitted + (if cfg.bWireFrame then 1 else 0) * s.stack.tail.prod } := by
  unfold afterLoop
  simp only [List.foldl_append, foldl_emitStep_EndPrimitive]
  split_ifs <;> first | rfl | simp_all


theorem emittedVertices_shaderCalls (e : Nat) (cfg : VideoConfig) (ApiType : API_TYPE)
    (p vin vout : Nat) (le : Bool) (xfr : XFMemory) :
    emittedVertices e (shaderCalls cfg ApiType p vin vout le xfr) =
      (if cfg.iStereoMode > 0 ∧ cfg.backend_info.bSupportsGSInstancing = false then e else 1) *
        (vin * (if p = PRIMITIVE_LINES then 2 else if p = PRIMITIVE_POINTS then 4 else 1) +
          (if cfg.bWireFrame then 1 else 0)) := by
  simp only [emittedVertices, shaderCalls, List.foldl_append, foldl_emitStep_layoutParameters,
    foldl_emitStep_uniformsAndStruct, foldl_emitStep_vertexDataAndMain,
    foldl_emitStep_primitiveSetup, foldl_emitStep_stereoEye, foldl_emitStep_loopHead,
    foldl_emitStep_loopBody, foldl_emitStep_afterLoop]
  split_ifs <;> simp <;> ring

theorem emittedVertices_of_le (cfg : VideoConfig) (p : Nat) (hp : p ≤ 2) :
    vertex_in p * (if p = PRIMITIVE_LINES then 2 else if p = PRIMITIVE_POINTS then 4 else 1) +
      (if cfg.bWireFrame then 1 else 0) = vertex_out cfg p := by
  rw [vertex_in_of_le p hp, vertex_out_eq]
  have h : p = 0 ∨ p = 1 ∨ p = 2 := by omega
  rcases h with rfl | rfl | rfl <;> rfl

theorem formats_loopHead (cfg : VideoConfig) (vin : Nat) :
    ∀ f ∈ formats (loopHead cfg vin),
      f ∈ ["\tVS_OUTPUT first;\n", "\tfor (int i = 0; i < %d; ++i) \x7b\n"] := by
  unfold loopHead
  split_ifs <;> simp [formats_append, formats_cons_Write, formats_nil]

/-- A format that is used nowhere else can only be found where the eye index is chosen. -/
theorem callsWith_shaderCalls_stereoEye (fmt : String) (h : fmt ∉ outsideStereoEyeFormats)
    (cfg : VideoConfig) (ApiType : API_TYPE) (p vin vout : Nat) (le : Bool) (xfr : XFMemory) :
    callsWith fmt (shaderCalls cfg ApiType p vin vout le xfr) = callsWith fmt (stereoEye cfg) := by
  simp only [outsideStereoEyeFormats, List.mem_append, not_or] at h
  obtain ⟨⟨⟨⟨⟨⟨h1, h2⟩, h3⟩, h4⟩, h5⟩, h6⟩, h7⟩ := h
  simp only [shaderCalls, callsWith_append,
    callsWith_eq_nil fmt _ (fun hf => h1 (formats_layoutParameters _ _ _ _ fmt hf)),
    callsWith_eq_nil fmt _ (fun hf => h2 (formats_uniformsAndStruct _ _ _ _ fmt hf)),
    callsWith_eq_nil fmt _ (fun hf => h3 (formats_vertexDataAndMain _ _ _ _ _ _ _ fmt hf)),
    callsWith_eq_nil fmt _ (fun hf => h4 (formats_primitiveSetup _ _ _ _ fmt hf)),
    callsWith_eq_nil fmt _ (fun hf => h5 (formats_loopHead _ _ fmt hf)),
    callsWith_eq_nil fmt _ (fun hf => h6 (formats_loopBody _ _ _ _ _ fmt hf)),
    callsWith_eq_nil fmt _ (fun hf => h7 (formats_afterLoop _ _ _ _ fmt hf)),
    List.append_nil, List.nil_append]

/-- The calls of the generator, cut where the eye index is chosen and before the closing of the
eye loop and of `main`. -/
theorem shaderCalls_eq_stereoEye (cfg : VideoConfig) (ApiType : API_TYPE) (p vin vout : Nat)
    (le : Bool) (xfr : XFMemory) :
    shaderCalls cfg ApiType p vin vout le xfr =
      (layoutParameters cfg ApiType p vout ++ uniformsAndStruct cfg ApiType le xfr ++
        vertexDataAndMain cfg ApiType p vin vout le xfr ++ primitiveSetup ApiType p le xfr) ++
      stereoEye cfg ++
      (loopHead cfg vin ++ loopBody cfg ApiType p le xfr ++
        Call.Write "\t\x7d\n" [] :: EndPrimitive cfg ApiType le xfr) ++
      ((if (decide (cfg.iStereoMode > 0) && !cfg.backend_info.bSupportsGSInstancing) = true
        then [Call.Write "\t\x7d\n" []] else []) ++ [Call.Write "\x7d\n" []]) := by
  simp only [shaderCalls, afterLoop, List.append_assoc, List.singleton_append,
    List.cons_append, List.nil_append]

/-! ### C9: stereo replication -/

theorem tableArg_ogl_cases (p : Nat) :
    tableArg primitives_ogl p = Arg.s "points" ∨ tableArg primitives_ogl p = Arg.s "lines" ∨
      tableArg primitives_ogl p = Arg.s "triangles" ∨ tableArg primitives_ogl p = Arg.invalid := by
  rcases p with _ | _ | _ | p
  · exact Or.inl rfl
  · exact Or.inr (Or.inl rfl)
  · exact Or.inr (Or.inr (Or.inl rfl))
  · exact Or.inr (Or.inr (Or.inr rfl))

theorem tableArg_d3d_cases (p : Nat) :
    tableArg primitives_d3d p = Arg.s "point" ∨ tableArg primitives_d3d p = Arg.s "line" ∨
      tableArg primitives_d3d p = Arg.s "triangle" ∨ tableArg primitives_d3d p = Arg.invalid := by
  rcases p with _ | _ | _ | p
  · exact Or.inl rfl
  · exact Or.inr (Or.inl rfl)
  · exact Or.inr (Or.inr (Or.inl rfl))
  · exact Or.inr (Or.inr (Or.inr rfl))

set_option maxRecDepth 100000 in
theorem layoutParameters_not_namesFirst (cfg : VideoConfig) (ApiType : API_TYPE)
    (p vout : Nat) : (layoutParameters cfg ApiType p vout).all (fun c => !namesFirst c) = true := by
  unfold layoutParameters
  cases ApiType
  · simp only [↓reduceIte]
    rcases tableArg_ogl_cases p with h | h | h | h <;> rw [h] <;> split_ifs <;> rfl
  · rfl

set_option maxRecDepth 100000 in
theorem uniformsAndStruct_not_namesFirst (cfg : VideoConfig) (ApiType : API_TYPE) (le : Bool)
    (xfr : XFMemory) :
    (uniformsAndStruct cfg ApiType le xfr).all (fun c => !namesFirst c) = true := by
  unfold uniformsAndStruct
  cases ApiType <;> simp only [reduceCtorEq, ↓reduceIte]
  · split_ifs <;> rfl
  · rfl

set_option maxRecDepth 100000 in
theorem vertexDataAndMain_not_namesFirst (cfg : VideoConfig) (ApiType : API_TYPE)
    (p vin vout : Nat) (le : Bool) (xfr : XFMemory) :
    (vertexDataAndMain cfg ApiType p vin vout le xfr).all (fun c => !namesFirst c) = true := by
  unfold vertexDataAndMain
  cases ApiType <;> simp only [reduceCtorEq, ↓reduceIte]
  · split_ifs <;> rfl
  · rcases tableArg_d3d_cases p with h | h | h | h <;> rw [h] <;> split_ifs <;> rfl

set_option maxRecDepth 100000 in
theorem primitiveSetup_not_namesFirst (ApiType : API_TYPE) (p : Nat) (le : Bool)
    (xfr : XFMemory) :
    (primitiveSetup ApiType p le xfr).all (fun c => !namesFirst c) = true := by
  unfold primitiveSetup
  cases ApiType <;> simp only [reduceCtorEq, ↓reduceIte] <;> split_ifs <;> rfl

theorem stereoEye_not_namesFirst (cfg : VideoConfig) :
    (stereoEye cfg).all (fun c => !namesFirst c) = true := by
  unfold stereoEye
  split_ifs <;> rfl

set_option maxRecDepth 100000 in
theorem workingVertex_not_namesFirst (cfg : VideoConfig) (ApiType : API_TYPE) (le : Bool)
    (xfr : XFMemory) :
    (workingVertex cfg ApiType le xfr).all (fun c => !namesFirst c) = true := by
  unfold workingVertex
  cases ApiType <;> simp only [reduceCtorEq, ↓reduceIte] <;> split_ifs <;> rfl

theorem lineTexOffsetLoop_not_namesFirst (n : Nat) :
    ∀ i, (lineTexOffsetLoop n i).all (fun c => !namesFirst c) = true := by
  induction n with
  | zero => intro i; rfl
  | succ n ih =>
    intro i
    rw [lineTexOffsetLoop, List.all_append, ih]
    rfl

theorem pointTexOffsetLoop_not_namesFirst (n : Nat) :
    ∀ i, (pointTexOffsetLoop n i).all (fun c => !namesFirst c) = true := by
  induction n with
  | zero => intro i; rfl
  | succ n ih =>
    intro i
    rw [pointTexOffsetLoop, List.all_append, ih]
    rfl

/-- Outside wireframe mode, or for a vertex that is not the first, `EmitVertex` issues the
copy into the output record and the emission, without an assignment to `first`. -/
theorem EmitVertex_eq (cfg : VideoConfig) (ApiType : API_TYPE) (v : String) (fv le : Bool)
    (xfr : XFMemory) (h : (cfg.bWireFrame && fv) = false) :
    EmitVertex cfg ApiType v fv le xfr =
      if ApiType = API_TYPE.API_OPENGL then
        [Call.Write "\tgl_Position = %s.pos;\n" [Arg.s v],
         Call.AssignVSOutputMembers ApiType "ps" v le xfr, Call.Write "\tEmitVertex();\n" []]
      else [Call.Write "\tps.o = %s;\n" [Arg.s v], Call.Write "\toutput.Append(ps);\n" []] := by
  unfold EmitVertex
  rw [h]
  cases ApiType <;> rfl

/-- In wireframe mode the first vertex is remembered, under the guard `i == 0`, before it is
emitted like any other. -/
theorem EmitVertex_first (cfg : VideoConfig) (ApiType : API_TYPE) (v : String) (le : Bool)
    (xfr : XFMemory) (h : cfg.bWireFrame = true) :
    EmitVertex cfg ApiType v true le xfr =
      Call.Write "\tif (i == 0) first = %s;\n" [Arg.s v] ::
        EmitVertex cfg ApiType v false le xfr := by
  unfold EmitVertex
  rw [h]
  rfl

set_option maxRecDepth 100000 in
theorem EmitVertex_not_namesFirst (cfg : VideoConfig) (ApiType : API_TYPE) (v : String)
    (hv : hasInfix "first".data v.data = false) (fv le : Bool) (xfr : XFMemory)
    (h : cfg.bWireFrame = false) :
    (EmitVertex cfg ApiType v fv le xfr).all (fun c => !namesFirst c) = true := by
  rw [EmitVertex_eq _ _ _ _ _ _ (by rw [h]; rfl)]
  cases ApiType <;> simp only [reduceCtorEq, ↓reduceIte, List.all_cons, List.all_nil,
    namesFirst, List.any_cons, List.any_nil, hv] <;> rfl

set_option maxRecDepth 100000 in
theorem expansion_not_namesFirst (cfg : VideoConfig) (ApiType : API_TYPE) (p : Nat) (le : Bool)
    (xfr : XFMemory) (h : cfg.bWireFrame = false) :
    (expansion cfg ApiType p le xfr).all (fun c => !namesFirst c) = true := by
  have hE := fun v hv fv => EmitVertex_not_namesFirst cfg ApiType v hv fv le xfr h
  unfold expansion lineExpansion pointExpansion
  split_ifs
  · simp only [List.all_append, lineTexOffsetLoop_not_namesFirst,
      hE "l" (by decide), hE "r" (by decide)]
    rfl
  · simp only [List.all_append, pointTexOffsetLoop_not_namesFirst,
      hE "ll" (by decide), hE "lr" (by decide), hE "ul" (by decide), hE "ur" (by decide)]
    rfl
  · exact hE "f" (by decide) _

theorem EndPrimitive_eq (cfg : VideoConfig) (ApiType : API_TYPE) (le : Bool) (xfr : XFMemory) :
    EndPrimitive cfg ApiType le xfr =
      (if cfg.bWireFrame then EmitVertex cfg ApiType "first" false le xfr else []) ++
        [endOfStrip ApiType] := by
  unfold EndPrimitive endOfStrip
  cases ApiType <;> rfl

theorem afterLoop_not_namesFirst (cfg : VideoConfig) (ApiType : API_TYPE) (le : Bool)
    (xfr : XFMemory) (h : cfg.bWireFrame = false) :
    (afterLoop cfg ApiType le xfr).all (fun c => !namesFirst c) = true := by
  unfold afterLoop
  rw [EndPrimitive_eq, h]
  simp only [Bool.false_eq_true, ↓reduceIte, List.nil_append]
  cases ApiType <;> split_ifs <;> rfl

theorem shaderCalls_not_namesFirst (cfg : VideoConfig) (ApiType : API_TYPE) (p vin vout : Nat)
    (le : Bool) (xfr : XFMemory) (h : cfg.bWireFrame = false) :
    (shaderCalls cfg ApiType p vin vout le xfr).all (fun c => !namesFirst c) = true := by
  have hl : (loopHead cfg vin).all (fun c => !namesFirst c) = true := by
    unfold loopHead
    rw [h]
    rfl
  simp only [shaderCalls, loopBody, List.all_append, layoutParameters_not_namesFirst,
    uniformsAndStruct_not_namesFirst, vertexDataAndMain_not_namesFirst,
    primitiveSetup_not_namesFirst, stereoEye_not_namesFirst, hl,
    workingVertex_not_namesFirst, expansion_not_namesFirst _ _ _ _ _ h,
    afterLoop_not_namesFirst _ _ _ _ h, Bool.and_self]

theorem callsWith_assign_EmitVertex (cfg : VideoConfig) (ApiType : API_TYPE) (v : String)
    (le : Bool) (xfr : XFMemory) :
    callsWith "\tif (i == 0) first = %s;\n" (EmitVertex cfg ApiType v false le xfr) = [] := by
  rw [EmitVertex_eq _ _ _ _ _ _ (Bool.and_false _)]
  cases ApiType <;> rfl

theorem callsWith_assign_EndPrimitive (cfg : VideoConfig) (ApiType : API_TYPE) (le : Bool)
    (xfr : XFMemory) :
    callsWith "\tif (i == 0) first = %s;\n" (EndPrimitive cfg ApiType le xfr) = [] := by
  rw [EndPrimitive_eq, callsWith_append]
  have h : callsWith "\tif (i == 0) first = %s;\n" [endOfStrip ApiType] = [] := by
    cases ApiType <;> rfl
  rw [h]
  split_ifs
  · rw [callsWith_assign_EmitVertex]
    rfl
  · rfl

theorem callsWith_assign_afterLoop (cfg : VideoConfig) (ApiType : API_TYPE) (le : Bool)
    (xfr : XFMemory) :
    callsWith "\tif (i == 0) first = %s;\n" (afterLoop cfg ApiType le xfr) = [] := by
  unfold afterLoop
  simp only [callsWith_append, callsWith_assign_EndPrimitive]
  split_ifs <;> rfl

/-- The loop body, cut around the emission of the first vertex of an iteration. -/
theorem loopBody_eq_first (cfg : VideoConfig) (ApiType : API_TYPE) (p : Nat) (le : Bool)
    (xfr : XFMemory) :
    loopBody cfg ApiType p le xfr =
      (workingVertex cfg ApiType le xfr ++
        (if p = PRIMITIVE_LINES then lineExpansion xfr
         else if p = PRIMITIVE_POINTS then pointExpansion xfr else [])) ++
      EmitVertex cfg ApiType (firstEmitted p) true le xfr ++
      (if p = PRIMITIVE_LINES then EmitVertex cfg ApiType "r" false le xfr
       else if p = PRIMITIVE_POINTS then
         EmitVertex cfg ApiType "lr" false le xfr ++ EmitVertex cfg ApiType "ul" false le xfr ++
           EmitVertex cfg ApiType "ur" false le xfr
       else []) := by
  unfold loopBody expansion firstEmitted
  split_ifs <;> simp only [List.append_assoc, List.append_nil, List.nil_append]

set_option maxRecDepth 100000 in
theorem callsWith_assign_beforeFirst (cfg : VideoConfig) (ApiType : API_TYPE) (p : Nat)
    (le : Bool) (xfr : XFMemory) :
    callsWith "\tif (i == 0) first = %s;\n"
        (workingVertex cfg ApiType le xfr ++
          (if p = PRIMITIVE_LINES then lineExpansion xfr
           else if p = PRIMITIVE_POINTS then pointExpansion xfr else [])) = [] ∧
    emissions
        (workingVertex cfg ApiType le xfr ++
          (if p = PRIMITIVE_LINES then lineExpansion xfr
           else if p = PRIMITIVE_POINTS then pointExpansion xfr else [])) = 0 := by
  have h₁ := callsWith_eq_nil "\tif (i == 0) first = %s;\n" (workingVertex cfg ApiType le xfr)
    (fun h => absurd (formats_workingVertex _ _ _ _ _ h) (by decide))
  have h₂ := callsWith_eq_nil "\tif (i == 0) first = %s;\n" (lineExpansion xfr)
    (fun h => absurd (formats_lineExpansion _ _ h) (by decide))
  have h₃ := callsWith_eq_nil "\tif (i == 0) first = %s;\n" (pointExpansion xfr)
    (fun h => absurd (formats_pointExpansion _ _ h) (by decide))
  constructor
  · rw [callsWith_append, h₁]
    split_ifs
    · rw [h₂]; rfl
    · rw [h₃]; rfl
    · rfl
  · rw [emissions_append, emissions_workingVertex]
    split_ifs
    · rw [emissions_lineExpansion]
    · rw [emissions_pointExpansion]
    · rfl

theorem callsWith_assign_afterFirst (cfg : VideoConfig) (ApiType : API_TYPE) (p : Nat)
    (le : Bool) (xfr : XFMemory) :
    callsWith "\tif (i == 0) first = %s;\n"
      (if p = PRIMITIVE_LINES then EmitVertex cfg ApiType "r" false le xfr
       else if p = PRIMITIVE_POINTS then
         EmitVertex cfg ApiType "lr" false le xfr ++ EmitVertex cfg ApiType "ul" false le xfr ++
           EmitVertex cfg ApiType "ur" false le xfr
       else []) = [] := by
  split_ifs
  · exact callsWith_assign_EmitVertex _ _ _ _ _
  · simp only [callsWith_append, callsWith_assign_EmitVertex, List.append_nil]
  · rfl

/-- C10: with wireframe mode active, `EndPrimitive` issues the emission of the vertex named
`first` as `EmitVertex` does for a vertex that is not the first (the copy into the output
record and the emission, no assignment to `first`) and then the end-of-strip operation; the
text declares `first` once, directly before the head of the per-vertex loop, and assigns it
once, in the loop body, by the statement guarded by `i == 0` that opens the emission of the
first vertex of the iteration (`l`, `ll` or `f`, the one passed with is_first = true).  With
wireframe mode inactive, `EndPrimitive` issues only the end-of-strip operation and no call of
the text names `first`. -/
theorem wireframe_closure (H : VSOutputShape) (cfg : VideoConfig)
    (dummy_data : geometry_shader_uid_data) (mem : Memory) (object : ShaderCode)
    (primitive_type : Nat) (ApiType : API_TYPE) (xfr : XFMemory) :
    let le := lightingEnabled cfg xfr
    let calls :=
      (GenerateGeometryShaderCode H cfg dummy_data mem object primitive_type ApiType xfr).calls
    (cfg.bWireFrame = true →
      EndPrimitive cfg ApiType le xfr =
        EmitVertex cfg ApiType "first" false le xfr ++ [endOfStrip ApiType] ∧
      EmitVertex cfg ApiType "first" false le xfr =
        (if ApiType = API_TYPE.API_OPENGL then
          [Call.Write "\tgl_Position = %s.pos;\n" [Arg.s "first"],
           Call.AssignVSOutputMembers ApiType "ps" "first" le xfr,
           Call.Write "\tEmitVertex();\n" []]
        else
          [Call.Write "\tps.o = %s;\n" [Arg.s "first"],
           Call.Write "\toutput.Append(ps);\n" []]) ∧
      (∃ before closing,
        calls = before ++ Call.Write "\tVS_OUTPUT first;\n" [] ::
          Call.Write "\tfor (int i = 0; i < %d; ++i) \x7b\n" [Arg.d (vertex_in primitive_type)] ::
          (loopBody cfg ApiType primitive_type le xfr ++
            Call.Write "\t\x7d\n" [] :: (EndPrimitive cfg ApiType le xfr ++ closing)) ∧
        before.all (fun c => !namesFirst c) = true ∧
        closing.all (fun c => !namesFirst c) = true) ∧
      callsWith "\tVS_OUTPUT first;\n" calls = [[]] ∧
      callsWith "\tif (i == 0) first = %s;\n" calls = [[Arg.s (firstEmitted primitive_type)]] ∧
      (∃ pre post,
        loopBody cfg ApiType primitive_type le xfr =
          pre ++ EmitVertex cfg ApiType (firstEmitted primitive_type) true le xfr ++ post ∧
        emissions pre = 0 ∧
        callsWith "\tif (i == 0) first = %s;\n" pre = [] ∧
        callsWith "\tif (i == 0) first = %s;\n" post = []) ∧
      EmitVertex cfg ApiType (firstEmitted primitive_type) true le xfr =
        Call.Write "\tif (i == 0) first = %s;\n" [Arg.s (firstEmitted primitive_type)] ::
          EmitVertex cfg ApiType (firstEmitted primitive_type) false le xfr) ∧
    (cfg.bWireFrame = false →
      EndPrimitive cfg ApiType le xfr = [endOfStrip ApiType] ∧
      calls.all (fun c => !namesFirst c) = true) := by
  intro le calls
  have hcalls : calls = shaderCalls cfg ApiType primitive_type (vertex_in primitive_type)
      (vertex_out cfg primitive_type) le xfr := GenerateGeometryShaderCode_calls _ _ _ _ _ _ _ _
  constructor
  · intro hw
    have hEnd : EndPrimitive cfg ApiType le xfr =
        EmitVertex cfg ApiType "first" false le xfr ++ [endOfStrip ApiType] := by
      rw [EndPrimitive_eq, hw]
      rfl
    have hFirst := EmitVertex_first cfg ApiType (firstEmitted primitive_type) le xfr hw
    have hBody := loopBody_eq_first cfg ApiType primitive_type le xfr
    have hPre := callsWith_assign_beforeFirst cfg ApiType primitive_type le xfr
    have hPost := callsWith_assign_afterFirst cfg ApiType primitive_type le xfr
    refine ⟨hEnd, EmitVertex_eq _ _ _ _ _ _ (Bool.and_false _), ?_, ?_, ?_,
      ⟨_, _, hBody, hPre.2, hPre.1, hPost⟩, hFirst⟩
    · refine ⟨layoutParameters cfg ApiType primitive_type (vertex_out cfg primitive_type) ++
          uniformsAndStruct cfg ApiType le xfr ++
          vertexDataAndMain cfg ApiType primitive_type (vertex_in primitive_type)
            (vertex_out cfg primitive_type) le xfr ++
          primitiveSetup ApiType primitive_type le xfr ++ stereoEye cfg,
        (if (decide (cfg.iStereoMode > 0) && !cfg.backend_info.bSupportsGSInstancing) = true
          then [Call.Write "\t\x7d\n" []] else []) ++ [Call.Write "\x7d\n" []], ?_, ?_, ?_⟩
      · rw [hcalls]
        simp only [shaderCalls, loopHead, afterLoop, hw, if_true, List.append_assoc,
          List.singleton_append, List.cons_append, List.nil_append]
      · simp only [List.all_append, layoutParameters_not_namesFirst,
          uniformsAndStruct_not_namesFirst, vertexDataAndMain_not_namesFirst,
          primitiveSetup_not_namesFirst, stereoEye_not_namesFirst, Bool.and_self]
      · split_ifs <;> rfl
    · rw [hcalls, callsWith_shaderCalls _ (by decide),
        callsWith_eq_nil _ _ (fun h => absurd (formats_layoutParameters _ _ _ _ _ h)
          (by decide)),
        callsWith_eq_nil _ _ (fun h => absurd (formats_vertexDataAndMain _ _ _ _ _ _ _ _ h)
          (by decide))]
      simp only [loopHead, hw, if_true]
      rfl
    · rw [hcalls, shaderCalls_eq_loop, callsWith_append,
        callsWith_eq_nil _ _ (fun h => absurd (formats_beforeLoop _ _ _ _ _ _ _ _ h)
          (by decide)),
        callsWith_cons_Write, if_neg (by decide), callsWith_append, callsWith_assign_afterLoop,
        hBody, callsWith_append, callsWith_append, hPre.1, hPost, hFirst, callsWith_cons_Write,
        if_pos rfl, callsWith_assign_EmitVertex]
      rfl
  · intro hw
    constructor
    · rw [EndPrimitive_eq, hw]
      rfl
    · rw [hcalls]
      exact shaderCalls_not_namesFirst _ _ _ _ _ _ _ hw

/-- C10, instantiated: a wireframe LINES draw on D3D11 declares `first` once and assigns it once,
from `l`; the same draw without wireframe names `first` nowhere. -/
theorem wireframe_closure_witness :
    (callsWith "\tVS_OUTPUT first;\n"
        (GenerateGeometryShaderCode sampleShape { plainConfig with bWireFrame := true } zeroUid
          blankMemory freshCode PRIMITIVE_LINES API_TYPE.API_D3D11 plainXf).calls = [[]] ∧
      callsWith "\tif (i == 0) first = %s;\n"
        (GenerateGeometryShaderCode sampleShape { plainConfig with bWireFrame := true } zeroUid
          blankMemory freshCode PRIMITIVE_LINES API_TYPE.API_D3D11 plainXf).calls =
        [[Arg.s "l"]]) ∧
    (GenerateGeometryShaderCode sampleShape plainConfig zeroUid blankMemory freshCode
      PRIMITIVE_LINES API_TYPE.API_D3D11 plainXf).calls.all (fun c => !namesFirst c) = true :=
  ⟨⟨((wireframe_closure sampleShape { plainConfig with bWireFrame := true } zeroUid blankMemory
        freshCode PRIMITIVE_LINES API_TYPE.API_D3D11 plainXf).1 rfl).2.2.2.1,
      ((wireframe_closure sampleShape { plainConfig with bWireFrame := true } zeroUid blankMemory
        freshCode PRIMITIVE_LINES API_TYPE.API_D3D11 plainXf).1 rfl).2.2.2.2.1⟩,
    ((wireframe_closure sampleShape plainConfig zeroUid blankMemory freshCode PRIMITIVE_LINES
      API_TYPE.API_D3D11 plainXf).2 rfl).2⟩


/-! ### C12: key-only mode -/

/-- C12: on both backends and for every input, `GetGeometryShaderUid` issues no call on its
sink (the early return of line 72 is taken before the first `Write`), leaves the memory as it
was, so that neither a text buffer nor the canary cell is touched, and raises no alert; the key
it leaves in `object` is the value the full-text pass computes into its local `uid_data` for
the same primitive kind, render configuration and transform state, whatever garbage the
uninitialised local, the memory and the sinks held. -/
theorem key_only_mode (H : VSOutputShape) (cfg : VideoConfig)
    (d₁ d₂ : geometry_shader_uid_data) (mem₁ mem₂ : Memory) (key : GeometryShaderUid)
    (code : ShaderCode) (primitive_type : Nat) (ApiType : API_TYPE) (xfr : XFMemory) :
    (GetGeometryShaderUid H cfg d₁ mem₁ key primitive_type ApiType xfr).calls = [] ∧
    (GetGeometryShaderUid H cfg d₁ mem₁ key primitive_type ApiType xfr).mem = mem₁ ∧
    (GetGeometryShaderUid H cfg d₁ mem₁ key primitive_type ApiType xfr).alert = false ∧
    (GetGeometryShaderUid H cfg d₁ mem₁ key primitive_type ApiType xfr).out.data =
      (GenerateGeometryShaderCode H cfg d₂ mem₂ code primitive_type ApiType xfr).uid_data ∧
    (GetGeometryShaderUid H cfg d₁ mem₁ key primitive_type ApiType xfr).out.data =
      (GetGeometryShaderUid H cfg d₁ mem₁ key primitive_type ApiType xfr).uid_data := by
  cases ApiType <;> exact ⟨rfl, rfl, rfl, rfl, rfl⟩


/-! ### C14: the declared maximum matches what is emitted -/

/-- C14: for a primitive kind p in POINTS, LINES, TRIANGLES, both backends and every flag
combination: p + 1 loop iterations times the emissions of the loop body (4, 2, 1 for POINTS,
LINES, TRIANGLES) plus the emissions after the loop (one closing vertex in wireframe mode) is
vertex_out; the vertices the generated program emits for one eye in one run of `main` are
vertex_out; and the maximum the text declares is the number of vertices one run of `main` emits
in all (vertex_out, twice that where one run serves both eyes): the declaration is neither
exceeded nor over-provisioned. -/
theorem declared_maximum_is_emitted (H : VSOutputShape) (cfg : VideoConfig)
    (dummy_data : geometry_shader_uid_data) (mem : Memory) (object : ShaderCode)
    (primitive_type : Nat) (ApiType : API_TYPE) (xfr : XFMemory) (hp : primitive_type ≤ 2) :
    (primitive_type + 1) *
        emissions (loopBody cfg ApiType primitive_type (lightingEnabled cfg xfr) xfr) +
      emissions (afterLoop cfg ApiType (lightingEnabled cfg xfr) xfr) =
        vertex_out cfg primitive_type ∧
    emissions (loopBody cfg ApiType primitive_type (lightingEnabled cfg xfr) xfr) =
      (if primitive_type = PRIMITIVE_POINTS then 4
       else if primitive_type = PRIMITIVE_LINES then 2 else 1) ∧
    emittedVertices 1 (GenerateGeometryShaderCode H cfg dummy_data mem object primitive_type
        ApiType xfr).calls = vertex_out cfg primitive_type ∧
    declaredMaxVertices ApiType (GenerateGeometryShaderCode H cfg dummy_data mem object
        primitive_type ApiType xfr).calls =
      [Arg.d (emittedVertices 2 (GenerateGeometryShaderCode H cfg dummy_data mem object
        primitive_type ApiType xfr).calls)] ∧
    emittedVertices 2 (GenerateGeometryShaderCode H cfg dummy_data mem object primitive_type
        ApiType xfr).calls =
      (if cfg.iStereoMode > 0 ∧ cfg.backend_info.bSupportsGSInstancing = false then 2 else 1) *
        vertex_out cfg primitive_type := by
  have hcount := emittedVertices_of_le cfg primitive_type hp
  have hv := vertex_out_le cfg primitive_type
  have hvi := vertex_in_of_le primitive_type hp
  have hm : vertex_out cfg primitive_type * 2 % 2 ^ 32 = 2 * vertex_out cfg primitive_type := by
    omega
  have h012 : primitive_type = 0 ∨ primitive_type = 1 ∨ primitive_type = 2 := by omega
  rw [GenerateGeometryShaderCode_calls, emittedVertices_shaderCalls,
    emittedVertices_shaderCalls, declaredMaxVertices_shaderCalls, emissions_loopBody,
    emissions_afterLoop, hcount, hm, ← hvi, hcount]
  refine ⟨rfl, ?_, ?_, ?_, rfl⟩
  · rcases h012 with h | h | h <;> subst h <;> rfl
  · split_ifs <;> simp
  · split_ifs <;> simp

/-- C14, instantiated: a wireframe stereo LINES draw on D3D11 without multi-invocation:
2 iterations of 2 emissions plus the closing vertex are 5 per eye, and `maxvertexcount(10)` is
what one run emits for both eyes. -/
theorem declared_maximum_is_emitted_witness :
    emittedVertices 1 (GenerateGeometryShaderCode sampleShape
        { plainConfig with bWireFrame := true, iStereoMode := 1 } zeroUid blankMemory freshCode
        PRIMITIVE_LINES API_TYPE.API_D3D11 plainXf).calls = 5 ∧
    declaredMaxVertices API_TYPE.API_D3D11 (GenerateGeometryShaderCode sampleShape
        { plainConfig with bWireFrame := true, iStereoMode := 1 } zeroUid blankMemory freshCode
        PRIMITIVE_LINES API_TYPE.API_D3D11 plainXf).calls =
      [Arg.d (emittedVertices 2 (GenerateGeometryShaderCode sampleShape
        { plainConfig with bWireFrame := true, iStereoMode := 1 } zeroUid blankMemory freshCode
        PRIMITIVE_LINES API_TYPE.API_D3D11 plainXf).calls)] ∧
    emittedVertices 2 (GenerateGeometryShaderCode sampleShape
        { plainConfig with bWireFrame := true, iStereoMode := 1 } zeroUid blankMemory freshCode
        PRIMITIVE_LINES API_TYPE.API_D3D11 plainXf).calls = 10 :=
  ⟨(declared_maximum_is_emitted sampleShape
      { plainConfig with bWireFrame := true, iStereoMode := 1 } zeroUid blankMemory freshCode
      PRIMITIVE_LINES API_TYPE.API_D3D11 plainXf (by decide)).2.2.1,
   (declared_maximum_is_emitted sampleShape
      { plainConfig with bWireFrame := true, iStereoMode := 1 } zeroUid blankMemory freshCode
      PRIMITIVE_LINES API_TYPE.API_D3D11 plainXf (by decide)).2.2.2.1,
   (declared_maximum_is_emitted sampleShape
      { plainConfig with bWireFrame := true, iStereoMode := 1 } zeroUid blankMemory freshCode
      PRIMITIVE_LINES API_TYPE.API_D3D11 plainXf (by decide)).2.2.2.2⟩


/-! ### C15: what the text depends on -/

theorem shaderCalls_withStereoMode (cfg : VideoConfig) (m : Int)
    (hm : m > 0 ↔ cfg.iStereoMode > 0) (ApiType : API_TYPE) (p vin vout : Nat) (le : Bool)
    (xfr : XFMemory) :
    shaderCalls (withStereoMode cfg m) ApiType p vin vout le xfr =
      shaderCalls cfg ApiType p vin vout le xfr := by
  have h1 : layoutParameters (withStereoMode cfg m) ApiType p vout =
      layoutParameters cfg ApiType p vout := by
    simp only [layoutParameters, withStereoMode, hm]
  have h2 : uniformsAndStruct (withStereoMode cfg m) ApiType le xfr =
      uniformsAndStruct cfg ApiType le xfr := by
    simp only [uniformsAndStruct, withStereoMode, hm]
  have h3 : vertexDataAndMain (withStereoMode cfg m) ApiType p vin vout le xfr =
      vertexDataAndMain cfg ApiType p vin vout le xfr := by
    simp only [vertexDataAndMain, withStereoMode, hm]
  have h4 : stereoEye (withStereoMode cfg m) = stereoEye cfg := by
    simp only [stereoEye, withStereoMode, hm]
  have h5 : loopHead (withStereoMode cfg m) vin = loopHead cfg vin := by
    simp only [loopHead, withStereoMode, hm]
  have h6 : loopBody (withStereoMode cfg m) ApiType p le xfr = loopBody cfg ApiType p le xfr := by
    simp only [loopBody, workingVertex, expansion, lineExpansion, pointExpansion, EmitVertex,
      withStereoMode, hm]
  have h7 : afterLoop (withStereoMode cfg m) ApiType le xfr = afterLoop cfg ApiType le xfr := by
    simp only [afterLoop, EndPrimitive, EmitVertex, withStereoMode, hm]
  simp only [shaderCalls, h1, h2, h3, h4, h5, h6, h7]

/-- C15: two inputs with equal Variant Keys, the same target backend, the same
supports-multi-invocation flag and the same supports-explicit-binding-layout flag get
byte-identical text from `GenerateGeometryShaderCode`, call for call and as a whole, whatever
the uninitialised locals and the memories held; run from the same sink and memory the two
generations leave the same sink, the same memory and the same alert (the vertex-output-shape
helpers reading nothing of the transform state but the texture-coordinate-generator count).  The
stereo mode level counts only through (stereo mode > 0): another level on the same side of 0
gives the very same calls. -/
theorem text_determined_by_key (H : VSOutputShape) (hH : H.ReadsOnlyTexGens)
    (cfg₁ cfg₂ : VideoConfig) (d₁ d₂ : geometry_shader_uid_data) (mem₁ mem₂ : Memory)
    (key₁ key₂ : GeometryShaderUid) (object₁ object₂ : ShaderCode) (p₁ p₂ : Nat)
    (ApiType : API_TYPE) (xfr₁ xfr₂ : XFMemory)
    (hi : cfg₁.backend_info.bSupportsGSInstancing = cfg₂.backend_info.bSupportsGSInstancing)
    (hb : cfg₁.backend_info.bSupportsBindingLayout = cfg₂.backend_info.bSupportsBindingLayout)
    (hkey : (GetGeometryShaderUid H cfg₁ d₁ mem₁ key₁ p₁ ApiType xfr₁).out =
      (GetGeometryShaderUid H cfg₂ d₂ mem₂ key₂ p₂ ApiType xfr₂).out) :
    (GenerateGeometryShaderCode H cfg₁ d₁ mem₁ object₁ p₁ ApiType xfr₁).calls.map (Call.text H) =
      (GenerateGeometryShaderCode H cfg₂ d₂ mem₂ object₂ p₂ ApiType xfr₂).calls.map
        (Call.text H) ∧
    callsText H (GenerateGeometryShaderCode H cfg₁ d₁ mem₁ object₁ p₁ ApiType xfr₁).calls =
      callsText H (GenerateGeometryShaderCode H cfg₂ d₂ mem₂ object₂ p₂ ApiType xfr₂).calls ∧
    (∀ (mem : Memory) (object : ShaderCode),
      (GenerateGeometryShaderCode H cfg₁ d₁ mem object p₁ ApiType xfr₁).out =
        (GenerateGeometryShaderCode H cfg₂ d₂ mem object p₂ ApiType xfr₂).out ∧
      (GenerateGeometryShaderCode H cfg₁ d₁ mem object p₁ ApiType xfr₁).mem =
        (GenerateGeometryShaderCode H cfg₂ d₂ mem object p₂ ApiType xfr₂).mem ∧
      (GenerateGeometryShaderCode H cfg₁ d₁ mem object p₁ ApiType xfr₁).alert =
        (GenerateGeometryShaderCode H cfg₂ d₂ mem object p₂ ApiType xfr₂).alert) ∧
    ∀ m : Int, (m > 0 ↔ cfg₁.iStereoMode > 0) →
      (GenerateGeometryShaderCode H (withStereoMode cfg₁ m) d₁ mem₁ object₁ p₁ ApiType
          xfr₁).calls =
        (GenerateGeometryShaderCode H cfg₁ d₁ mem₁ object₁ p₁ ApiType xfr₁).calls := by
  have hkey' := congrArg GeometryShaderUid.data hkey
  rw [GetGeometryShaderUid_data, GetGeometryShaderUid_data] at hkey'
  simp only [geometry_shader_uid_data.mk.injEq, decide_eq_decide] at hkey'
  obtain ⟨hp, hw, hs, hn, hl⟩ := hkey'
  subst hp
  have hl' : lightingEnabled cfg₁ xfr₁ = lightingEnabled cfg₂ xfr₂ := by
    simpa [lightingEnabled] using hl
  have hv : vertex_out cfg₁ p₁ = vertex_out cfg₂ p₁ := by simp only [vertex_out, hw]
  have hc := shaderCalls_text_congr H hH cfg₁ cfg₂ ApiType p₁ (vertex_in p₁)
    (vertex_out cfg₂ p₁) (lightingEnabled cfg₂ xfr₂) xfr₁ xfr₂ hw hs hn hi (fun _ => hb)
  have hr := fun (out : ShaderCode) (m : Memory) => runCalls_congr H _ _ hc out m
  refine ⟨?_, ?_, ?_, ?_⟩
  · simp only [GenerateGeometryShaderCode_calls, hl', hv, hc]
  · simp only [GenerateGeometryShaderCode_calls, callsText_eq_flatten, hl', hv, hc]
  · intro mem object
    simp only [GenerateGeometryShaderCode_eq, hl', hv, hr, and_self]
  · intro m hm
    have hle : lightingEnabled (withStereoMode cfg₁ m) xfr₁ = lightingEnabled cfg₁ xfr₁ := rfl
    have hvo : vertex_out (withStereoMode cfg₁ m) p₁ = vertex_out cfg₁ p₁ := rfl
    rw [GenerateGeometryShaderCode_calls, GenerateGeometryShaderCode_calls, hle, hvo,
      shaderCalls_withStereoMode cfg₁ m hm]

/-- C15, instantiated: stereo modes 1 and 3 with different colour-channel counts give the same
key, hence on D3D11 the same text into the same memory. -/
theorem text_determined_by_key_witness :
    callsText sampleShape (GenerateGeometryShaderCode sampleShape
        { plainConfig with iStereoMode := 1 } zeroUid blankMemory freshCode PRIMITIVE_POINTS
        API_TYPE.API_D3D11 { numTexGens := 1, numColorChans := 0, rest := [] }).calls =
      callsText sampleShape (GenerateGeometryShaderCode sampleShape
        { plainConfig with iStereoMode := 3 } zeroUid smallMemory freshCode PRIMITIVE_POINTS
        API_TYPE.API_D3D11 { numTexGens := 1, numColorChans := 5, rest := [1] }).calls :=
  (text_determined_by_key sampleShape sampleShape_readsOnlyTexGens
    { plainConfig with iStereoMode := 1 } { plainConfig with iStereoMode := 3 } zeroUid zeroUid
    blankMemory smallMemory ⟨zeroUid⟩ ⟨zeroUid⟩ freshCode freshCode PRIMITIVE_POINTS
    PRIMITIVE_POINTS API_TYPE.API_D3D11 { numTexGens := 1, numColorChans := 0, rest := [] }
    { numTexGens := 1, numColorChans := 5, rest := [1] } rfl rfl (by decide)).2.1


/-! ### C17: the key does not see the backend -/

theorem vsprintf_cons_of_ne (c : Char) (hc : c ≠ '%') (fmt : List Char) (args : List Arg) :
    vsprintf (c :: fmt) args = c :: vsprintf fmt args := by
  rw [vsprintf]
  · intro fmt' v args' h _ _
    exact hc h
  · intro fmt' args' h _ _
    exact hc h
  · intro fmt' v args' h _ _
    exact hc h

theorem callsText_shaderCalls_opengl (H : VSOutputShape) (cfg : VideoConfig) (p vin vout : Nat)
    (le : Bool) (xfr : XFMemory) :
    ∃ rest, callsText H (shaderCalls cfg API_TYPE.API_OPENGL p vin vout le xfr) = 'l' :: rest := by
  simp only [shaderCalls, layoutParameters, ↓reduceIte]
  by_cases hi : cfg.backend_info.bSupportsGSInstancing = true
  · simp only [hi, ↓reduceIte, List.cons_append, callsText, Call.text]
    rw [vsprintf_cons_of_ne _ (by decide), List.cons_append]
    exact ⟨_, rfl⟩
  · simp only [hi, ↓reduceIte, List.cons_append, callsText, Call.text, Bool.false_eq_true]
    rw [vsprintf_cons_of_ne _ (by decide), List.cons_append]
    exact ⟨_, rfl⟩

theorem callsText_shaderCalls_d3d (H : VSOutputShape) (cfg : VideoConfig) (p vin vout : Nat)
    (le : Bool) (xfr : XFMemory) :
    ∃ rest, callsText H (shaderCalls cfg API_TYPE.API_D3D11 p vin vout le xfr) = 'c' :: rest := by
  simp only [shaderCalls, layoutParameters, uniformsAndStruct, reduceCtorEq, ↓reduceIte,
    List.nil_append, List.cons_append, callsText, Call.text]
  rw [vsprintf_cons_of_ne _ (by decide), List.cons_append]
  exact ⟨_, rfl⟩

/-- C17: for every primitive kind, render configuration and transform state,
`GetGeometryShaderUid` leaves the same key for the OpenGL and the D3D11 backend (whatever the
uninitialised locals, memories and sinks held), although the two backends' texts differ for
every such input: the OpenGL text opens with the `l` of `layout(`, the D3D11 text with the `c` of
`cbuffer`, and on a fresh sink these are the characters found in cell 0 of a static buffer that
has a cell. -/
theorem key_is_backend_blind (H : VSOutputShape) (cfg : VideoConfig)
    (d₁ d₂ : geometry_shader_uid_data) (mem₁ mem₂ : Memory) (key₁ key₂ : GeometryShaderUid)
    (object₁ object₂ : ShaderCode) (w₁ w₂ : Nat) (primitive_type : Nat) (xfr : XFMemory) :
    (GetGeometryShaderUid H cfg d₁ mem₁ key₁ primitive_type API_TYPE.API_OPENGL xfr).out =
      (GetGeometryShaderUid H cfg d₂ mem₂ key₂ primitive_type API_TYPE.API_D3D11 xfr).out ∧
    callsText H (GenerateGeometryShaderCode H cfg d₁ mem₁ object₁ primitive_type
        API_TYPE.API_OPENGL xfr).calls ≠
      callsText H (GenerateGeometryShaderCode H cfg d₂ mem₂ object₂ primitive_type
        API_TYPE.API_D3D11 xfr).calls ∧
    (callsText H (GenerateGeometryShaderCode H cfg d₁ mem₁ object₁ primitive_type
        API_TYPE.API_OPENGL xfr).calls).head? = some 'l' ∧
    (callsText H (GenerateGeometryShaderCode H cfg d₂ mem₂ object₂ primitive_type
        API_TYPE.API_D3D11 xfr).calls).head? = some 'c' ∧
    (0 < mem₁.text.length →
      (GenerateGeometryShaderCode H cfg d₁ mem₁ { buf := none, write_ptr := w₁ } primitive_type
        API_TYPE.API_OPENGL xfr).mem.text[0]? = some 'l') ∧
    (0 < mem₂.text.length →
      (GenerateGeometryShaderCode H cfg d₂ mem₂ { buf := none, write_ptr := w₂ } primitive_type
        API_TYPE.API_D3D11 xfr).mem.text[0]? = some 'c') := by
  obtain ⟨ro, ho⟩ := callsText_shaderCalls_opengl H cfg primitive_type (vertex_in primitive_type)
    (vertex_out cfg primitive_type) (lightingEnabled cfg xfr) xfr
  obtain ⟨rd, hd⟩ := callsText_shaderCalls_d3d H cfg primitive_type (vertex_in primitive_type)
    (vertex_out cfg primitive_type) (lightingEnabled cfg xfr) xfr
  refine ⟨?_, ?_, ?_, ?_, ?_, ?_⟩
  · rw [GetGeometryShaderUid_out, GetGeometryShaderUid_out]
  · rw [GenerateGeometryShaderCode_calls, GenerateGeometryShaderCode_calls, ho, hd]
    simp
  · rw [GenerateGeometryShaderCode_calls, ho]; rfl
  · rw [GenerateGeometryShaderCode_calls, hd]; rfl
  · intro hlen
    rw [(GenerateGeometryShaderCode_fresh H cfg d₁ mem₁ w₁ primitive_type API_TYPE.API_OPENGL
      xfr).2.1, GenerateGeometryShaderCode_calls, ho]
    simp only [poke_getElem?, List.length_set]
    simp [hlen]
  · intro hlen
    rw [(GenerateGeometryShaderCode_fresh H cfg d₂ mem₂ w₂ primitive_type API_TYPE.API_D3D11
      xfr).2.1, GenerateGeometryShaderCode_calls, hd]
    simp only [poke_getElem?, List.length_set]
    simp [hlen]

set_option maxRecDepth 100000 in
/-- C17, instantiated: a plain TRIANGLES draw has one key on both backends, and the static
buffer of 512 cells starts with `l` after the OpenGL run and with `c` after the D3D11 run. -/
theorem key_is_backend_blind_witness :
    (GetGeometryShaderUid sampleShape plainConfig zeroUid blankMemory ⟨zeroUid⟩
        PRIMITIVE_TRIANGLES API_TYPE.API_OPENGL plainXf).out =
      (GetGeometryShaderUid sampleShape plainConfig zeroUid blankMemory ⟨zeroUid⟩
        PRIMITIVE_TRIANGLES API_TYPE.API_D3D11 plainXf).out ∧
    (GenerateGeometryShaderCode sampleShape plainConfig zeroUid blankMemory
        { buf := none, write_ptr := 0 } PRIMITIVE_TRIANGLES API_TYPE.API_OPENGL
        plainXf).mem.text[0]? = some 'l' ∧
    (GenerateGeometryShaderCode sampleShape plainConfig zeroUid blankMemory
        { buf := none, write_ptr := 0 } PRIMITIVE_TRIANGLES API_TYPE.API_D3D11
        plainXf).mem.text[0]? = some 'c' :=
  ⟨(key_is_backend_blind sampleShape plainConfig zeroUid zeroUid blankMemory blankMemory
      ⟨zeroUid⟩ ⟨zeroUid⟩ freshCode freshCode 0 0 PRIMITIVE_TRIANGLES plainXf).1,
   (key_is_backend_blind sampleShape plainConfig zeroUid zeroUid blankMemory blankMemory
      ⟨zeroUid⟩ ⟨zeroUid⟩ freshCode freshCode 0 0 PRIMITIVE_TRIANGLES plainXf).2.2.2.2.1
      (by decide),
   (key_is_backend_blind sampleShape plainConfig zeroUid zeroUid blankMemory blankMemory
      ⟨zeroUid⟩ ⟨zeroUid⟩ freshCode freshCode 0 0 PRIMITIVE_TRIANGLES plainXf).2.2.2.2.2
      (by decide)⟩


/-! ### C18: the topology lookup -/

theorem declaredInputTopology_shaderCalls (cfg : VideoConfig) (ApiType : API_TYPE)
    (p vin vout : Nat) (le : Bool) (xfr : XFMemory) :
    declaredInputTopology ApiType (shaderCalls cfg ApiType p vin vout le xfr) =
      [tableArg (match ApiType with
        | API_TYPE.API_OPENGL => primitives_ogl
        | API_TYPE.API_D3D11 => primitives_d3d) p] := by
  cases ApiType
  · simp only [declaredInputTopology]
    rw [callsWith_shaderCalls _ (by decide), callsWith_shaderCalls _ (by decide)]
    simp only [layoutParameters, vertexDataAndMain, loopHead, reduceCtorEq, ↓reduceIte]
    split_ifs <;>
      simp +decide [callsWith_append, callsWith_cons_Write, callsWith_cons_Generate,
        callsWith_nil]
  · simp only [declaredInputTopology]
    rw [callsWith_shaderCalls _ (by decide), callsWith_shaderCalls _ (by decide)]
    simp only [layoutParameters, vertexDataAndMain, loopHead, reduceCtorEq, ↓reduceIte]
    split_ifs <;>
      simp +decide [callsWith_append, callsWith_cons_Write, callsWith_nil]

theorem declaredOutputTopology_shaderCalls (cfg : VideoConfig) (ApiType : API_TYPE)
    (p vin vout : Nat) (le : Bool) (xfr : XFMemory) :
    declaredOutputTopology ApiType (shaderCalls cfg ApiType p vin vout le xfr) =
      [Arg.s (match ApiType with
        | API_TYPE.API_OPENGL => if cfg.bWireFrame then "line" else "triangle"
        | API_TYPE.API_D3D11 => if cfg.bWireFrame then "Line" else "Triangle")] := by
  cases ApiType
  · simp only [declaredOutputTopology]
    rw [callsWith_shaderCalls _ (by decide)]
    simp only [layoutParameters, vertexDataAndMain, loopHead, reduceCtorEq, ↓reduceIte]
    split_ifs <;>
      simp +decide [callsWith_append, callsWith_cons_Write, callsWith_cons_Generate,
        callsWith_nil]
  · simp only [declaredOutputTopology]
    rw [callsWith_shaderCalls _ (by decide), callsWith_shaderCalls _ (by decide)]
    simp only [layoutParameters, vertexDataAndMain, loopHead, reduceCtorEq, ↓reduceIte]
    split_ifs <;>
      simp +decide [callsWith_append, callsWith_cons_Write, callsWith_nil]

/-- C18: the input topology each backend declares is the entry `primitive_type` of its table:
both lookups are in range exactly for the primitive kinds 0, 1, 2, where they yield points,
lines, triangles on OpenGL and point, line, triangle on D3D11, and for every value from 3 on the
index lies past the end of the three-entry table.  The output topology declared is `line`
(`Line` on D3D11), completed to a strip by the format, exactly when the wireframe flag is set,
and `triangle` (`Triangle`) exactly when it is not. -/
theorem topology_lookup (H : VSOutputShape) (cfg : VideoConfig)
    (dummy_data : geometry_shader_uid_data) (mem : Memory) (object : ShaderCode)
    (primitive_type : Nat) (xfr : XFMemory) :
    declaredInputTopology API_TYPE.API_OPENGL (GenerateGeometryShaderCode H cfg dummy_data mem
        object primitive_type API_TYPE.API_OPENGL xfr).calls =
      [tableArg primitives_ogl primitive_type] ∧
    declaredInputTopology API_TYPE.API_D3D11 (GenerateGeometryShaderCode H cfg dummy_data mem
        object primitive_type API_TYPE.API_D3D11 xfr).calls =
      [tableArg primitives_d3d primitive_type] ∧
    (primitives_ogl[primitive_type]?).isSome = decide (primitive_type ≤ PRIMITIVE_TRIANGLES) ∧
    (primitives_d3d[primitive_type]?).isSome = decide (primitive_type ≤ PRIMITIVE_TRIANGLES) ∧
    tableArg primitives_ogl primitive_type =
      (if primitive_type = PRIMITIVE_POINTS then Arg.s "points"
       else if primitive_type = PRIMITIVE_LINES then Arg.s "lines"
       else if primitive_type = PRIMITIVE_TRIANGLES then Arg.s "triangles"
       else Arg.invalid) ∧
    tableArg primitives_d3d primitive_type =
      (if primitive_type = PRIMITIVE_POINTS then Arg.s "point"
       else if primitive_type = PRIMITIVE_LINES then Arg.s "line"
       else if primitive_type = PRIMITIVE_TRIANGLES then Arg.s "triangle"
       else Arg.invalid) ∧
    (∀ k, primitives_ogl.length ≤ k + 3 ∧ primitives_d3d.length ≤ k + 3 ∧
      primitives_ogl[k + 3]? = none ∧ primitives_d3d[k + 3]? = none) ∧
    (declaredOutputTopology API_TYPE.API_OPENGL (GenerateGeometryShaderCode H cfg dummy_data mem
        object primitive_type API_TYPE.API_OPENGL xfr).calls = [Arg.s "line"] ↔
      cfg.bWireFrame = true) ∧
    (declaredOutputTopology API_TYPE.API_OPENGL (GenerateGeometryShaderCode H cfg dummy_data mem
        object primitive_type API_TYPE.API_OPENGL xfr).calls = [Arg.s "triangle"] ↔
      cfg.bWireFrame = false) ∧
    (declaredOutputTopology API_TYPE.API_D3D11 (GenerateGeometryShaderCode H cfg dummy_data mem
        object primitive_type API_TYPE.API_D3D11 xfr).calls = [Arg.s "Line"] ↔
      cfg.bWireFrame = true) ∧
    (declaredOutputTopology API_TYPE.API_D3D11 (GenerateGeometryShaderCode H cfg dummy_data mem
        object primitive_type API_TYPE.API_D3D11 xfr).calls = [Arg.s "Triangle"] ↔
      cfg.bWireFrame = false) := by
  have hcases : primitive_type = 0 ∨ primitive_type = 1 ∨ primitive_type = 2 ∨
      ∃ k, primitive_type = k + 3 := by
    rcases primitive_type with _ | _ | _ | k
    · exact Or.inl rfl
    · exact Or.inr (Or.inl rfl)
    · exact Or.inr (Or.inr (Or.inl rfl))
    · exact Or.inr (Or.inr (Or.inr ⟨k, rfl⟩))
  simp only [GenerateGeometryShaderCode_calls, declaredInputTopology_shaderCalls,
    declaredOutputTopology_shaderCalls, true_and]
  refine ⟨?_, ?_, ?_, ?_, ?_, ?_, ?_, ?_, ?_⟩
  · rcases hcases with h | h | h | ⟨k, h⟩ <;> subst h <;>
      simp [primitives_ogl, PRIMITIVE_TRIANGLES]
  · rcases hcases with h | h | h | ⟨k, h⟩ <;> subst h <;>
      simp [primitives_d3d, PRIMITIVE_TRIANGLES]
  · rcases hcases with h | h | h | ⟨k, h⟩ <;> subst h <;>
      simp [tableArg, primitives_ogl, PRIMITIVE_POINTS, PRIMITIVE_LINES, PRIMITIVE_TRIANGLES]
  · rcases hcases with h | h | h | ⟨k, h⟩ <;> subst h <;>
      simp [tableArg, primitives_d3d, PRIMITIVE_POINTS, PRIMITIVE_LINES, PRIMITIVE_TRIANGLES]
  · intro k
    simp [primitives_ogl, primitives_d3d]
  · cases cfg.bWireFrame <;> simp +decide
  · cases cfg.bWireFrame <;> simp +decide
  · cases cfg.bWireFrame <;> simp +decide
  · cases cfg.bWireFrame <;> simp +decide


/-! ### C11: emission order -/

theorem emittedNames_inert (pre : List Call) (h : pre.all inert = true) :
    ∀ (cur : Option String) (rest : List Call),
      emittedNames cur (pre ++ rest) = emittedNames cur rest := by
  induction pre with
  | nil => intro cur rest; rfl
  | cons c cs ih =>
    intro cur rest
    simp only [List.all_cons, Bool.and_eq_true, inert, Bool.not_eq_true',
      Option.isNone_iff_eq_none] at h
    obtain ⟨⟨h1, h2⟩, h3⟩ := h
    simp only [List.cons_append, emittedNames, h1, h2, Bool.false_eq_true, ↓reduceIte]
    exact ih h3 cur rest

theorem emittedNames_EmitVertex (cfg : VideoConfig) (ApiType : API_TYPE) (v : String)
    (fv le : Bool) (xfr : XFMemory) (cur : Option String) (rest : List Call) :
    emittedNames cur (EmitVertex cfg ApiType v fv le xfr ++ rest) =
      some v :: emittedNames (some v) rest := by
  unfold EmitVertex
  cases ApiType <;> simp only [reduceCtorEq, ↓reduceIte] <;> split_ifs <;>
    simp +decide [emittedNames, isEmission, stagedVertex]

set_option maxRecDepth 100000 in
theorem workingVertex_inert (cfg : VideoConfig) (ApiType : API_TYPE) (le : Bool)
    (xfr : XFMemory) : (workingVertex cfg ApiType le xfr).all inert = true := by
  unfold workingVertex
  cases ApiType <;> simp only [reduceCtorEq, ↓reduceIte] <;> split_ifs <;> rfl

theorem lineTexOffsetLoop_inert (n : Nat) : ∀ i, (lineTexOffsetLoop n i).all inert = true := by
  induction n with
  | zero => intro i; rfl
  | succ n ih =>
    intro i
    rw [lineTexOffsetLoop, List.all_append, ih]
    rfl

theorem pointTexOffsetLoop_inert (n : Nat) : ∀ i, (pointTexOffsetLoop n i).all inert = true := by
  induction n with
  | zero => intro i; rfl
  | succ n ih =>
    intro i
    rw [pointTexOffsetLoop, List.all_append, ih]
    rfl

set_option maxRecDepth 100000 in
theorem lineExpansion_inert (xfr : XFMemory) : (lineExpansion xfr).all inert = true := by
  unfold lineExpansion
  simp only [List.all_append, lineTexOffsetLoop_inert]
  rfl

set_option maxRecDepth 100000 in
theorem pointExpansion_inert (xfr : XFMemory) : (pointExpansion xfr).all inert = true := by
  unfold pointExpansion
  simp only [List.all_append, pointTexOffsetLoop_inert]
  rfl

/-- The loop body is the working vertex and its expansion, followed by the emissions. -/
theorem loopBody_eq_emitAll (cfg : VideoConfig) (ApiType : API_TYPE) (p : Nat) (le : Bool)
    (xfr : XFMemory) :
    loopBody cfg ApiType p le xfr =
      (workingVertex cfg ApiType le xfr ++
        (if p = PRIMITIVE_LINES then lineExpansion xfr
         else if p = PRIMITIVE_POINTS then pointExpansion xfr else [])) ++
      emitAll cfg ApiType le xfr (emittedSequence p) := by
  unfold loopBody expansion emittedSequence
  split_ifs <;>
    simp only [emitAll, List.flatMap_cons, List.flatMap_nil, List.append_assoc, List.append_nil]

theorem beforeEmission_inert (cfg : VideoConfig) (ApiType : API_TYPE) (p : Nat) (le : Bool)
    (xfr : XFMemory) :
    (workingVertex cfg ApiType le xfr ++
      (if p = PRIMITIVE_LINES then lineExpansion xfr
       else if p = PRIMITIVE_POINTS then pointExpansion xfr else [])).all inert = true := by
  rw [List.all_append, workingVertex_inert]
  split_ifs
  · rw [lineExpansion_inert]; rfl
  · rw [pointExpansion_inert]; rfl
  · rfl

theorem emittedNames_emitAll (cfg : VideoConfig) (ApiType : API_TYPE) (le : Bool)
    (xfr : XFMemory) (p : Nat) (cur : Option String) :
    emittedNames cur (emitAll cfg ApiType le xfr (emittedSequence p)) =
      (emittedSequence p).map some := by
  have h := fun v fv c rest => emittedNames_EmitVertex cfg ApiType v fv le xfr c rest
  have h0 : ∀ c : Option String, emittedNames c [] = [] := fun _ => rfl
  have hlast := fun v fv c => by simpa using h v fv c []
  unfold emittedSequence
  split_ifs <;>
    simp only [emitAll, List.flatMap_cons, List.flatMap_nil, List.append_assoc, List.append_nil,
      h, hlast, h0, List.map_cons, List.map_nil]

theorem filter_biasStatement_of_formats (cs : List Call) (vocab : List String)
    (hv : ∀ f ∈ formats cs, f ∈ vocab)
    (hc : vocab.all (fun f => !biasStatement (Call.Write f [])) = true) :
    cs.filter biasStatement = [] := by
  induction cs with
  | nil => rfl
  | cons c cs ih =>
    cases c with
    | Write f args =>
      have h1 : biasStatement (Call.Write f args) = false := by
        have := List.all_eq_true.mp hc f (hv f (List.mem_cons_self _ _))
        simpa [biasStatement] using this
      rw [List.filter_cons, h1]
      exact ih (fun g hg => hv g (List.mem_cons_of_mem _ hg))
    | GenerateVSOutputMembers api pl x q => exact ih hv
    | AssignVSOutputMembers api a b pl x => exact ih hv

set_option maxRecDepth 100000 in
theorem filter_biasStatement_EmitVertex (cfg : VideoConfig) (ApiType : API_TYPE) (v : String)
    (fv le : Bool) (xfr : XFMemory) :
    (EmitVertex cfg ApiType v fv le xfr).filter biasStatement = [] :=
  filter_biasStatement_of_formats _ _ (formats_EmitVertex _ _ _ _ _ _) (by decide)

set_option maxRecDepth 100000 in
theorem filter_biasStatement_afterLoop (cfg : VideoConfig) (ApiType : API_TYPE)
    (le : Bool) (xfr : XFMemory) :
    (afterLoop cfg ApiType le xfr).filter biasStatement = [] :=
  filter_biasStatement_of_formats _ _ (formats_afterLoop _ _ _ _) (by decide)

theorem filter_biasStatement_emitAll (cfg : VideoConfig) (ApiType : API_TYPE) (le : Bool)
    (xfr : XFMemory) (p : Nat) :
    (emitAll cfg ApiType le xfr (emittedSequence p)).filter biasStatement = [] := by
  unfold emittedSequence
  split_ifs <;>
    simp only [emitAll, List.flatMap_cons, List.flatMap_nil, List.filter_append,
      filter_biasStatement_EmitVertex, List.append_nil, List.filter_nil]

theorem callsWith_assign_emitAll (cfg : VideoConfig) (ApiType : API_TYPE) (le : Bool)
    (xfr : XFMemory) (p : Nat) :
    callsWith "\tif (i == 0) first = %s;\n" (emitAll cfg ApiType le xfr (emittedSequence p)) =
      if cfg.bWireFrame then [[Arg.s (firstEmitted p)]] else [] := by
  have h1 : ∀ v, callsWith "\tif (i == 0) first = %s;\n" (EmitVertex cfg ApiType v true le xfr) =
      if cfg.bWireFrame then [[Arg.s v]] else [] := by
    intro v
    by_cases hw : cfg.bWireFrame = true
    · rw [EmitVertex_first _ _ _ _ _ hw, callsWith_cons_Write, callsWith_assign_EmitVertex]
      simp [hw]
    · simp only [Bool.not_eq_true] at hw
      rw [EmitVertex_eq cfg ApiType v true le xfr (by rw [hw]; rfl),
        ← EmitVertex_eq cfg ApiType v false le xfr (Bool.and_false _),
        callsWith_assign_EmitVertex]
      simp [hw]
  unfold emittedSequence firstEmitted
  split_ifs <;>
    simp only [emitAll, List.flatMap_cons, List.flatMap_nil, callsWith_append, h1,
      callsWith_assign_EmitVertex, List.append_nil, callsWith_nil, *] <;> simp_all

/-- C11: in every text, for every primitive kind, backend and flag combination, the body of the
per-vertex loop is a part without any emission followed by the calls of `EmitVertex` for `l`
then `r` (LINES), for the corners `ll`, `lr`, `ul`, `ur` in that order (POINTS), or for the
working vertex `f` alone (any other kind); reading the body statement by statement, the vertices
copied into `ps` at the successive emissions are exactly these, in this order.  The first vertex
of the sequence, and no other, is passed as the first vertex: in wireframe mode it is the one
assigned to `first`, otherwise nothing is.  No statement of the texture-coordinate bias stands
at or after the first emission, neither in the loop body nor in what follows the loop, and
nothing before the loop emits a vertex. -/
theorem emission_order (H : VSOutputShape) (cfg : VideoConfig)
    (dummy_data : geometry_shader_uid_data) (mem : Memory) (object : ShaderCode)
    (primitive_type : Nat) (ApiType : API_TYPE) (xfr : XFMemory) :
    ∃ before pre,
      (GenerateGeometryShaderCode H cfg dummy_data mem object primitive_type ApiType xfr).calls =
        before ++ (pre ++ emitAll cfg ApiType (lightingEnabled cfg xfr) xfr
            (emittedSequence primitive_type)) ++
          afterLoop cfg ApiType (lightingEnabled cfg xfr) xfr ∧
      loopBody cfg ApiType primitive_type (lightingEnabled cfg xfr) xfr =
        pre ++ emitAll cfg ApiType (lightingEnabled cfg xfr) xfr
          (emittedSequence primitive_type) ∧
      emissions before = 0 ∧ emissions pre = 0 ∧
      (emitAll cfg ApiType (lightingEnabled cfg xfr) xfr
          (emittedSequence primitive_type) ++
        afterLoop cfg ApiType (lightingEnabled cfg xfr) xfr).filter biasStatement = [] ∧
      emittedNames none (loopBody cfg ApiType primitive_type (lightingEnabled cfg xfr) xfr) =
        (emittedSequence primitive_type).map some ∧
      emittedSequence primitive_type =
        (if primitive_type = PRIMITIVE_LINES then ["l", "r"]
         else if primitive_type = PRIMITIVE_POINTS then ["ll", "lr", "ul", "ur"] else ["f"]) ∧
      callsWith "\tif (i == 0) first = %s;\n"
          (loopBody cfg ApiType primitive_type (lightingEnabled cfg xfr) xfr) =
        (if cfg.bWireFrame then [[Arg.s (firstEmitted primitive_type)]] else []) ∧
      (emittedSequence primitive_type).head? = some (firstEmitted primitive_type) := by
  refine ⟨beforeLoop cfg ApiType primitive_type (vertex_in primitive_type)
      (vertex_out cfg primitive_type) (lightingEnabled cfg xfr) xfr ++
      [Call.Write "\tfor (int i = 0; i < %d; ++i) \x7b\n" [Arg.d (vertex_in primitive_type)]],
    workingVertex cfg ApiType (lightingEnabled cfg xfr) xfr ++
      (if primitive_type = PRIMITIVE_LINES then lineExpansion xfr
       else if primitive_type = PRIMITIVE_POINTS then pointExpansion xfr else []),
    ?_, ?_, ?_, ?_, ?_, ?_, rfl, ?_, ?_⟩
  · rw [GenerateGeometryShaderCode_calls, shaderCalls_eq_loop, loopBody_eq_emitAll]
    simp only [List.append_assoc, List.singleton_append, List.cons_append, List.nil_append]
  · exact loopBody_eq_emitAll _ _ _ _ _
  · rw [emissions_append, emissions_beforeLoop]
    rfl
  · exact (callsWith_assign_beforeFirst cfg ApiType primitive_type _ xfr).2
  · rw [List.filter_append, filter_biasStatement_emitAll, filter_biasStatement_afterLoop]
    rfl
  · rw [loopBody_eq_emitAll, emittedNames_inert _ (beforeEmission_inert _ _ _ _ _),
      emittedNames_emitAll]
  · rw [loopBody_eq_emitAll, callsWith_append,
      (callsWith_assign_beforeFirst cfg ApiType primitive_type _ xfr).1, List.nil_append,
      callsWith_assign_emitAll]
  · unfold emittedSequence firstEmitted
    split_ifs <;> rfl


/-! ### C13: what the two backends share -/

theorem sharedStatements_append (a b : List Call) :
    sharedStatements (a ++ b) = sharedStatements a ++ sharedStatements b := by
  simp only [sharedStatements, List.filter_append]

set_option maxRecDepth 100000 in
theorem sharedStatements_layoutParameters (cfg : VideoConfig) (ApiType : API_TYPE)
    (p vout : Nat) : sharedStatements (layoutParameters cfg ApiType p vout) = [] := by
  unfold layoutParameters
  cases ApiType <;> simp only [reduceCtorEq, ↓reduceIte]
  · split_ifs <;> rfl
  · rfl

set_option maxRecDepth 100000 in
theorem sharedStatements_uniformsAndStruct (cfg : VideoConfig) (ApiType : API_TYPE) (le : Bool)
    (xfr : XFMemory) : sharedStatements (uniformsAndStruct cfg ApiType le xfr) = [] := by
  unfold uniformsAndStruct
  cases ApiType <;> simp only [reduceCtorEq, ↓reduceIte] <;> rfl

set_option maxRecDepth 100000 in
theorem sharedStatements_vertexDataAndMain (cfg : VideoConfig) (ApiType : API_TYPE)
    (p vin vout : Nat) (le : Bool) (xfr : XFMemory) :
    sharedStatements (vertexDataAndMain cfg ApiType p vin vout le xfr) = [] := by
  unfold vertexDataAndMain
  cases ApiType <;> simp only [reduceCtorEq, ↓reduceIte] <;> split_ifs <;> rfl

set_option maxRecDepth 100000 in
theorem sharedStatements_primitiveSetup (p : Nat) (le : Bool) (xfr : XFMemory) :
    sharedStatements (primitiveSetup API_TYPE.API_OPENGL p le xfr) =
      sharedStatements (primitiveSetup API_TYPE.API_D3D11 p le xfr) := by
  unfold primitiveSetup
  simp only [reduceCtorEq, ↓reduceIte]
  split_ifs <;> rfl

set_option maxRecDepth 100000 in
theorem sharedStatements_workingVertex (cfg : VideoConfig) (le : Bool) (xfr : XFMemory) :
    sharedStatements (workingVertex cfg API_TYPE.API_OPENGL le xfr) =
      sharedStatements (workingVertex cfg API_TYPE.API_D3D11 le xfr) := by
  unfold workingVertex
  simp only [reduceCtorEq, ↓reduceIte]
  split_ifs <;> rfl

set_option maxRecDepth 100000 in
theorem sharedStatements_EmitVertex (cfg : VideoConfig) (v : String) (fv le : Bool)
    (xfr : XFMemory) :
    sharedStatements (EmitVertex cfg API_TYPE.API_OPENGL v fv le xfr) =
      sharedStatements (EmitVertex cfg API_TYPE.API_D3D11 v fv le xfr) := by
  unfold EmitVertex
  simp only [reduceCtorEq, ↓reduceIte]
  split_ifs <;> rfl

theorem sharedStatements_expansion (cfg : VideoConfig) (p : Nat) (le : Bool) (xfr : XFMemory) :
    sharedStatements (expansion cfg API_TYPE.API_OPENGL p le xfr) =
      sharedStatements (expansion cfg API_TYPE.API_D3D11 p le xfr) := by
  unfold expansion
  split_ifs <;> simp only [sharedStatements_append, sharedStatements_EmitVertex]

set_option maxRecDepth 100000 in
theorem sharedStatements_afterLoop (cfg : VideoConfig) (le : Bool) (xfr : XFMemory) :
    sharedStatements (afterLoop cfg API_TYPE.API_OPENGL le xfr) =
      sharedStatements (afterLoop cfg API_TYPE.API_D3D11 le xfr) := by
  unfold afterLoop EndPrimitive
  simp only [sharedStatements_append, reduceCtorEq, ↓reduceIte]
  split_ifs
  · rw [sharedStatements_EmitVertex]; rfl
  · rw [sharedStatements_EmitVertex]; rfl
  · rfl
  · rfl

theorem sharedStatements_shaderCalls (cfg : VideoConfig) (p vin vout : Nat) (le : Bool)
    (xfr : XFMemory) :
    sharedStatements (shaderCalls cfg API_TYPE.API_OPENGL p vin vout le xfr) =
      sharedStatements (shaderCalls cfg API_TYPE.API_D3D11 p vin vout le xfr) := by
  simp only [shaderCalls, loopBody, sharedStatements_append, sharedStatements_layoutParameters,
    sharedStatements_uniformsAndStruct, sharedStatements_vertexDataAndMain,
    sharedStatements_primitiveSetup, sharedStatements_workingVertex,
    sharedStatements_expansion, sharedStatements_afterLoop]

theorem filter_layerBuiltin_eq_nil (cs : List Call) (h : "\tgl_Layer = eye;\n" ∉ formats cs) :
    cs.filter layerBuiltin = [] := by
  induction cs with
  | nil => rfl
  | cons c cs ih =>
    cases c with
    | Write f args =>
      rw [formats_cons_Write, List.mem_cons, not_or] at h
      have h1 : layerBuiltin (Call.Write f args) = false := by
        simp only [layerBuiltin, beq_eq_false_iff_ne, ne_eq]
        exact fun e => h.1 e.symm
      rw [List.filter_cons, h1]
      exact ih h.2
    | GenerateVSOutputMembers api pl x q => exact ih h
    | AssignVSOutputMembers api a b pl x => exact ih h

theorem filter_layerBuiltin_expansion (cfg : VideoConfig) (ApiType : API_TYPE) (p : Nat)
    (le : Bool) (xfr : XFMemory) : (expansion cfg ApiType p le xfr).filter layerBuiltin = [] := by
  have hE := fun v fv => filter_layerBuiltin_eq_nil (EmitVertex cfg ApiType v fv le xfr)
    (fun h => absurd (formats_EmitVertex _ _ _ _ _ _ _ h) (by decide))
  have hL := filter_layerBuiltin_eq_nil (lineExpansion xfr)
    (fun h => absurd (formats_lineExpansion _ _ h) (by decide))
  have hP := filter_layerBuiltin_eq_nil (pointExpansion xfr)
    (fun h => absurd (formats_pointExpansion _ _ h) (by decide))
  unfold expansion
  split_ifs <;> simp only [List.filter_append, hE, hL, hP, List.append_nil]

theorem filter_layerBuiltin_workingVertex (cfg : VideoConfig) (ApiType : API_TYPE) (le : Bool)
    (xfr : XFMemory) :
    (workingVertex cfg ApiType le xfr).filter layerBuiltin =
      if cfg.iStereoMode > 0 ∧ ApiType = API_TYPE.API_OPENGL then
        [Call.Write "\tgl_Layer = eye;\n" []]
      else [] := by
  unfold workingVertex
  cases ApiType <;> simp only [reduceCtorEq, ↓reduceIte, and_true, and_false] <;>
    split_ifs <;> rfl

theorem filter_layerBuiltin_shaderCalls (cfg : VideoConfig) (ApiType : API_TYPE)
    (p vin vout : Nat) (le : Bool) (xfr : XFMemory) :
    (shaderCalls cfg ApiType p vin vout le xfr).filter layerBuiltin =
      if cfg.iStereoMode > 0 ∧ ApiType = API_TYPE.API_OPENGL then
        [Call.Write "\tgl_Layer = eye;\n" []]
      else [] := by
  simp only [shaderCalls, loopBody, List.filter_append, filter_layerBuiltin_workingVertex,
    filter_layerBuiltin_expansion,
    filter_layerBuiltin_eq_nil _
      (fun h => absurd (formats_layoutParameters cfg ApiType p vout _ h) (by decide)),
    filter_layerBuiltin_eq_nil _
      (fun h => absurd (formats_uniformsAndStruct cfg ApiType le xfr _ h) (by decide)),
    filter_layerBuiltin_eq_nil _
      (fun h => absurd (formats_vertexDataAndMain cfg ApiType p vin vout le xfr _ h) (by decide)),
    filter_layerBuiltin_eq_nil _
      (fun h => absurd (formats_primitiveSetup ApiType p le xfr _ h) (by decide)),
    filter_layerBuiltin_eq_nil _ (fun h => absurd (formats_stereoEye cfg _ h) (by decide)),
    filter_layerBuiltin_eq_nil _ (fun h => absurd (formats_loopHead cfg vin _ h) (by decide)),
    filter_layerBuiltin_eq_nil _
      (fun h => absurd (formats_afterLoop cfg ApiType le xfr _ h) (by decide)),
    List.append_nil, List.nil_append]

theorem layerBuiltin_claimedShared (c : Call) (h : layerBuiltin c = true) :
    claimedBackendSpecific c = false := by
  cases c with
  | Write f args =>
    simp only [layerBuiltin, beq_iff_eq] at h
    subst h
    rfl
  | GenerateVSOutputMembers api pl x q => simp [layerBuiltin] at h
  | AssignVSOutputMembers api a b pl x => simp [layerBuiltin] at h

theorem filter_layerBuiltin_claimedShared (cs : List Call) :
    (claimedShared cs).filter layerBuiltin = cs.filter layerBuiltin := by
  unfold claimedShared
  rw [List.filter_filter]
  apply List.filter_congr
  intro c _
  cases h : layerBuiltin c
  · rfl
  · simp [layerBuiltin_claimedShared c h]

theorem claimedShared_eq_sharedStatements (cs : List Call) (h : cs.filter layerBuiltin = []) :
    claimedShared cs = sharedStatements cs := by
  unfold claimedShared sharedStatements
  apply List.filter_congr
  intro c hc
  have : layerBuiltin c = false := by
    cases hl : layerBuiltin c
    · rfl
    · have hm : c ∈ cs.filter layerBuiltin := List.mem_filter.mpr ⟨hc, hl⟩
      rw [h] at hm
      exact absurd hm (List.not_mem_nil _)
  simp [this]

set_option maxRecDepth 1000000 in
/-- C13 (as stated, refuted): for a stereo TRIANGLES draw without multi-invocation, the
statements outside the declarations, the input reads, the vertex emission and the end of strip
are not the same on the two backends: the OpenGL text sets `gl_Layer` after the layer tag
`ps.layer = eye;` (line 229), the D3D11 text does not. -/
theorem layer_tag_differs :
    claimedShared (GenerateGeometryShaderCode sampleShape { plainConfig with iStereoMode := 1 }
        zeroUid blankMemory freshCode PRIMITIVE_TRIANGLES API_TYPE.API_OPENGL plainXf).calls =
      [Call.Write "\tfor (int eye = 0; eye < 2; ++eye) \x7b\n" [],
       Call.Write "\tfor (int i = 0; i < %d; ++i) \x7b\n" [Arg.d 3],
       Call.Write "\tps.layer = eye;\n" [],
       Call.Write "\tgl_Layer = eye;\n" [],
       Call.Write ("\tf.pos.x += " ++ I_STEREOPARAMS ++ "[eye] * (f.pos.w - " ++
         I_STEREOPARAMS ++ "[2]);\n") [],
       Call.Write "\t\x7d\n" [], Call.Write "\t\x7d\n" [], Call.Write "\x7d\n" []] ∧
    claimedShared (GenerateGeometryShaderCode sampleShape { plainConfig with iStereoMode := 1 }
        zeroUid blankMemory freshCode PRIMITIVE_TRIANGLES API_TYPE.API_D3D11 plainXf).calls =
      [Call.Write "\tfor (int eye = 0; eye < 2; ++eye) \x7b\n" [],
       Call.Write "\tfor (int i = 0; i < %d; ++i) \x7b\n" [Arg.d 3],
       Call.Write "\tps.layer = eye;\n" [],
       Call.Write ("\tf.pos.x += " ++ I_STEREOPARAMS ++ "[eye] * (f.pos.w - " ++
         I_STEREOPARAMS ++ "[2]);\n") [],
       Call.Write "\t\x7d\n" [], Call.Write "\t\x7d\n" [], Call.Write "\x7d\n" []] ∧
    claimedShared (GenerateGeometryShaderCode sampleShape { plainConfig with iStereoMode := 1 }
        zeroUid blankMemory freshCode PRIMITIVE_TRIANGLES API_TYPE.API_OPENGL plainXf).calls ≠
      claimedShared (GenerateGeometryShaderCode sampleShape { plainConfig with iStereoMode := 1 }
        zeroUid blankMemory freshCode PRIMITIVE_TRIANGLES API_TYPE.API_D3D11 plainXf).calls := by
  decide

/-- C13 (amended): for every primitive kind and flag combination, the statements outside the
declarations, the input reads, the vertex emission and the end of strip, the setting of the
OpenGL built-in `gl_Layer` left aside, are the same calls, hence the same bytes, on the two
backends; this covers the line offset selection, the point offset computation, the layer tag
`ps.layer = eye;` and the horizontal shift of `f`, the derivation of `l`, `r` or of `ll`, `lr`,
`ul`, `ur`, and the texture-coordinate bias.  The D3D11 text never sets `gl_Layer`; the OpenGL
text sets it once when stereo is active and not otherwise.  So the statements the two backends
were claimed to share are the same exactly when stereo is inactive. -/
theorem backend_independent_expansion (H : VSOutputShape) (cfg : VideoConfig)
    (d₁ d₂ : geometry_shader_uid_data) (mem₁ mem₂ : Memory) (object₁ object₂ : ShaderCode)
    (primitive_type : Nat) (xfr : XFMemory) :
    sharedStatements (GenerateGeometryShaderCode H cfg d₁ mem₁ object₁ primitive_type
        API_TYPE.API_OPENGL xfr).calls =
      sharedStatements (GenerateGeometryShaderCode H cfg d₂ mem₂ object₂ primitive_type
        API_TYPE.API_D3D11 xfr).calls ∧
    (sharedStatements (GenerateGeometryShaderCode H cfg d₁ mem₁ object₁ primitive_type
        API_TYPE.API_OPENGL xfr).calls).map (Call.text H) =
      (sharedStatements (GenerateGeometryShaderCode H cfg d₂ mem₂ object₂ primitive_type
        API_TYPE.API_D3D11 xfr).calls).map (Call.text H) ∧
    (GenerateGeometryShaderCode H cfg d₂ mem₂ object₂ primitive_type
        API_TYPE.API_D3D11 xfr).calls.filter layerBuiltin = [] ∧
    (GenerateGeometryShaderCode H cfg d₁ mem₁ object₁ primitive_type
        API_TYPE.API_OPENGL xfr).calls.filter layerBuiltin =
      (if cfg.iStereoMode > 0 then [Call.Write "\tgl_Layer = eye;\n" []] else []) ∧
    claimedShared (GenerateGeometryShaderCode H cfg d₂ mem₂ object₂ primitive_type
        API_TYPE.API_D3D11 xfr).calls =
      sharedStatements (GenerateGeometryShaderCode H cfg d₂ mem₂ object₂ primitive_type
        API_TYPE.API_D3D11 xfr).calls ∧
    (claimedShared (GenerateGeometryShaderCode H cfg d₁ mem₁ object₁ primitive_type
        API_TYPE.API_OPENGL xfr).calls =
      claimedShared (GenerateGeometryShaderCode H cfg d₂ mem₂ object₂ primitive_type
        API_TYPE.API_D3D11 xfr).calls ↔ ¬ cfg.iStereoMode > 0) := by
  have hs := sharedStatements_shaderCalls cfg primitive_type (vertex_in primitive_type)
    (vertex_out cfg primitive_type) (lightingEnabled cfg xfr) xfr
  have hd := filter_layerBuiltin_shaderCalls cfg API_TYPE.API_D3D11 primitive_type
    (vertex_in primitive_type) (vertex_out cfg primitive_type) (lightingEnabled cfg xfr) xfr
  have ho := filter_layerBuiltin_shaderCalls cfg API_TYPE.API_OPENGL primitive_type
    (vertex_in primitive_type) (vertex_out cfg primitive_type) (lightingEnabled cfg xfr) xfr
  simp only [reduceCtorEq, and_false, and_true, ↓reduceIte] at hd ho
  simp only [GenerateGeometryShaderCode_calls]
  refine ⟨hs, by rw [hs], hd, ho, claimedShared_eq_sharedStatements _ hd, ?_⟩
  constructor
  · intro h hpos
    have h2 := congrArg (List.filter layerBuiltin) h
    rw [filter_layerBuiltin_claimedShared, filter_layerBuiltin_claimedShared, hd, ho,
      if_pos hpos] at h2
    exact absurd h2 (by simp)
  · intro hneg
    rw [if_neg hneg] at ho
    rw [claimedShared_eq_sharedStatements _ hd, claimedShared_eq_sharedStatements _ ho, hs]

set_option maxRecDepth 1000000 in
/-- C13 (amended), instantiated: for a stereo LINES draw with one texture-coordinate generator
the shared statements of both backends are the offset selection, the eye loop, the loop head,
the layer tag and the shift, the derivation of `l` and `r`, the bias and the closing braces. -/
theorem backend_independent_expansion_witness :
    sharedStatements (GenerateGeometryShaderCode sampleShape { plainConfig with iStereoMode := 1 }
        zeroUid blankMemory freshCode PRIMITIVE_LINES API_TYPE.API_OPENGL
        { numTexGens := 1, numColorChans := 0, rest := [] }).calls =
      sharedStatements (GenerateGeometryShaderCode sampleShape
        { plainConfig with iStereoMode := 1 } zeroUid smallMemory freshCode PRIMITIVE_LINES
        API_TYPE.API_D3D11 { numTexGens := 1, numColorChans := 0, rest := [] }).calls ∧
    (sharedStatements (GenerateGeometryShaderCode sampleShape
        { plainConfig with iStereoMode := 1 } zeroUid smallMemory freshCode PRIMITIVE_LINES
        API_TYPE.API_D3D11 { numTexGens := 1, numColorChans := 0, rest := [] }).calls).length =
      15 :=
  ⟨(backend_independent_expansion sampleShape { plainConfig with iStereoMode := 1 } zeroUid
      zeroUid blankMemory smallMemory freshCode freshCode PRIMITIVE_LINES
      { numTexGens := 1, numColorChans := 0, rest := [] }).1, by decide⟩


/-! ### C16: balanced blocks -/

theorem braceWalk_append (a : List Char) : ∀ (d : Nat) (b : List Char),
    braceWalk d (a ++ b) =
      match braceWalk d a with
      | some e => braceWalk e b
      | none => none := by
  induction a with
  | nil => intro d b; rfl
  | cons c cs ih =>
    intro d b
    simp only [List.cons_append, braceWalk]
    split_ifs
    · exact ih _ _
    · cases d with
      | zero => rfl
      | succ d => exact ih _ _
    · exact ih _ _

theorem braceWalk_of_not_mem (a : List Char) (ho : openBrace ∉ a) (hc : closeBrace ∉ a)
    (d : Nat) : braceWalk d a = some d := by
  induction a with
  | nil => rfl
  | cons c cs ih =>
    rw [List.mem_cons, not_or] at ho hc
    simp only [braceWalk, if_neg (Ne.symm ho.1), if_neg (Ne.symm hc.1)]
    exact ih ho.2 hc.2

theorem braceWalk_skip (a b : List Char) (ho : openBrace ∉ a) (hc : closeBrace ∉ a)
    (d : Nat) : braceWalk d (a ++ b) = braceWalk d b := by
  rw [braceWalk_append, braceWalk_of_not_mem a ho hc]

/-- The braces of a formatted text are those of its format, if no argument has a brace. -/
theorem braceWalk_vsprintf : ∀ (fmt : List Char) (args : List Arg),
    args.all Arg.plain = true → ∀ d, braceWalk d (vsprintf fmt args) = braceWalk d fmt := by
  intro fmt args
  induction fmt, args using vsprintf.induct with
  | case1 args => intro _ d; simp [vsprintf]
  | case2 fmt v args ih =>
    intro h d
    simp only [List.all_cons, Bool.and_eq_true, Arg.plain] at h
    have ho : openBrace ∉ v.data := not_mem_arg_text _ (Arg.s v) h.1.1
    have hc : closeBrace ∉ v.data := not_mem_arg_text _ (Arg.s v) h.1.2
    rw [vsprintf, braceWalk_skip _ _ ho hc, ih h.2]
    rfl
  | case3 fmt args ih =>
    intro h d
    simp only [List.all_cons, Bool.and_eq_true] at h
    rw [vsprintf, ih h.2]
    rfl
  | case4 fmt v args ih =>
    intro h d
    simp only [List.all_cons, Bool.and_eq_true, Arg.plain] at h
    have ho : openBrace ∉ fmt_d v := not_mem_arg_text _ (Arg.d v) h.1.1
    have hc : closeBrace ∉ fmt_d v := not_mem_arg_text _ (Arg.d v) h.1.2
    rw [vsprintf, braceWalk_skip _ _ ho hc, ih h.2]
    rfl
  | case5 c fmt args h1 h2 h3 ih =>
    intro h d
    rw [vsprintf]
    · simp only [braceWalk]
      split_ifs
      · exact ih h _
      · cases d with
        | zero => rfl
        | succ d => exact ih h _
      · exact ih h _
    · exact h1
    · exact h2
    · exact h3

theorem callWalk_sound (H : VSOutputShape) (ho : H.Avoids openBrace) (hc : H.Avoids closeBrace)
    (c : Call) (d e : Nat) (h : callWalk d c = some e) : braceWalk d (c.text H) = some e := by
  cases c with
  | Write f args =>
    simp only [callWalk] at h
    split_ifs at h with hp
    rw [Call.text, braceWalk_vsprintf _ _ hp, h]
  | GenerateVSOutputMembers api pl x q =>
    simp only [callWalk] at h
    split_ifs at h with hp
    rw [Bool.and_eq_true] at hp
    rw [← Option.some.inj h]
    exact braceWalk_of_not_mem _ (ho.1 api pl x q hp.1) (hc.1 api pl x q hp.2) d
  | AssignVSOutputMembers api a b pl x =>
    simp only [callWalk] at h
    split_ifs at h with hp
    rw [Bool.and_eq_true] at hp
    rw [← Option.some.inj h]
    exact braceWalk_of_not_mem _ (ho.2 api a b pl x hp.1) (hc.2 api a b pl x hp.2) d

theorem callsWalk_sound (H : VSOutputShape) (ho : H.Avoids openBrace)
    (hc : H.Avoids closeBrace) (cs : List Call) :
    ∀ (d e : Nat), callsWalk d cs = some e → braceWalk d (callsText H cs) = some e := by
  induction cs with
  | nil => intro d e h; exact h
  | cons c cs ih =>
    intro d e h
    simp only [callsWalk] at h
    cases hw : callWalk d c with
    | none => rw [hw] at h; exact absurd h (by simp)
    | some m =>
      rw [hw] at h
      rw [callsText, braceWalk_append, callWalk_sound H ho hc c d m hw]
      exact ih m e h

theorem callsWalk_append (a : List Call) : ∀ (d : Nat) (b : List Call),
    callsWalk d (a ++ b) =
      match callsWalk d a with
      | some e => callsWalk e b
      | none => none := by
  induction a with
  | nil => intro d b; rfl
  | cons c cs ih =>
    intro d b
    simp only [List.cons_append, callsWalk]
    cases callWalk d c with
    | none => rfl
    | some m => exact ih m b

theorem callsWalk_append_of (a b : List Call) (d e g : Nat) (ha : callsWalk d a = some e)
    (hb : callsWalk e b = some g) : callsWalk d (a ++ b) = some g := by
  rw [callsWalk_append, ha]
  exact hb

/-- A text that can be walked has no prefix with more closing than opening braces, and the
depths before and after differ by the difference of the two counts. -/
theorem braceWalk_counts (t : List Char) : ∀ (d e : Nat), braceWalk d t = some e →
    (∀ k, (t.take k).count closeBrace ≤ d + (t.take k).count openBrace) ∧
    d + t.count openBrace = e + t.count closeBrace := by
  induction t with
  | nil =>
    intro d e h
    simp only [braceWalk, Option.some.injEq] at h
    simp [h]
  | cons c cs ih =>
    intro d e h
    have hne : openBrace ≠ closeBrace := by decide
    simp only [braceWalk] at h
    by_cases h1 : c = openBrace
    · rw [if_pos h1] at h
      obtain ⟨ihp, iht⟩ := ih _ _ h
      subst h1
      constructor
      · intro k
        cases k with
        | zero => simp
        | succ k =>
          have := ihp k
          simp only [List.take_succ_cons, List.count_cons_self,
            List.count_cons_of_ne hne.symm]
          omega
      · simp only [List.count_cons_self, List.count_cons_of_ne hne.symm]
        omega
    · rw [if_neg h1] at h
      by_cases h2 : c = closeBrace
      · rw [if_pos h2] at h
        subst h2
        cases d with
        | zero => exact absurd h (by simp)
        | succ d =>
          obtain ⟨ihp, iht⟩ := ih _ _ h
          constructor
          · intro k
            cases k with
            | zero => simp
            | succ k =>
              have := ihp k
              simp only [List.take_succ_cons, List.count_cons_self,
                List.count_cons_of_ne hne]
              omega
          · simp only [List.count_cons_self, List.count_cons_of_ne hne]
            omega
      · rw [if_neg h2] at h
        obtain ⟨ihp, iht⟩ := ih _ _ h
        constructor
        · intro k
          cases k with
          | zero => simp
          | succ k =>
            have := ihp k
            simp only [List.take_succ_cons, List.count_cons_of_ne (Ne.symm h1),
              List.count_cons_of_ne (Ne.symm h2)]
            omega
        · simp only [List.count_cons_of_ne (Ne.symm h1), List.count_cons_of_ne (Ne.symm h2)]
          omega

set_option maxRecDepth 100000 in
theorem callsWalk_layoutParameters (cfg : VideoConfig) (ApiType : API_TYPE) (p vout : Nat)
    (d : Nat) : callsWalk d (layoutParameters cfg ApiType p vout) = some d := by
  unfold layoutParameters
  cases ApiType
  · simp only [↓reduceIte]
    rcases tableArg_ogl_cases p with h | h | h | h <;> rw [h] <;> split_ifs <;> rfl
  · rfl

set_option maxRecDepth 100000 in
theorem callsWalk_uniformsAndStruct (cfg : VideoConfig) (ApiType : API_TYPE) (le : Bool)
    (xfr : XFMemory) (d : Nat) :
    callsWalk d (uniformsAndStruct cfg ApiType le xfr) = some d := by
  unfold uniformsAndStruct
  cases ApiType <;> simp only [reduceCtorEq, ↓reduceIte]
  · split_ifs <;> rfl
  · rfl

set_option maxRecDepth 100000 in
theorem callsWalk_primitiveSetup (ApiType : API_TYPE) (p : Nat) (le : Bool) (xfr : XFMemory)
    (d : Nat) : callsWalk d (primitiveSetup ApiType p le xfr) = some d := by
  unfold primitiveSetup
  cases ApiType <;> simp only [reduceCtorEq, ↓reduceIte] <;> split_ifs <;> rfl

theorem callsWalk_stereoEye (cfg : VideoConfig) (d : Nat) :
    callsWalk d (stereoEye cfg) = some (d + if stereoFallback cfg then 1 else 0) := by
  unfold stereoEye stereoFallback
  by_cases hs : cfg.iStereoMode > 0 <;> by_cases hi : cfg.backend_info.bSupportsGSInstancing = true <;>
    simp only [hs, hi, ↓reduceIte, decide_True, decide_False, Bool.true_and, Bool.false_and,
      Bool.not_true, Bool.not_false, Bool.false_eq_true] <;> rfl

theorem callsWalk_loopHead (cfg : VideoConfig) (vin : Nat) (d : Nat) :
    callsWalk d (loopHead cfg vin) = some (d + 1) := by
  unfold loopHead
  split_ifs <;> rfl

set_option maxRecDepth 100000 in
theorem callsWalk_workingVertex (cfg : VideoConfig) (ApiType : API_TYPE) (le : Bool)
    (xfr : XFMemory) (d : Nat) : callsWalk d (workingVertex cfg ApiType le xfr) = some d := by
  unfold workingVertex
  cases ApiType <;> simp only [reduceCtorEq, ↓reduceIte] <;> split_ifs <;> rfl

theorem callsWalk_lineTexOffsetLoop (n : Nat) :
    ∀ i d, callsWalk d (lineTexOffsetLoop n i) = some d := by
  induction n with
  | zero => intro i d; rfl
  | succ n ih =>
    intro i d
    rw [lineTexOffsetLoop]
    exact callsWalk_append_of _ _ d d d rfl (ih _ _)

theorem callsWalk_pointTexOffsetLoop (n : Nat) :
    ∀ i d, callsWalk d (pointTexOffsetLoop n i) = some d := by
  induction n with
  | zero => intro i d; rfl
  | succ n ih =>
    intro i d
    rw [pointTexOffsetLoop]
    exact callsWalk_append_of _ _ d d d rfl (ih _ _)

set_option maxRecDepth 100000 in
theorem callsWalk_lineExpansion (xfr : XFMemory) (d : Nat) :
    callsWalk d (lineExpansion xfr) = some d := by
  unfold lineExpansion
  exact callsWalk_append_of _ _ d (d + 1) d
    (callsWalk_append_of _ _ d (d + 1) (d + 1) rfl (callsWalk_lineTexOffsetLoop _ _ _)) rfl

set_option maxRecDepth 100000 in
theorem callsWalk_pointExpansion (xfr : XFMemory) (d : Nat) :
    callsWalk d (pointExpansion xfr) = some d := by
  unfold pointExpansion
  exact callsWalk_append_of _ _ d (d + 1) d
    (callsWalk_append_of _ _ d (d + 1) (d + 1) rfl (callsWalk_pointTexOffsetLoop _ _ _)) rfl

theorem callsWalk_EmitVertex (cfg : VideoConfig) (ApiType : API_TYPE) (v : String)
    (hv : (Arg.s v).plain = true) (fv le : Bool) (xfr : XFMemory) (d : Nat) :
    callsWalk d (EmitVertex cfg ApiType v fv le xfr) = some d := by
  have hv' := hv
  simp only [Arg.plain, Arg.avoids, Bool.and_eq_true] at hv'
  have h1 : openBrace ∉ v.data := not_mem_of_contains_eq_false hv'.1
  have h2 : closeBrace ∉ v.data := not_mem_of_contains_eq_false hv'.2
  unfold EmitVertex
  cases ApiType <;> simp only [reduceCtorEq, ↓reduceIte] <;> split_ifs <;>
    simp +decide [callsWalk, callWalk, Call.avoids, hv, h1, h2, braceWalk]

theorem callsWalk_expansion (cfg : VideoConfig) (ApiType : API_TYPE) (p : Nat) (le : Bool)
    (xfr : XFMemory) (d : Nat) : callsWalk d (expansion cfg ApiType p le xfr) = some d := by
  have hE := fun v hv fv => callsWalk_EmitVertex cfg ApiType v hv fv le xfr d
  unfold expansion
  split_ifs
  · exact callsWalk_append_of _ _ d d d
      (callsWalk_append_of _ _ d d d (callsWalk_lineExpansion _ _) (hE "l" (by decide) _))
      (hE "r" (by decide) _)
  · exact callsWalk_append_of _ _ d d d
      (callsWalk_append_of _ _ d d d
        (callsWalk_append_of _ _ d d d
          (callsWalk_append_of _ _ d d d (callsWalk_pointExpansion _ _) (hE "ll" (by decide) _))
          (hE "lr" (by decide) _))
        (hE "ul" (by decide) _))
      (hE "ur" (by decide) _)
  · exact hE "f" (by decide) _

theorem callsWalk_loopBody (cfg : VideoConfig) (ApiType : API_TYPE) (p : Nat) (le : Bool)
    (xfr : XFMemory) (d : Nat) : callsWalk d (loopBody cfg ApiType p le xfr) = some d :=
  callsWalk_append_of _ _ d d d (callsWalk_workingVertex _ _ _ _ _)
    (callsWalk_expansion _ _ _ _ _ _)

theorem callsWalk_EndPrimitive (cfg : VideoConfig) (ApiType : API_TYPE) (le : Bool)
    (xfr : XFMemory) (d : Nat) : callsWalk d (EndPrimitive cfg ApiType le xfr) = some d := by
  rw [EndPrimitive_eq]
  refine callsWalk_append_of _ _ d d d ?_ ?_
  · split_ifs
    · exact callsWalk_EmitVertex _ _ _ (by decide) _ _ _ _
    · rfl
  · unfold endOfStrip
    cases ApiType <;> rfl

/-- From the head of the per-vertex loop to the end of the primitive the depth is kept. -/
theorem callsWalk_loop (cfg : VideoConfig) (ApiType : API_TYPE) (p vin : Nat) (le : Bool)
    (xfr : XFMemory) (d : Nat) :
    callsWalk d (loopHead cfg vin ++ loopBody cfg ApiType p le xfr ++
      Call.Write "\t\x7d\n" [] :: EndPrimitive cfg ApiType le xfr) = some d := by
  refine callsWalk_append_of _ _ d (d + 1) d
    (callsWalk_append_of _ _ d (d + 1) (d + 1) (callsWalk_loopHead _ _ _)
      (callsWalk_loopBody _ _ _ _ _ _)) ?_
  show callsWalk d (EndPrimitive cfg ApiType le xfr) = some d
  exact callsWalk_EndPrimitive _ _ _ _ _

theorem callsWalk_closer (cfg : VideoConfig) (d : Nat) :
    callsWalk (d + if stereoFallback cfg then 1 else 0)
      (if stereoFallback cfg then [Call.Write "\t\x7d\n" []] else []) = some d := by
  cases stereoFallback cfg <;> rfl

theorem sampleShape_avoids_openBrace : sampleShape.Avoids openBrace := by
  have hd : ∀ i, openBrace ∉ fmt_d i := fun i h => absurd (mem_fmt_d i openBrace h) (by decide)
  constructor
  · intro api pl xfr q hq
    have hq' : openBrace ∉ (q.getD "").data := by
      cases q with
      | none => decide
      | some s => exact not_mem_of_contains_eq_false hq
    simp only [sampleShape, sampleMembers, String.data_append, List.mem_append,
      List.mem_flatMap, not_or, not_exists, not_and]
    refine ⟨⟨⟨⟨by decide, hq'⟩, by decide⟩, fun i _ => ⟨⟨by decide, hd i⟩, by decide⟩⟩, ?_⟩
    split_ifs
    · decide
    · simp
  · intro api a b pl xfr hab
    simp only [Call.avoids, Bool.and_eq_true] at hab
    have ha := not_mem_of_contains_eq_false hab.1
    have hb := not_mem_of_contains_eq_false hab.2
    simp only [sampleShape, sampleAssign, String.data_append, List.mem_append,
      List.mem_flatMap, not_or, not_exists, not_and]
    refine ⟨⟨⟨⟨⟨⟨by decide, ha⟩, by decide⟩, hb⟩, by decide⟩, fun i _ =>
      ⟨⟨⟨⟨⟨⟨by decide, ha⟩, by decide⟩, hd i⟩, ⟨⟨by decide, hb⟩, by decide⟩⟩, hd i⟩,
        by decide⟩⟩, ?_⟩
    split_ifs
    · exact fun h => by
        simp only [String.data_append, List.mem_append] at h
        rcases h with (((h | h) | h) | h) | h
        · revert h; decide
        · exact ha h
        · revert h; decide
        · exact hb h
        · revert h; decide
    · simp

theorem sampleShape_avoids_closeBrace : sampleShape.Avoids closeBrace := by
  have hd : ∀ i, closeBrace ∉ fmt_d i := fun i h => absurd (mem_fmt_d i closeBrace h) (by decide)
  constructor
  · intro api pl xfr q hq
    have hq' : closeBrace ∉ (q.getD "").data := by
      cases q with
      | none => decide
      | some s => exact not_mem_of_contains_eq_false hq
    simp only [sampleShape, sampleMembers, String.data_append, List.mem_append,
      List.mem_flatMap, not_or, not_exists, not_and]
    refine ⟨⟨⟨⟨by decide, hq'⟩, by decide⟩, fun i _ => ⟨⟨by decide, hd i⟩, by decide⟩⟩, ?_⟩
    split_ifs
    · decide
    · simp
  · intro api a b pl xfr hab
    simp only [Call.avoids, Bool.and_eq_true] at hab
    have ha := not_mem_of_contains_eq_false hab.1
    have hb := not_mem_of_contains_eq_false hab.2
    simp only [sampleShape, sampleAssign, String.data_append, List.mem_append,
      List.mem_flatMap, not_or, not_exists, not_and]
    refine ⟨⟨⟨⟨⟨⟨by decide, ha⟩, by decide⟩, hb⟩, by decide⟩, fun i _ =>
      ⟨⟨⟨⟨⟨⟨by decide, ha⟩, by decide⟩, hd i⟩, ⟨⟨by decide, hb⟩, by decide⟩⟩, hd i⟩,
        by decide⟩⟩, ?_⟩
    split_ifs
    · exact fun h => by
        simp only [String.data_append, List.mem_append] at h
        rcases h with (((h | h) | h) | h) | h
        · revert h; decide
        · exact ha h
        · revert h; decide
        · exact hb h
        · revert h; decide
    · simp

set_option maxRecDepth 100000 in
/-- The calls of lines 107-148 are those before the head of `main`, the head of `main`, and on
D3D11 the declaration of `ps` after it. -/
theorem vertexDataAndMain_split (cfg : VideoConfig) (ApiType : API_TYPE) (p vin vout : Nat)
    (le : Bool) (xfr : XFMemory) :
    vertexDataAndMain cfg ApiType p vin vout le xfr =
      (vertexDataAndMain cfg ApiType p vin vout le xfr).take
          ((vertexDataAndMain cfg ApiType p vin vout le xfr).length -
            (if ApiType = API_TYPE.API_OPENGL then 1 else 2)) ++
        mainHead cfg ApiType p vin ::
          (if ApiType = API_TYPE.API_OPENGL then [] else [Call.Write "\tVertexData ps;\n" []]) := by
  unfold vertexDataAndMain mainHead
  cases ApiType <;> simp only [reduceCtorEq, ↓reduceIte] <;> split_ifs <;> rfl

set_option maxRecDepth 100000 in
theorem callsWalk_beforeMain (cfg : VideoConfig) (ApiType : API_TYPE) (p vin vout : Nat)
    (le : Bool) (xfr : XFMemory) (d : Nat) :
    callsWalk d ((vertexDataAndMain cfg ApiType p vin vout le xfr).take
      ((vertexDataAndMain cfg ApiType p vin vout le xfr).length -
        (if ApiType = API_TYPE.API_OPENGL then 1 else 2))) = some d := by
  unfold vertexDataAndMain
  cases ApiType <;> simp only [reduceCtorEq, ↓reduceIte] <;> split_ifs <;> rfl

set_option maxRecDepth 100000 in
theorem callWalk_mainHead (cfg : VideoConfig) (ApiType : API_TYPE) (p vin : Nat) (d : Nat) :
    callWalk d (mainHead cfg ApiType p vin) = some (d + 1) := by
  unfold mainHead
  cases ApiType <;> simp only [reduceCtorEq, ↓reduceIte]
  · rfl
  · rcases tableArg_d3d_cases p with h | h | h | h <;> rw [h] <;> split_ifs <;> rfl

theorem callsText_append (H : VSOutputShape) (a b : List Call) :
    callsText H (a ++ b) = callsText H a ++ callsText H b := by
  simp only [callsText_eq_flatten, List.map_append, List.flatten_append]

/-- What follows the head of `main` up to, and without, the brace that closes `main`. -/
theorem callsWalk_mainBody (cfg : VideoConfig) (ApiType : API_TYPE) (p vin : Nat) (le : Bool)
    (xfr : XFMemory) (d : Nat) :
    callsWalk d
      ((if ApiType = API_TYPE.API_OPENGL then [] else [Call.Write "\tVertexData ps;\n" []]) ++
        primitiveSetup ApiType p le xfr ++ stereoEye cfg ++
        (loopHead cfg vin ++ loopBody cfg ApiType p le xfr ++
          Call.Write "\t\x7d\n" [] :: EndPrimitive cfg ApiType le xfr) ++
        (if stereoFallback cfg then [Call.Write "\t\x7d\n" []] else [])) = some d := by
  refine callsWalk_append_of _ _ d _ d
    (callsWalk_append_of _ _ d _ _
      (callsWalk_append_of _ _ d _ _
        (callsWalk_append_of _ _ d d d ?_ (callsWalk_primitiveSetup _ _ _ _ _))
        (callsWalk_stereoEye cfg d))
      (callsWalk_loop cfg ApiType p vin le xfr _))
    (callsWalk_closer cfg d)
  cases ApiType <;> rfl

/-- C16: for a primitive kind in POINTS, LINES, TRIANGLES, both backends, every flag combination
and every texture-coordinate-generator count, if the vertex-output-shape helpers emit no brace
unless handed one, the text has balanced braces: no prefix has more closing than opening braces
and the totals are equal.  The calls are a part with balanced braces, the head of `main`, which
opens one block, a body with balanced braces of its own (so that nothing in it closes `main`)
and the final `Write` of a closing brace and a line feed, which end the text.  The eye loop of
the stereo fallback is opened once, exactly when stereo is active without multi-invocation, and
exactly then one closing brace is written between the end of the primitive and the end of
`main`; the calls between opening and closing have balanced braces of their own. -/
theorem balanced_blocks (H : VSOutputShape) (ho : H.Avoids openBrace)
    (hc : H.Avoids closeBrace) (cfg : VideoConfig) (dummy_data : geometry_shader_uid_data)
    (mem : Memory) (object : ShaderCode) (primitive_type : Nat) (ApiType : API_TYPE)
    (xfr : XFMemory) (hp : primitive_type ≤ PRIMITIVE_TRIANGLES) :
    (∀ k,
      ((callsText H (GenerateGeometryShaderCode H cfg dummy_data mem object primitive_type
          ApiType xfr).calls).take k).count closeBrace ≤
        ((callsText H (GenerateGeometryShaderCode H cfg dummy_data mem object primitive_type
          ApiType xfr).calls).take k).count openBrace) ∧
    (callsText H (GenerateGeometryShaderCode H cfg dummy_data mem object primitive_type
        ApiType xfr).calls).count openBrace =
      (callsText H (GenerateGeometryShaderCode H cfg dummy_data mem object primitive_type
        ApiType xfr).calls).count closeBrace ∧
    (∃ pre body,
      (GenerateGeometryShaderCode H cfg dummy_data mem object primitive_type ApiType xfr).calls =
        pre ++ mainHead cfg ApiType primitive_type (primitive_type + 1) ::
          (body ++ [Call.Write "\x7d\n" []]) ∧
      braceWalk 0 (callsText H pre) = some 0 ∧
      braceWalk 0 ((mainHead cfg ApiType primitive_type (primitive_type + 1)).text H) = some 1 ∧
      braceWalk 0 (callsText H body) = some 0 ∧
      callsText H (GenerateGeometryShaderCode H cfg dummy_data mem object primitive_type ApiType
          xfr).calls =
        callsText H (pre ++ mainHead cfg ApiType primitive_type (primitive_type + 1) :: body) ++
          [closeBrace, '\n']) ∧
    (∃ before between,
      (GenerateGeometryShaderCode H cfg dummy_data mem object primitive_type ApiType xfr).calls =
        before ++ stereoEye cfg ++ between ++
          ((if stereoFallback cfg then [Call.Write "\t\x7d\n" []] else []) ++
            [Call.Write "\x7d\n" []]) ∧
      braceWalk 0 (callsText H between) = some 0) ∧
    callsWith "\tfor (int eye = 0; eye < 2; ++eye) \x7b\n"
        (GenerateGeometryShaderCode H cfg dummy_data mem object primitive_type ApiType
          xfr).calls =
      (if stereoFallback cfg then [[]] else []) := by
  have hvin : vertex_in primitive_type = primitive_type + 1 := vertex_in_of_le primitive_type hp
  have hcalls := GenerateGeometryShaderCode_calls H cfg dummy_data mem object primitive_type
    ApiType xfr
  rw [hvin] at hcalls
  have hsplit := vertexDataAndMain_split cfg ApiType primitive_type (primitive_type + 1)
    (vertex_out cfg primitive_type) (lightingEnabled cfg xfr) xfr
  have hpre0 := fun d => callsWalk_beforeMain cfg ApiType primitive_type (primitive_type + 1)
    (vertex_out cfg primitive_type) (lightingEnabled cfg xfr) xfr d
  generalize (vertexDataAndMain cfg ApiType primitive_type (primitive_type + 1)
    (vertex_out cfg primitive_type) (lightingEnabled cfg xfr) xfr).take _ = pre0
    at hsplit hpre0
  have hbody := fun d => callsWalk_mainBody cfg ApiType primitive_type (primitive_type + 1)
    (lightingEnabled cfg xfr) xfr d
  have hloop := callsWalk_loop cfg ApiType primitive_type (primitive_type + 1)
    (lightingEnabled cfg xfr) xfr 0
  have hpre : ∀ d, callsWalk d (layoutParameters cfg ApiType primitive_type
      (vertex_out cfg primitive_type) ++
      uniformsAndStruct cfg ApiType (lightingEnabled cfg xfr) xfr ++ pre0) = some d :=
    fun d => callsWalk_append_of _ _ d d d
      (callsWalk_append_of _ _ d d d (callsWalk_layoutParameters _ _ _ _ _)
        (callsWalk_uniformsAndStruct _ _ _ _ _)) (hpre0 d)
  have hstruct : (GenerateGeometryShaderCode H cfg dummy_data mem object primitive_type ApiType
      xfr).calls =
      (layoutParameters cfg ApiType primitive_type (vertex_out cfg primitive_type) ++
        uniformsAndStruct cfg ApiType (lightingEnabled cfg xfr) xfr ++ pre0) ++
      mainHead cfg ApiType primitive_type (primitive_type + 1) ::
        (((if ApiType = API_TYPE.API_OPENGL then [] else
            [Call.Write "\tVertexData ps;\n" []]) ++
          primitiveSetup ApiType primitive_type (lightingEnabled cfg xfr) xfr ++ stereoEye cfg ++
          (loopHead cfg (primitive_type + 1) ++
            loopBody cfg ApiType primitive_type (lightingEnabled cfg xfr) xfr ++
            Call.Write "\t\x7d\n" [] :: EndPrimitive cfg ApiType (lightingEnabled cfg xfr) xfr) ++
          (if stereoFallback cfg then [Call.Write "\t\x7d\n" []] else [])) ++
        [Call.Write "\x7d\n" []]) := by
    rw [hcalls, shaderCalls_eq_stereoEye, hsplit]
    simp only [stereoFallback, List.append_assoc, List.cons_append, List.nil_append]
  have hfinal : ∀ d, callsWalk (d + 1) [Call.Write "\x7d\n" []] = some d := fun d => rfl
  have hwhole : callsWalk 0 (GenerateGeometryShaderCode H cfg dummy_data mem object
      primitive_type ApiType xfr).calls = some 0 := by
    rw [hstruct]
    refine callsWalk_append_of _ _ 0 0 0 (hpre 0) ?_
    show (match callWalk 0 (mainHead cfg ApiType primitive_type (primitive_type + 1)) with
      | some e => callsWalk e _
      | none => none) = some 0
    rw [callWalk_mainHead]
    exact callsWalk_append_of _ _ 1 1 0 (hbody 1) (hfinal 0)
  have hcount := braceWalk_counts _ 0 0 (callsWalk_sound H ho hc _ 0 0 hwhole)
  refine ⟨fun k => by simpa using hcount.1 k, by simpa using hcount.2, ?_, ?_, ?_⟩
  · refine ⟨_, _, hstruct, callsWalk_sound H ho hc _ 0 0 (hpre 0),
      callWalk_sound H ho hc _ 0 1 (callWalk_mainHead _ _ _ _ 0),
      callsWalk_sound H ho hc _ 0 0 (hbody 0), ?_⟩
    rw [hstruct, ← List.cons_append, ← List.append_assoc, callsText_append]
    rfl
  · refine ⟨layoutParameters cfg ApiType primitive_type (vertex_out cfg primitive_type) ++
        uniformsAndStruct cfg ApiType (lightingEnabled cfg xfr) xfr ++
        vertexDataAndMain cfg ApiType primitive_type (primitive_type + 1)
          (vertex_out cfg primitive_type) (lightingEnabled cfg xfr) xfr ++
        primitiveSetup ApiType primitive_type (lightingEnabled cfg xfr) xfr,
      _, ?_, callsWalk_sound H ho hc _ 0 0 hloop⟩
    rw [hcalls, shaderCalls_eq_stereoEye]
    rfl
  · rw [hcalls, callsWith_shaderCalls_stereoEye _ (by decide)]
    unfold stereoEye stereoFallback
    by_cases hs : cfg.iStereoMode > 0 <;>
      by_cases hi : cfg.backend_info.bSupportsGSInstancing = true <;>
      simp only [hs, hi, ↓reduceIte, decide_True, decide_False, Bool.true_and, Bool.false_and,
        Bool.not_true, Bool.not_false, Bool.false_eq_true] <;> rfl

/-- C16, instantiated: a wireframe stereo POINTS draw on OpenGL without multi-invocation and
with two texture-coordinate generators, the helpers being the sample ones: as many opening as
closing braces, and the eye loop opened once. -/
theorem balanced_blocks_witness :
    (callsText sampleShape (GenerateGeometryShaderCode sampleShape
        { plainConfig with bWireFrame := true, iStereoMode := 1 } zeroUid blankMemory freshCode
        PRIMITIVE_POINTS API_TYPE.API_OPENGL
        { numTexGens := 2, numColorChans := 0, rest := [] }).calls).count openBrace =
      (callsText sampleShape (GenerateGeometryShaderCode sampleShape
        { plainConfig with bWireFrame := true, iStereoMode := 1 } zeroUid blankMemory freshCode
        PRIMITIVE_POINTS API_TYPE.API_OPENGL
        { numTexGens := 2, numColorChans := 0, rest := [] }).calls).count closeBrace ∧
    callsWith "\tfor (int eye = 0; eye < 2; ++eye) \x7b\n"
        (GenerateGeometryShaderCode sampleShape
          { plainConfig with bWireFrame := true, iStereoMode := 1 } zeroUid blankMemory freshCode
          PRIMITIVE_POINTS API_TYPE.API_OPENGL
          { numTexGens := 2, numColorChans := 0, rest := [] }).calls = [[]] :=
  ⟨(balanced_blocks sampleShape sampleShape_avoids_openBrace sampleShape_avoids_closeBrace
      { plainConfig with bWireFrame := true, iStereoMode := 1 } zeroUid blankMemory freshCode
      PRIMITIVE_POINTS API_TYPE.API_OPENGL { numTexGens := 2, numColorChans := 0, rest := [] }
      (by decide)).2.1,
   (balanced_blocks sampleShape sampleShape_avoids_openBrace sampleShape_avoids_closeBrace
      { plainConfig with bWireFrame := true, iStereoMode := 1 } zeroUid blankMemory freshCode
      PRIMITIVE_POINTS API_TYPE.API_OPENGL { numTexGens := 2, numColorChans := 0, rest := [] }
      (by decide)).2.2.2.2⟩

end GeometryShaderGen
